import Mathlib

/-!
InfiniTAM: multi-map frame scheduler, rendering-block builder, ray-marcher and surfel store.

A shallow embedding of

* `ITMLib/Objects/ITMSurfelScene.h` (the surfel store),
* `ITMLib/Core/ITMMultiEngine.tpp` (`ProcessFrame`, the per-frame todo-list walk),
* `ITMLib/Engine/DeviceAgnostic/ITMVisualisationEngine.h`
  (`ProjectSingleBlock`, `CreateRenderingBlocks`, `castRay`),

followed by theorems about these definitions.

Conventions of the embedding.

* `size_t` is a natural number below `2 ^ 64`; additions on it wrap modulo `2 ^ 64`.
* `int` values are unbounded integers (no arithmetic in the modelled code gets near the
  limits of `int` for inputs in range).
* `float` values are exact rationals: rounding, NaN and infinities are not modelled.  The
  theorems on `castRay` are about the tests and the state transitions of a march; none of
  them claims that the path length of a march makes progress, which rounding can prevent.
* Collaborators whose code lives in other files (tracker, dense mapper, relocaliser, active
  map manager, pose database, global adjustment engine, SDF readers) are parameters: each is
  a function on an abstract collaborator state `W`.  The calls the scheduler makes on them
  (and the `resize` of the todo list) are also recorded, in order, in a trace of events.
-/

namespace ITMLib

/-! ## ITMSurfelScene.h -/

/-- Number of values of a `size_t` (64-bit target). -/
def SIZE_T_RANGE : Nat := 2 ^ 64

/-- The maximum number of surfels that we can store in a scene. -/
def MAX_SURFEL_COUNT : Nat := 10000000

/-- The fields of `ITMSurfelScene` that `AllocateSurfels`, `GetSurfelCount` and `Reset` use:
`m_surfelCount` and the `dataSize` of the memory block `m_surfelsMB`. -/
structure ITMSurfelScene where
  m_surfelCount : Nat
  dataSize : Nat
deriving DecidableEq, Repr

/-- The constructor: count `0`, a memory block of `MAX_SURFEL_COUNT` elements. -/
def ITMSurfelScene.construct : ITMSurfelScene :=
  { m_surfelCount := 0, dataSize := MAX_SURFEL_COUNT }

/-- `AllocateSurfels(newSurfelCount)`.  The returned pointer is `none` for `NULL` and
`some k` for `m_surfelsMB->GetData(m_memoryType) + k`.  The sum is a `size_t` sum. -/
def ITMSurfelScene.AllocateSurfels (s : ITMSurfelScene) (newSurfelCount : Nat) :
    Option Nat × ITMSurfelScene :=
  if (s.m_surfelCount + newSurfelCount) % SIZE_T_RANGE > s.dataSize then (none, s)
  else
    let newSurfels := s.m_surfelCount
    (some newSurfels,
      { s with m_surfelCount := (s.m_surfelCount + newSurfelCount) % SIZE_T_RANGE })

/-- `GetSurfelCount()`. -/
def ITMSurfelScene.GetSurfelCount (s : ITMSurfelScene) : Nat := s.m_surfelCount

/-- `Reset()`. -/
def ITMSurfelScene.Reset (s : ITMSurfelScene) : ITMSurfelScene :=
  { s with m_surfelCount := 0 }

/-- A call on a surfel scene. -/
inductive SurfelCall where
  | allocate (n : Nat)
  | reset
deriving DecidableEq, Repr

/-- The scene after one call. -/
def ITMSurfelScene.call (s : ITMSurfelScene) : SurfelCall → ITMSurfelScene
  | .allocate n => (s.AllocateSurfels n).2
  | .reset => s.Reset

/-- The scene after a sequence of calls, first call first. -/
def ITMSurfelScene.calls (s : ITMSurfelScene) (cs : List SurfelCall) : ITMSurfelScene :=
  cs.foldl ITMSurfelScene.call s

/-! ## ITMMultiEngine.tpp -/

/-- `ITMTrackingState::TrackingResult`. -/
inductive TrackingResult where
  | TRACKING_GOOD
  | TRACKING_POOR
  | TRACKING_FAILED
deriving DecidableEq, Repr

/-- The scene types of `ITMActiveMapManager` that `ProcessFrame` names; `OTHER` stands for
every further enumerator (the `default` label of the switch). -/
inductive SceneType where
  | PRIMARY_SCENE
  | NEW_SCENE
  | LOOP_CLOSURE
  | RELOCALISATION
  | OTHER
deriving DecidableEq, Repr

/-- Number of nearest neighbours to find in the loop closure detection. -/
def k_loopcloseneighbours : Nat := 3

/-- Maximum distance reported by LCD library to attempt relocalisation (`0.1f`). -/
def F_maxdistattemptreloc : ℚ := 1 / 10

/-- The compile-time switch between the optimizer thread and the inline optimizer. -/
def MultithreadedGlobalAdjustment : Bool := true

/-- `struct TodoListEntry`. -/
structure TodoListEntry where
  dataID : Int
  track : Bool
  fusion : Bool
  prepare : Bool
  preprepare : Bool
deriving DecidableEq, Repr

/-- The four-argument constructor: `preprepare(false)`. -/
def TodoListEntry.make (_activeDataID : Int) (_track _fusion _prepare : Bool) : TodoListEntry :=
  { dataID := _activeDataID, track := _track, fusion := _fusion, prepare := _prepare,
    preprepare := false }

/-- `RelocLib::PoseDatabase::PoseInScene`. -/
structure PoseInScene (Pose : Type) where
  sceneIdx : Int
  pose : Pose

/-- What `mLoopClosureDetector->ProcessFrame` hands back: its return value and the two
output arrays `NN` and `distances`. -/
structure RelocOutput where
  addKeyframeIdx : Int
  NN : Nat → Int
  distances : Nat → ℚ

/-- The collaborators of `ITMMultiEngine`, as functions on their joint state `W`.  A scene's
`trackingState->pose_d` is kept by the engine model itself; only `Track` hands back a new pose. -/
structure Collaborators (W Pose : Type) where
  UpdateView : W → Bool → W
  findPrimaryDataIdx : W → Int
  numActiveScenes : W → Int
  getSceneType : W → Int → SceneType
  getSceneIndex : W → Int → Int
  initiateNewLink : W → Int → Pose → Bool → Int × W
  recordTrackingResult : W → Int → TrackingResult → Bool → W
  maintainActiveData : W → Bool × W
  relocaliserProcessFrame : W → Bool → RelocOutput × W
  storePose : W → Int → Pose → Int → W
  retrievePose : W → Int → PoseInScene Pose
  Track : W → Int → Pose → (Pose × TrackingResult) × W
  Prepare : W → Int → Pose → W
  denseMapperProcessFrame : W → Int → Pose → W
  UpdateVisibleList : W → Int → Pose → W
  updateMeasurements : W → Bool × W
  wakeupSeparateThread : W → W
  runGlobalAdjustment : W → W
  retrieveNewEstimates : W → W
  numScenes : W → Nat
  findTransformation : W → Int → Int → Pose

/-- A call made by `ProcessFrame`; `i` is the todo-list index being processed. -/
inductive Event (Pose : Type) where
  | UpdateHostFromDevice (i : Nat)
  | relocaliserProcessFrame (i : Nat) (primaryTrackingSuccess : Bool) (addKeyframeIdx : Int)
  | getScene (i : Nat) (sceneIdx : Int)
  | storePose (i : Nat) (id : Int) (pose : Pose) (sceneIdx : Int)
  | retrievePose (i : Nat) (id : Int)
  | initiateNewLink (i : Nat) (sceneIdx : Int) (pose : Pose) (isRelocalisation : Bool)
      (newDataIdx : Int)
  | UpdateVisibleList (i : Nat) (sceneIdx : Int)
  | Prepare (i : Nat) (sceneIdx : Int)
  | Track (i : Nat) (dataID : Int) (sceneIdx : Int) (trackerResult : TrackingResult)
  | getSceneType (i : Nat) (dataID : Int) (ret : SceneType)
  | resize (i : Nat) (newSize : Nat)
  | recordTrackingResult (i : Nat) (dataID : Int) (trackingResult : TrackingResult)
      (primaryTrackingSuccess : Bool)
  | denseMapperProcessFrame (i : Nat) (sceneIdx : Int)
  | maintainActiveData (ret : Bool)
  | updateMeasurements (ret : Bool)
  | wakeupSeparateThread
  | runGlobalAdjustment
  | retrieveNewEstimates
deriving DecidableEq, Repr

/-- The local variables of `ProcessFrame` during the walk, the collaborator state, the poses
`getScene(idx)->trackingState->pose_d`, and the calls made so far.
`primarySceneTrackingResult` is `none` while the local is uninitialised. -/
structure WalkState (W Pose : Type) where
  world : W
  pose_d : Int → Pose
  todoList : List TodoListEntry
  primaryDataIdx : Int
  primaryTrackingSuccess : Bool
  primarySceneTrackingResult : Option TrackingResult
  trace : List (Event Pose)

/-- Append one call to the trace. -/
def WalkState.log {W Pose : Type} (s : WalkState W Pose) (e : Event Pose) : WalkState W Pose :=
  { s with trace := s.trace ++ [e] }

/-- The terminator entry `TodoListEntry(-1, false, false, false)`. -/
def terminator : TodoListEntry := TodoListEntry.make (-1) false false false

/-- Label `case RELOCALISATION:` of the switch, followed by `default: break`. -/
def caseRELOCALISATION (i : Int) (todoList : List TodoListEntry) : List TodoListEntry :=
  todoList ++ [TodoListEntry.make i true false true]

/-- Label `case LOOP_CLOSURE:`; there is no `break`, control falls into the next label. -/
def caseLOOP_CLOSURE (i : Int) (todoList : List TodoListEntry) : List TodoListEntry :=
  caseRELOCALISATION i (todoList ++ [TodoListEntry.make i true false true])

/-- Label `case NEW_SCENE:`; there is no `break`, control falls into the next label. -/
def caseNEW_SCENE (i : Int) (todoList : List TodoListEntry) : List TodoListEntry :=
  caseLOOP_CLOSURE i (todoList ++ [TodoListEntry.make i true true true])

/-- The `switch (mActiveDataManager->getSceneType(i))` of the first loop. -/
def switchSceneType (t : SceneType) (i : Int) (todoList : List TodoListEntry) :
    List TodoListEntry :=
  match t with
  | .NEW_SCENE => caseNEW_SCENE i todoList
  | .LOOP_CLOSURE => caseLOOP_CLOSURE i todoList
  | .RELOCALISATION => caseRELOCALISATION i todoList
  | _ => todoList

/-- The loop `for (int i = 0; i < numActiveScenes(); ++i)`: `n` iterations remain, the next
one has index `i`. -/
def activeScenesLoop {W Pose : Type} (c : Collaborators W Pose) (w : W) :
    Nat → Int → List TodoListEntry → List TodoListEntry
  | 0, _, todoList => todoList
  | n + 1, i, todoList =>
    activeScenesLoop c w n (i + 1) (switchSceneType (c.getSceneType w i) i todoList)

/-- The todo list as it stands when the walk starts (lines 148-167). -/
def buildTodoList {W Pose : Type} (c : Collaborators W Pose) (w : W) : List TodoListEntry :=
  let primaryDataIdx := c.findPrimaryDataIdx w
  let todoList : List TodoListEntry :=
    if primaryDataIdx ≥ 0 then [TodoListEntry.make primaryDataIdx true true true] else []
  let todoList := activeScenesLoop c w (c.numActiveScenes w).toNat 0 todoList
  todoList ++ [terminator]

/-- The body of the loop `for (int j = 0; j < k_loopcloseneighbours; ++j)` of the terminator
branch (lines 195-203). -/
def newLinkBody {W Pose : Type} (c : Collaborators W Pose) (i : Nat) (primarySceneIdx : Int)
    (r : RelocOutput) (j : Nat) (s : WalkState W Pose) : WalkState W Pose :=
  if r.distances j > F_maxdistattemptreloc then s
  else
    let keyframe := c.retrievePose s.world (r.NN j)
    let s := s.log (.retrievePose i (r.NN j))
    let isRelocalisation : Bool := decide (primarySceneIdx < 0)
    let res := c.initiateNewLink s.world keyframe.sceneIdx keyframe.pose isRelocalisation
    let newDataIdx := res.1
    let s := { s with world := res.2 }
    let s := s.log (.initiateNewLink i keyframe.sceneIdx keyframe.pose isRelocalisation
      newDataIdx)
    if newDataIdx ≥ 0 then
      let todoItem := { TodoListEntry.make newDataIdx true false true with
        preprepare := true }
      { s with todoList := s.todoList ++ [todoItem] }
    else s

/-- The loop `for (int j = 0; j < k_loopcloseneighbours; ++j)` (lines 193-204): `n`
iterations remain, the next one has index `j`. -/
def newLinkLoop {W Pose : Type} (c : Collaborators W Pose) (i : Nat) (primarySceneIdx : Int)
    (r : RelocOutput) : Nat → Nat → WalkState W Pose → WalkState W Pose
  | 0, _, s => s
  | n + 1, j, s =>
    newLinkLoop c i primarySceneIdx r n (j + 1) (newLinkBody c i primarySceneIdx r j s)

/-- The branch `if (todoList[i].dataID == -1) { ... continue; }` (lines 177-207). -/
def terminatorStep {W Pose : Type} (c : Collaborators W Pose) (i : Nat) (s : WalkState W Pose) :
    WalkState W Pose :=
  let s := s.log (.UpdateHostFromDevice i)
  let res := c.relocaliserProcessFrame s.world s.primaryTrackingSuccess
  let addKeyframeIdx := res.1.addKeyframeIdx
  let s := { s with world := res.2 }
  let s := s.log (.relocaliserProcessFrame i s.primaryTrackingSuccess addKeyframeIdx)
  let primarySceneIdx : Int :=
    if s.primaryDataIdx ≥ 0 then c.getSceneIndex s.world s.primaryDataIdx else -1
  if addKeyframeIdx ≥ 0 then
    let s := s.log (.getScene i primarySceneIdx)
    let pose := s.pose_d primarySceneIdx
    let s := { s with world := c.storePose s.world addKeyframeIdx pose primarySceneIdx }
    s.log (.storePose i addKeyframeIdx pose primarySceneIdx)
  else newLinkLoop c i primarySceneIdx res.1 k_loopcloseneighbours 0 s

/-- The tracking result after line 236: POOR counts as FAILED unless the entry is primary. -/
def effectiveResult (t : SceneType) (trackerResult : TrackingResult) : TrackingResult :=
  if t ≠ SceneType.PRIMARY_SCENE then
    if trackerResult = TrackingResult.TRACKING_POOR then TrackingResult.TRACKING_FAILED
    else trackerResult
  else trackerResult

/-- Overwrite `todoList[i]`. -/
def WalkState.setEntry {W Pose : Type} (s : WalkState W Pose) (i : Nat) (e : TodoListEntry) :
    WalkState W Pose :=
  { s with todoList := s.todoList.set i e }

/-- The block `if (todoList[i].track) { ... }` (lines 220-263). -/
def trackBlock {W Pose : Type} (c : Collaborators W Pose) (i : Nat) (currentSceneIdx : Int)
    (s : WalkState W Pose) : WalkState W Pose :=
  let dataID := (s.todoList.getD i terminator).dataID
  let oldPose := s.pose_d currentSceneIdx
  let res := c.Track s.world currentSceneIdx oldPose
  let trackerResult := res.1.2
  let s := { s with world := res.2,
                    pose_d := Function.update s.pose_d currentSceneIdx res.1.1 }
  let s := s.log (.Track i dataID currentSceneIdx trackerResult)
  let s := s.log (.getSceneType i dataID (c.getSceneType s.world dataID))
  let trackingResult := effectiveResult (c.getSceneType s.world dataID) trackerResult
  let s :=
    if trackingResult ≠ TrackingResult.TRACKING_GOOD then
      s.setEntry i { s.todoList.getD i terminator with fusion := false }
    else s
  let s :=
    if trackingResult = TrackingResult.TRACKING_FAILED then
      let s := s.setEntry i { s.todoList.getD i terminator with prepare := false }
      { s with pose_d := Function.update s.pose_d currentSceneIdx oldPose }
    else s
  let s := s.log (.getSceneType i dataID (c.getSceneType s.world dataID))
  let s :=
    if c.getSceneType s.world dataID = SceneType.PRIMARY_SCENE then
      let s := { s with primarySceneTrackingResult := some trackingResult }
      if trackingResult = TrackingResult.TRACKING_GOOD then
        { s with primaryTrackingSuccess := true }
      else if trackingResult = TrackingResult.TRACKING_FAILED then
        let s := { s with primaryDataIdx := -1,
                          todoList := s.todoList.take (i + 1) ++ [terminator] }
        s.log (.resize i (i + 1))
      else s
    else s
  let s := { s with world :=
    c.recordTrackingResult s.world dataID trackingResult s.primaryTrackingSuccess }
  s.log (.recordTrackingResult i dataID trackingResult s.primaryTrackingSuccess)

/-- Lines 265-270: fusion, else the visible-list update; then the Prepare raycast. -/
def fusePrepareBlock {W Pose : Type} (c : Collaborators W Pose) (i : Nat)
    (currentSceneIdx : Int) (s : WalkState W Pose) : WalkState W Pose :=
  let e := s.todoList.getD i terminator
  let s :=
    if e.fusion then
      let s := { s with world :=
        c.denseMapperProcessFrame s.world currentSceneIdx (s.pose_d currentSceneIdx) }
      s.log (.denseMapperProcessFrame i currentSceneIdx)
    else if e.prepare then
      let s := { s with world :=
        c.UpdateVisibleList s.world currentSceneIdx (s.pose_d currentSceneIdx) }
      s.log (.UpdateVisibleList i currentSceneIdx)
    else s
  if e.prepare then
    let s := { s with world := c.Prepare s.world currentSceneIdx (s.pose_d currentSceneIdx) }
    s.log (.Prepare i currentSceneIdx)
  else s

/-- The `preprepare` block (lines 214-218). -/
def preprepareBlock {W Pose : Type} (c : Collaborators W Pose) (i : Nat)
    (currentSceneIdx : Int) (s : WalkState W Pose) : WalkState W Pose :=
  if (s.todoList.getD i terminator).preprepare then
    let s := { s with world :=
      c.UpdateVisibleList s.world currentSceneIdx (s.pose_d currentSceneIdx) }
    let s := s.log (.UpdateVisibleList i currentSceneIdx)
    let s := { s with world := c.Prepare s.world currentSceneIdx (s.pose_d currentSceneIdx) }
    s.log (.Prepare i currentSceneIdx)
  else s

/-- The body of the walk for an entry that is not a terminator (lines 209-270). -/
def regularStep {W Pose : Type} (c : Collaborators W Pose) (i : Nat) (s : WalkState W Pose) :
    WalkState W Pose :=
  let currentSceneIdx := c.getSceneIndex s.world (s.todoList.getD i terminator).dataID
  let s := s.log (.getScene i currentSceneIdx)
  let s := preprepareBlock c i currentSceneIdx s
  let s := if (s.todoList.getD i terminator).track then trackBlock c i currentSceneIdx s else s
  fusePrepareBlock c i currentSceneIdx s

/-- One iteration of `for (size_t i = 0; i < todoList.size(); ++i)`. -/
def walkStep {W Pose : Type} (c : Collaborators W Pose) (i : Nat) (s : WalkState W Pose) :
    WalkState W Pose :=
  if (s.todoList.getD i terminator).dataID = -1 then terminatorStep c i s
  else regularStep c i s

/-- The walk over the todo list, whose length may grow while it runs.  `none` when the fuel
runs out before `i` reaches `todoList.size()`. -/
def walk {W Pose : Type} (c : Collaborators W Pose) : Nat → Nat → WalkState W Pose →
    Option (WalkState W Pose)
  | fuel, i, s =>
    if i < s.todoList.length then
      match fuel with
      | 0 => none
      | fuel + 1 => walk c fuel (i + 1) (walkStep c i s)
    else some s

/-- The members of `ITMMultiEngine` that `ProcessFrame` and `changeFreeviewSceneIdx` use. -/
structure ITMMultiEngine (W Pose : Type) where
  world : W
  pose_d : Int → Pose
  mScheduleGlobalAdjustment : Bool
  freeviewSceneIdx : Int

/-- Lines 273-285: the global adjustment hand-off. -/
def globalAdjustmentBlock {W Pose : Type} (c : Collaborators W Pose)
    (mScheduleGlobalAdjustment : Bool) (s : WalkState W Pose) : Bool × WalkState W Pose :=
  let res := c.maintainActiveData s.world
  let s := { s with world := res.2 }
  let s := s.log (.maintainActiveData res.1)
  let schedule := mScheduleGlobalAdjustment || res.1
  let out : Bool × WalkState W Pose :=
    if schedule then
      let res := c.updateMeasurements s.world
      let s := { s with world := res.2 }
      let s := s.log (.updateMeasurements res.1)
      if res.1 then
        let s :=
          if MultithreadedGlobalAdjustment then
            ({ s with world := c.wakeupSeparateThread s.world }).log .wakeupSeparateThread
          else ({ s with world := c.runGlobalAdjustment s.world }).log .runGlobalAdjustment
        (false, s)
      else (schedule, s)
    else (schedule, s)
  let s := out.2
  let s := { s with world := c.retrieveNewEstimates s.world }
  (out.1, s.log .retrieveNewEstimates)

/-- What one `ProcessFrame` call leaves behind: the returned value (`none` when the local
`primarySceneTrackingResult` was never assigned), the engine, and the calls made. -/
structure FrameOutcome (W Pose : Type) where
  result : Option TrackingResult
  engine : ITMMultiEngine W Pose
  trace : List (Event Pose)
  todoList : List TodoListEntry

/-- The walk state at line 169, before the first iteration. -/
def initialWalkState {W Pose : Type} (c : Collaborators W Pose) (eng : ITMMultiEngine W Pose)
    (hasImu : Bool) : WalkState W Pose :=
  let w := c.UpdateView eng.world hasImu
  { world := w, pose_d := eng.pose_d, todoList := buildTodoList c w,
    primaryDataIdx := c.findPrimaryDataIdx w, primaryTrackingSuccess := false,
    primarySceneTrackingResult := none, trace := [] }

/-- `ITMMultiEngine::ProcessFrame`.  `hasImu` says whether `imuMeasurement != NULL`; `fuel`
bounds the number of iterations of the walk. -/
def ProcessFrame {W Pose : Type} (c : Collaborators W Pose) (fuel : Nat)
    (eng : ITMMultiEngine W Pose) (hasImu : Bool) : Option (FrameOutcome W Pose) :=
  match walk c fuel 0 (initialWalkState c eng hasImu) with
  | none => none
  | some s =>
    let out := globalAdjustmentBlock c eng.mScheduleGlobalAdjustment s
    some { result := out.2.primarySceneTrackingResult,
           engine := { eng with world := out.2.world, pose_d := out.2.pose_d,
                                mScheduleGlobalAdjustment := out.1 },
           trace := out.2.trace,
           todoList := out.2.todoList }

/-- What `changeFreeviewSceneIdx` needs of `ORUtils::SE3Pose` and `Matrix4f`: the pose type
`Pose`, the matrix type `M`, and the operations it calls. -/
structure PoseOps (Pose M : Type) where
  GetM : Pose → M
  GetInvM : Pose → M
  SetM : Pose → M → Pose
  Coerce : Pose → Pose
  mul : M → M → M

/-- The conversion `(unsigned)newIdx` of an `int` (32 bits). -/
def toUnsigned (v : Int) : Nat := (v % 2 ^ 32).toNat

/-- The index on which `changeFreeviewSceneIdx` settles (lines 98-99). -/
def selectFreeviewSceneIdx (numScenes : Nat) (newIdx : Int) : Int :=
  let newIdx := if newIdx < -1 then (numScenes : Int) - 1 else newIdx
  if toUnsigned newIdx ≥ numScenes then -1 else newIdx

/-- `ITMMultiEngine::changeFreeviewSceneIdx(pose, newIdx)`: the new `*pose` and the engine. -/
def changeFreeviewSceneIdx {W Pose M : Type} (c : Collaborators W Pose) (ops : PoseOps Pose M)
    (eng : ITMMultiEngine W Pose) (pose : Pose) (newIdx : Int) :
    Pose × ITMMultiEngine W Pose :=
  let newIdx := selectFreeviewSceneIdx (c.numScenes eng.world) newIdx
  let trafo := c.findTransformation eng.world eng.freeviewSceneIdx newIdx
  let pose := ops.SetM pose (ops.mul (ops.GetM pose) (ops.GetInvM trafo))
  let pose := ops.Coerce pose
  (pose, { eng with freeviewSceneIdx := newIdx })

/-! ## ITMVisualisationEngine.h -/

/-- `Vector2i`. -/
structure Vector2i where
  x : Int
  y : Int
deriving DecidableEq, Repr

/-- `Vector2s` and `Vector3s` components are `short`; this is the value an `int` has after
being stored in one. -/
def toShort (v : Int) : Int := (v + 2 ^ 15) % 2 ^ 16 - 2 ^ 15

/-- `Vector3s`. -/
structure Vector3s where
  x : Int
  y : Int
  z : Int
deriving DecidableEq, Repr

/-- `Vector2f`. -/
structure Vector2f where
  x : ℚ
  y : ℚ
deriving DecidableEq

/-- `Vector3f`. -/
structure Vector3f where
  x : ℚ
  y : ℚ
  z : ℚ
deriving DecidableEq

/-- `Vector4f`. -/
structure Vector4f where
  x : ℚ
  y : ℚ
  z : ℚ
  w : ℚ
deriving DecidableEq

/-- `Matrix4f`, given by its four rows. -/
structure Matrix4f where
  row0 : Vector4f
  row1 : Vector4f
  row2 : Vector4f
  row3 : Vector4f

/-- Dot product of two `Vector4f`. -/
def Vector4f.dot (a b : Vector4f) : ℚ := a.x * b.x + a.y * b.y + a.z * b.z + a.w * b.w

/-- `Matrix4f * Vector4f`. -/
def Matrix4f.mulVec (m : Matrix4f) (v : Vector4f) : Vector4f :=
  { x := m.row0.dot v, y := m.row1.dot v, z := m.row2.dot v, w := m.row3.dot v }

/-- `TO_VECTOR3`. -/
def TO_VECTOR3 (v : Vector4f) : Vector3f := { x := v.x, y := v.y, z := v.z }

/-- `Vector3f + Vector3f`. -/
def Vector3f.add (a b : Vector3f) : Vector3f := { x := a.x + b.x, y := a.y + b.y, z := a.z + b.z }

/-- `Vector3f - Vector3f`. -/
def Vector3f.sub (a b : Vector3f) : Vector3f := { x := a.x - b.x, y := a.y - b.y, z := a.z - b.z }

/-- `float * Vector3f`. -/
def Vector3f.smul (k : ℚ) (a : Vector3f) : Vector3f := { x := k * a.x, y := k * a.y, z := k * a.z }

/-- `struct RenderingBlock`; the two corners are `Vector2s`. -/
structure RenderingBlock where
  upperLeft : Vector2i
  lowerRight : Vector2i
  zRange : Vector2f
deriving DecidableEq

/-- `FAR_AWAY`. -/
def FAR_AWAY : ℚ := 9999999 / 10

/-- `VERY_CLOSE`. -/
def VERY_CLOSE : ℚ := 5 / 100

/-- `renderingBlockSizeX`. -/
def renderingBlockSizeX : Int := 16

/-- `renderingBlockSizeY`. -/
def renderingBlockSizeY : Int := 16

/-- `MAX_RENDERING_BLOCKS`. -/
def MAX_RENDERING_BLOCKS : Int := 65536 * 4

/-- `minmaximg_subsample`. -/
def minmaximg_subsample : Int := 4

/-- The bounding box and depth range that the corner loop of `ProjectSingleBlock` builds up. -/
structure BlockBounds where
  upperLeft : Vector2i
  lowerRight : Vector2i
  zRange : Vector2f
deriving DecidableEq

/-- One iteration of `for (int corner = 0; corner < 8; ++corner)` (lines 37-56).
`SDF_BLOCK_SIZE` is a constant of `ITMLibDefines.h`.  The conversions `(int)floor(..)` and
`(int)ceil(..)` are taken as exact: a projection outside the range of `int`, which the source
cannot convert, is kept as it is here. -/
def projectCorner (SDF_BLOCK_SIZE : Int) (blockPos : Vector3s) (pose : Matrix4f)
    (intrinsics : Vector4f) (voxelSize : ℚ) (corner : Nat) (b : BlockBounds) : BlockBounds :=
  let tmp : Vector3s :=
    { x := toShort (blockPos.x + (if corner &&& 1 ≠ 0 then 1 else 0)),
      y := toShort (blockPos.y + (if corner &&& 2 ≠ 0 then 1 else 0)),
      z := toShort (blockPos.z + (if corner &&& 4 ≠ 0 then 1 else 0)) }
  let pt3d : Vector4f :=
    { x := (tmp.x : ℚ) * (SDF_BLOCK_SIZE : ℚ) * voxelSize,
      y := (tmp.y : ℚ) * (SDF_BLOCK_SIZE : ℚ) * voxelSize,
      z := (tmp.z : ℚ) * (SDF_BLOCK_SIZE : ℚ) * voxelSize,
      w := 1 }
  let pt3d := pose.mulVec pt3d
  if pt3d.z < 1 / 1000000 then b
  else
    let pt2d : Vector2f :=
      { x := (intrinsics.x * pt3d.x / pt3d.z + intrinsics.z) / (minmaximg_subsample : ℚ),
        y := (intrinsics.y * pt3d.y / pt3d.z + intrinsics.w) / (minmaximg_subsample : ℚ) }
    let upperLeft := b.upperLeft
    let lowerRight := b.lowerRight
    let zRange := b.zRange
    let upperLeft := if (upperLeft.x : ℚ) > (⌊pt2d.x⌋ : ℚ) then { upperLeft with x := ⌊pt2d.x⌋ }
      else upperLeft
    let lowerRight := if (lowerRight.x : ℚ) < (⌈pt2d.x⌉ : ℚ) then { lowerRight with x := ⌈pt2d.x⌉ }
      else lowerRight
    let upperLeft := if (upperLeft.y : ℚ) > (⌊pt2d.y⌋ : ℚ) then { upperLeft with y := ⌊pt2d.y⌋ }
      else upperLeft
    let lowerRight := if (lowerRight.y : ℚ) < (⌈pt2d.y⌉ : ℚ) then { lowerRight with y := ⌈pt2d.y⌉ }
      else lowerRight
    let zRange := if zRange.x > pt3d.z then { zRange with x := pt3d.z } else zRange
    let zRange := if zRange.y < pt3d.z then { zRange with y := pt3d.z } else zRange
    { upperLeft := upperLeft, lowerRight := lowerRight, zRange := zRange }

/-- The corner loop of `ProjectSingleBlock`, from its initial bounds (lines 32-57). -/
def projectCorners (SDF_BLOCK_SIZE : Int) (blockPos : Vector3s) (pose : Matrix4f)
    (intrinsics : Vector4f) (imgSize : Vector2i) (voxelSize : ℚ) : BlockBounds :=
  (List.range 8).foldl
    (fun b corner => projectCorner SDF_BLOCK_SIZE blockPos pose intrinsics voxelSize corner b)
    { upperLeft := { x := Int.tdiv imgSize.x minmaximg_subsample,
                     y := Int.tdiv imgSize.y minmaximg_subsample },
      lowerRight := { x := -1, y := -1 },
      zRange := { x := FAR_AWAY, y := VERY_CLOSE } }

/-- Lines 60-61 of `ProjectSingleBlock`: `upperLeft` is kept at or above zero. -/
def clampUpperLeft (upperLeft : Vector2i) : Vector2i :=
  let upperLeft := if upperLeft.x < 0 then { upperLeft with x := 0 } else upperLeft
  if upperLeft.y < 0 then { upperLeft with y := 0 } else upperLeft

/-- Lines 62-63 of `ProjectSingleBlock`: `lowerRight` is kept below the image size. -/
def clampLowerRight (imgSize lowerRight : Vector2i) : Vector2i :=
  let lowerRight := if lowerRight.x ≥ imgSize.x then { lowerRight with x := imgSize.x - 1 }
    else lowerRight
  if lowerRight.y ≥ imgSize.y then { lowerRight with y := imgSize.y - 1 } else lowerRight

/-- The sanity checks of `ProjectSingleBlock` (lines 59-70) on the bounds the corner loop
left; the outputs are written whether or not the function returns `true`. -/
def clampBounds (imgSize : Vector2i) (b : BlockBounds) : Bool × BlockBounds :=
  let upperLeft := clampUpperLeft b.upperLeft
  let lowerRight := clampLowerRight imgSize b.lowerRight
  let zRange := b.zRange
  if upperLeft.x > lowerRight.x then
    (false, { upperLeft := upperLeft, lowerRight := lowerRight, zRange := zRange })
  else if upperLeft.y > lowerRight.y then
    (false, { upperLeft := upperLeft, lowerRight := lowerRight, zRange := zRange })
  else
    let zRange := if zRange.x < VERY_CLOSE then { zRange with x := VERY_CLOSE } else zRange
    if zRange.y < VERY_CLOSE then
      (false, { upperLeft := upperLeft, lowerRight := lowerRight, zRange := zRange })
    else (true, { upperLeft := upperLeft, lowerRight := lowerRight, zRange := zRange })

/-- `ProjectSingleBlock`: the returned flag and the outputs `upperLeft`, `lowerRight`,
`zRange`. -/
def ProjectSingleBlock (SDF_BLOCK_SIZE : Int) (blockPos : Vector3s) (pose : Matrix4f)
    (intrinsics : Vector4f) (imgSize : Vector2i) (voxelSize : ℚ) : Bool × BlockBounds :=
  clampBounds imgSize (projectCorners SDF_BLOCK_SIZE blockPos pose intrinsics imgSize voxelSize)

/-- The loop bound `ceil((float)extent / blockSize)` of `CreateRenderingBlocks`. -/
def tileCount (extent blockSize : Int) : Int := ⌈(extent : ℚ) / (blockSize : ℚ)⌉

/-- The rendering block written for tile `(bx, by)` (lines 82-88).  The four corner
coordinates are stored in `short` fields. -/
def makeRenderingBlock (upperLeft lowerRight : Vector2i) (zRange : Vector2f) (bx by_ : Int) :
    RenderingBlock :=
  let ulx := toShort (upperLeft.x + bx * renderingBlockSizeX)
  let uly := toShort (upperLeft.y + by_ * renderingBlockSizeY)
  let lrx := toShort (upperLeft.x + (bx + 1) * renderingBlockSizeX - 1)
  let lry := toShort (upperLeft.y + (by_ + 1) * renderingBlockSizeY - 1)
  let lrx := if lrx > lowerRight.x then toShort lowerRight.x else lrx
  let lry := if lry > lowerRight.y then toShort lowerRight.y else lry
  { upperLeft := { x := ulx, y := uly }, lowerRight := { x := lrx, y := lry }, zRange := zRange }

/-- The running `offset` of `CreateRenderingBlocks` and the writes made so far to
`renderingBlockList`, each with the slot index it went to, in order. -/
structure BlockListState where
  offset : Int
  writes : List (Int × RenderingBlock)

/-- The inner loop over `bx` (lines 78-89): `n` iterations remain, the next one has index
`bx`.  The flag says whether `return` was executed. -/
def innerBlockLoop (upperLeft lowerRight : Vector2i) (zRange : Vector2f) (by_ : Int) :
    Nat → Int → BlockListState → Bool × BlockListState
  | 0, _, st => (false, st)
  | n + 1, bx, st =>
    if st.offset ≥ MAX_RENDERING_BLOCKS then (true, st)
    else
      innerBlockLoop upperLeft lowerRight zRange by_ n (bx + 1)
        { offset := st.offset + 1,
          writes := st.writes ++ [(st.offset, makeRenderingBlock upperLeft lowerRight zRange bx by_)] }

/-- The outer loop over `by` (lines 77-90): `n` iterations remain, the next one has index
`by_`. -/
def outerBlockLoop (upperLeft lowerRight : Vector2i) (zRange : Vector2f) :
    Nat → Int → BlockListState → BlockListState
  | 0, _, st => st
  | n + 1, by_, st =>
    let r := innerBlockLoop upperLeft lowerRight zRange by_
      (tileCount (1 + lowerRight.x - upperLeft.x) renderingBlockSizeX).toNat 0 st
    if r.1 then r.2 else outerBlockLoop upperLeft lowerRight zRange n (by_ + 1) r.2

/-- `CreateRenderingBlocks`: the writes it makes to `renderingBlockList`, each with its slot
index, in the order they are made. -/
def CreateRenderingBlocks (offset : Int) (upperLeft lowerRight : Vector2i) (zRange : Vector2f) :
    List (Int × RenderingBlock) :=
  (outerBlockLoop upperLeft lowerRight zRange
    (tileCount (1 + lowerRight.y - upperLeft.y) renderingBlockSizeY).toNat 0
    { offset := offset, writes := [] }).writes

/-- The states of the ray march. -/
inductive RayState where
  | SEARCH_BLOCK_COARSE
  | SEARCH_BLOCK_FINE
  | SEARCH_SURFACE
  | BEHIND_SURFACE
  | WRONG_SIDE
deriving DecidableEq, Repr

/-- What `castRay` uses from other files: the constant `SDF_BLOCK_SIZE`, `sqrt`, and the two
SDF readers of `ITMRepresentationAccess.h` applied to the voxel volume at hand; a reader hands
back the SDF value and the flag it stores in `hash_found`. -/
structure RayEnv where
  SDF_BLOCK_SIZE : Int
  sqrt : ℚ → ℚ
  readFromSDF_float_uninterpolated : Vector3f → ℚ × Bool
  readFromSDF_float_interpolated : Vector3f → ℚ × Bool

/-- One evaluation of lines 169-172: the path length at that point, the state in which the
sign test was made, the uninterpolated value, the interpolated value when it was read, and the
value tested. -/
structure SdfRead where
  totalLength : ℚ
  state : RayState
  uninterpolated : ℚ
  interpolated : Option ℚ
  sdfValue : ℚ
deriving DecidableEq

/-- The variables of the march loop of `castRay`, and the reads made inside the loop. -/
structure March where
  state : RayState
  hash_found : Bool
  sdfValue : ℚ
  pt_result : Vector3f
  totalLength : ℚ
  reads : List SdfRead
deriving DecidableEq

/-- The two `switch` statements at the head of the loop body (lines 137-164): the state
after them and `stepLength`. -/
def selectStep (env : RayEnv) (stepScale : ℚ) (state : RayState) (hash_found : Bool)
    (sdfValue : ℚ) : RayState × ℚ :=
  if ¬ hash_found then
    match state with
    | .SEARCH_BLOCK_COARSE => (.SEARCH_BLOCK_COARSE, (env.SDF_BLOCK_SIZE : ℚ))
    | .SEARCH_BLOCK_FINE => (.SEARCH_BLOCK_FINE, stepScale)
    | _ => (.SEARCH_BLOCK_COARSE, (env.SDF_BLOCK_SIZE : ℚ))
  else
    match state with
    | .SEARCH_BLOCK_COARSE => (.SEARCH_BLOCK_FINE, stepScale - (env.SDF_BLOCK_SIZE : ℚ))
    | .WRONG_SIDE => (.WRONG_SIDE, min (sdfValue * stepScale) (-1))
    | .SEARCH_BLOCK_FINE => (.SEARCH_SURFACE, max (sdfValue * stepScale) 1)
    | s => (s, max (sdfValue * stepScale) 1)

/-- Lines 169-170: the uninterpolated read, replaced by the interpolated one when it lies
in `[-0.1, 0]`.  Gives the value, `hash_found`, and the interpolated value if read. -/
def readSdf (env : RayEnv) (pt : Vector3f) : ℚ × Bool × Option ℚ :=
  let r := env.readFromSDF_float_uninterpolated pt
  if r.1 ≤ 0 ∧ r.1 ≥ -(1 / 10) then
    let r2 := env.readFromSDF_float_interpolated pt
    (r2.1, r2.2, some r2.1)
  else (r.1, r.2, none)

/-- Lines 172-173: the state after the sign test. -/
def signTest (state : RayState) (sdfValue : ℚ) : RayState :=
  if sdfValue ≤ 0 then
    if state = RayState.SEARCH_BLOCK_FINE then RayState.WRONG_SIDE else RayState.BEHIND_SURFACE
  else if state = RayState.WRONG_SIDE then RayState.SEARCH_SURFACE
  else state

/-- Lines 137-167 of one loop iteration: choose the step, advance `pt_result` and
`totalLength`.  The two sums are exact here; in the source they are rounded to `float`, so a
step that is small against the path length can leave it unchanged. -/
def advance (env : RayEnv) (stepScale : ℚ) (rayDirection : Vector3f) (m : March) : March :=
  let sel := selectStep env stepScale m.state m.hash_found m.sdfValue
  { m with state := sel.1,
           pt_result := m.pt_result.add (Vector3f.smul sel.2 rayDirection),
           totalLength := m.totalLength + sel.2 }

/-- Lines 169-173 of one loop iteration: read the SDF at `pt_result`, then the sign test. -/
def readAndTest (env : RayEnv) (m : March) : March :=
  let r := readSdf env m.pt_result
  { m with state := signTest m.state r.1,
           hash_found := r.2.1,
           sdfValue := r.1,
           reads := m.reads ++
             [{ totalLength := m.totalLength,
                state := m.state,
                uninterpolated := (env.readFromSDF_float_uninterpolated m.pt_result).1,
                interpolated := r.2.2, sdfValue := r.1 }] }

/-- The loop `while (state != BEHIND_SURFACE)` (lines 135-174).  The flag of the result says
whether the loop was left through `break`; `none` when the fuel runs out first. -/
def marchLoop (env : RayEnv) (stepScale : ℚ) (rayDirection : Vector3f) (totalLengthMax : ℚ) :
    Nat → March → Option (Bool × March)
  | fuel, m =>
    if m.state = RayState.BEHIND_SURFACE then some (false, m)
    else
      match fuel with
      | 0 => none
      | fuel + 1 =>
        let m := advance env stepScale rayDirection m
        if m.totalLength > totalLengthMax then some (true, m)
        else marchLoop env stepScale rayDirection totalLengthMax fuel (readAndTest env m)

/-- The arguments of `castRay` other than the voxel volume. -/
structure RayArgs where
  x : Int
  y : Int
  invM : Matrix4f
  projParams : Vector4f
  oneOverVoxelSize : ℚ
  mu : ℚ
  viewFrustum_minmax : Vector2f

/-- `length` of a `Vector3f`. -/
def Vector3f.length (env : RayEnv) (v : Vector3f) : ℚ := env.sqrt (v.x * v.x + v.y * v.y + v.z * v.z)

/-- The point `pt_camera_f` of lines 105-108 and 112-115 for depth `z`. -/
def cameraPoint (a : RayArgs) (z : ℚ) : Vector4f :=
  { x := z * (((a.x : ℚ) - a.projParams.z) * a.projParams.x),
    y := z * (((a.y : ℚ) - a.projParams.w) * a.projParams.y),
    z := z, w := 1 }

/-- `stepScale` (line 103). -/
def RayArgs.stepScale (a : RayArgs) : ℚ := a.mu * a.oneOverVoxelSize

/-- `totalLengthMax` (line 116). -/
def RayArgs.totalLengthMax (env : RayEnv) (a : RayArgs) : ℚ :=
  (TO_VECTOR3 (cameraPoint a a.viewFrustum_minmax.y)).length env * a.oneOverVoxelSize

/-- `pt_block_s` (line 110). -/
def RayArgs.pt_block_s (a : RayArgs) : Vector3f :=
  Vector3f.smul a.oneOverVoxelSize (TO_VECTOR3 (a.invM.mulVec (cameraPoint a a.viewFrustum_minmax.x)))

/-- `pt_block_e` (line 117). -/
def RayArgs.pt_block_e (a : RayArgs) : Vector3f :=
  Vector3f.smul a.oneOverVoxelSize (TO_VECTOR3 (a.invM.mulVec (cameraPoint a a.viewFrustum_minmax.y)))

/-- `rayDirection` after normalisation (lines 119-121).  For a ray of length zero the
quotient is `1 / 0 = 0` here, where the source divides by zero in `float`. -/
def RayArgs.rayDirection (env : RayEnv) (a : RayArgs) : Vector3f :=
  let d := a.pt_block_e.sub a.pt_block_s
  let direction_norm := 1 / env.sqrt (d.x * d.x + d.y * d.y + d.z * d.z)
  Vector3f.smul direction_norm d

/-- The loop variables when the loop is entered (lines 109-134). -/
def initialMarch (env : RayEnv) (a : RayArgs) : March :=
  let r := env.readFromSDF_float_uninterpolated a.pt_block_s
  { state := if ¬ r.2 then RayState.SEARCH_BLOCK_COARSE
             else if r.1 ≤ 0 then RayState.WRONG_SIDE
             else RayState.SEARCH_SURFACE,
    hash_found := r.2,
    sdfValue := r.1,
    pt_result := a.pt_block_s,
    totalLength := (TO_VECTOR3 (cameraPoint a a.viewFrustum_minmax.x)).length env * a.oneOverVoxelSize,
    reads := [] }

/-- What a run of `castRay` leaves: the returned `pt_found`, the output `pt_out`, and how the
loop ended (left through `break`, and the loop variables at that moment). -/
structure RayOutcome where
  pt_found : Bool
  pt_out : Vector4f
  leftByBreak : Bool
  last : March
deriving DecidableEq

/-- Lines 176-187 of `castRay`, on the loop variables with which the loop ended. -/
def finishRay (stepScale : ℚ) (rayDirection : Vector3f) (leftByBreak : Bool) (m : March) :
    RayOutcome :=
  let pt_result :=
    if m.state = RayState.BEHIND_SURFACE then
      m.pt_result.add (Vector3f.smul (m.sdfValue * stepScale) rayDirection)
    else m.pt_result
  let pt_found : Bool := decide (m.state = RayState.BEHIND_SURFACE)
  { pt_found := pt_found,
    pt_out := { x := pt_result.x, y := pt_result.y, z := pt_result.z,
                w := if pt_found then 1 else 0 },
    leftByBreak := leftByBreak,
    last := m }

/-- `castRay` with the way its loop ended; `none` when `fuel` iterations do not end the loop. -/
def castRayRun (env : RayEnv) (fuel : Nat) (a : RayArgs) : Option RayOutcome :=
  match marchLoop env a.stepScale (a.rayDirection env) (a.totalLengthMax env) fuel
      (initialMarch env a) with
  | none => none
  | some r => some (finishRay a.stepScale (a.rayDirection env) r.1 r.2)

/-- `castRay`: the returned flag and `pt_out`. -/
def castRay (env : RayEnv) (fuel : Nat) (a : RayArgs) : Option (Bool × Vector4f) :=
  (castRayRun env fuel a).map (fun o => (o.pt_found, o.pt_out))

/-! ## Concrete inputs -/

/-- A scripted scene: what the active map manager reports (the type of an entry may depend on
the numbers of `Track` and relocaliser calls made so far), the result of the `k`-th `Track`
call, the output of the `k`-th relocaliser call, and the entry created for a link to a
sub-map. -/
structure Script where
  primaryDataIdx : Int
  numActiveScenes : Int
  sceneType : Nat × Nat → Int → SceneType
  sceneIndex : Int → Int
  trackerResult : Nat → TrackingResult
  relocOutput : Nat → RelocOutput
  newLinkDataID : Int → Int

/-- The collaborators that play a script.  Their state counts the `Track` calls and the
relocaliser calls made so far; poses are integers and every `Track` call adds one. -/
def Script.collaborators (p : Script) : Collaborators (Nat × Nat) Int :=
  { UpdateView := fun w _ => w,
    findPrimaryDataIdx := fun _ => p.primaryDataIdx,
    numActiveScenes := fun _ => p.numActiveScenes,
    getSceneType := fun w d => p.sceneType w d,
    getSceneIndex := fun _ d => p.sceneIndex d,
    initiateNewLink := fun w sceneIdx _ _ => (p.newLinkDataID sceneIdx, w),
    recordTrackingResult := fun w _ _ _ => w,
    maintainActiveData := fun w => (false, w),
    relocaliserProcessFrame := fun w _ => (p.relocOutput w.2, (w.1, w.2 + 1)),
    storePose := fun w _ _ _ => w,
    retrievePose := fun _ id => { sceneIdx := id, pose := 0 },
    Track := fun w _ pose => ((pose + 1, p.trackerResult w.1), (w.1 + 1, w.2)),
    Prepare := fun w _ _ => w,
    denseMapperProcessFrame := fun w _ _ => w,
    UpdateVisibleList := fun w _ _ => w,
    updateMeasurements := fun w => (false, w),
    wakeupSeparateThread := fun w => w,
    runGlobalAdjustment := fun w => w,
    retrieveNewEstimates := fun w => w,
    numScenes := fun _ => 1,
    findTransformation := fun _ _ _ => 0 }

/-- An engine at the start of a frame: no call made yet, every pose `0`. -/
def freshEngine : ITMMultiEngine (Nat × Nat) Int :=
  { world := (0, 0), pose_d := fun _ => 0, mScheduleGlobalAdjustment := false,
    freeviewSceneIdx := 0 }

/-- A relocaliser output that adds no keyframe and proposes no neighbour in range. -/
def noNeighbour : RelocOutput :=
  { addKeyframeIdx := -1, NN := fun _ => 0, distances := fun _ => 1 }

/-- A relocaliser output that adds no keyframe and proposes keyframe `id` at distance `0`
as its only neighbour in range. -/
def oneNeighbour (id : Int) : RelocOutput :=
  { addKeyframeIdx := -1, NN := fun _ => id, distances := fun j => if j = 0 then 0 else 1 }

/-- The primary (entry `0`) and a relocalisation candidate (entry `1`) both on sub-map `0`;
the tracker reports GOOD on its first call and POOR afterwards. -/
def sharedSubmapScript : Script :=
  { primaryDataIdx := 0,
    numActiveScenes := 2,
    sceneType := fun _ d => if d = 0 then .PRIMARY_SCENE else if d = 1 then .RELOCALISATION
      else .OTHER,
    sceneIndex := fun _ => 0,
    trackerResult := fun k => if k = 0 then .TRACKING_GOOD else .TRACKING_POOR,
    relocOutput := fun _ => noNeighbour,
    newLinkDataID := fun _ => -1 }

/-- The primary (entry `0`, sub-map `0`) and one NEW entry (entry `1`, sub-map `1`); the
tracker reports GOOD on every call. -/
def primaryAndNewScript : Script :=
  { primaryDataIdx := 0,
    numActiveScenes := 2,
    sceneType := fun _ d => if d = 0 then .PRIMARY_SCENE else if d = 1 then .NEW_SCENE
      else .OTHER,
    sceneIndex := fun d => d,
    trackerResult := fun _ => .TRACKING_GOOD,
    relocOutput := fun _ => noNeighbour,
    newLinkDataID := fun _ => -1 }

/-- The primary (entry `0`, sub-map `0`) and one RELOCALISATION entry (entry `1`, sub-map
`1`); the tracker reports GOOD for the primary and FAILED afterwards. -/
def failedCandidateScript : Script :=
  { primaryDataIdx := 0,
    numActiveScenes := 2,
    sceneType := fun _ d => if d = 0 then .PRIMARY_SCENE else if d = 1 then .RELOCALISATION
      else .OTHER,
    sceneIndex := fun d => d,
    trackerResult := fun k => if k = 0 then .TRACKING_GOOD else .TRACKING_FAILED,
    relocOutput := fun _ => noNeighbour,
    newLinkDataID := fun _ => -1 }

/-- The walk state of `failedCandidateScript` after the primary entry (index `0`) has been
processed. -/
def failedCandidateState : WalkState (Nat × Nat) Int :=
  walkStep failedCandidateScript.collaborators 0
    (initialWalkState failedCandidateScript.collaborators freshEngine false)

/-- A square root on `ℚ` that is exact on squares of rationals. -/
def exactSqrt (q : ℚ) : ℚ := (Nat.sqrt q.num.toNat : ℚ) / (Nat.sqrt q.den : ℚ)

/-- The identity matrix. -/
def Matrix4f.identity : Matrix4f :=
  { row0 := { x := 1, y := 0, z := 0, w := 0 },
    row1 := { x := 0, y := 1, z := 0, w := 0 },
    row2 := { x := 0, y := 0, z := 1, w := 0 },
    row3 := { x := 0, y := 0, z := 0, w := 1 } }

/-- The voxel a point falls in along the z axis (nearest integer). -/
def voxelZ (pt : Vector3f) : Int := ⌊pt.z + 1 / 2⌋

/-- A volume with one allocated block, voxels `13..20` along z, whose surface is seen from
behind: the SDF is negative before voxel `16` and positive from there on. -/
def backFaceSdf (pt : Vector3f) : ℚ × Bool :=
  let v := voxelZ pt
  if 13 ≤ v ∧ v ≤ 20 then
    (if v = 13 then -(4 / 5) else if v = 14 then -(1 / 2) else if v = 15 then -(1 / 5)
     else if v = 16 then 1 / 10 else if v = 17 then 3 / 10 else if v = 18 then 1 / 2
     else if v = 19 then 13 / 20 else 4 / 5, true)
  else (1, false)

/-- The same block with the surface seen from the front: the SDF falls from `3/4` at voxel
`13` to `-1` at voxel `20`, crossing zero at voxel `16`. -/
def frontFaceSdf (pt : Vector3f) : ℚ × Bool :=
  let v := voxelZ pt
  if 13 ≤ v ∧ v ≤ 20 then (((16 - v : Int) : ℚ) / 4, true) else (1, false)

/-- The ray environment over `backFaceSdf`. -/
def backFaceEnv : RayEnv :=
  { SDF_BLOCK_SIZE := 8, sqrt := exactSqrt,
    readFromSDF_float_uninterpolated := backFaceSdf,
    readFromSDF_float_interpolated := backFaceSdf }

/-- The ray environment over `frontFaceSdf`. -/
def frontFaceEnv : RayEnv :=
  { SDF_BLOCK_SIZE := 8, sqrt := exactSqrt,
    readFromSDF_float_uninterpolated := frontFaceSdf,
    readFromSDF_float_interpolated := frontFaceSdf }

/-- A volume with no allocated block. -/
def emptyEnv : RayEnv :=
  { SDF_BLOCK_SIZE := 8, sqrt := exactSqrt,
    readFromSDF_float_uninterpolated := fun _ => (1, false),
    readFromSDF_float_interpolated := fun _ => (1, false) }

/-- The ray through the principal point of a camera at the origin looking down the z axis:
voxel size 5 mm, `mu` 2 cm (so `stepScale = 4`), depth range 5 cm to 15 cm (voxels 10 to 30). -/
def axisRay : RayArgs :=
  { x := 0, y := 0, invM := Matrix4f.identity,
    projParams := { x := 1 / 500, y := 1 / 500, z := 0, w := 0 },
    oneOverVoxelSize := 200, mu := 1 / 50,
    viewFrustum_minmax := { x := 1 / 20, y := 3 / 20 } }

/-! ## Observations on traces and walk states -/

/-- The todo-list index at which a call was made; `none` for the calls made after the walk. -/
def Event.index {Pose : Type} : Event Pose → Option Nat
  | .UpdateHostFromDevice i => some i
  | .relocaliserProcessFrame i _ _ => some i
  | .getScene i _ => some i
  | .storePose i _ _ _ => some i
  | .retrievePose i _ => some i
  | .initiateNewLink i _ _ _ _ => some i
  | .UpdateVisibleList i _ => some i
  | .Prepare i _ => some i
  | .Track i _ _ _ => some i
  | .getSceneType i _ _ => some i
  | .resize i _ => some i
  | .recordTrackingResult i _ _ _ => some i
  | .denseMapperProcessFrame i _ => some i
  | .maintainActiveData _ => none
  | .updateMeasurements _ => none
  | .wakeupSeparateThread => none
  | .runGlobalAdjustment => none
  | .retrieveNewEstimates => none

/-- Is the call a query of the relocaliser? -/
def Event.isRelocaliserCall {Pose : Type} : Event Pose → Bool
  | .relocaliserProcessFrame _ _ _ => true
  | _ => false

/-- Is the call the `resize` of the todo list (line 257)? -/
def Event.isResize {Pose : Type} : Event Pose → Bool
  | .resize _ _ => true
  | _ => false

/-- Is the call a `Track` call? -/
def Event.isTrack {Pose : Type} : Event Pose → Bool
  | .Track _ _ _ _ => true
  | _ => false

/-- Is the call one of fusion, visible-list update and Prepare raycast? -/
def Event.isMapping {Pose : Type} : Event Pose → Bool
  | .denseMapperProcessFrame _ _ => true
  | .UpdateVisibleList _ _ => true
  | .Prepare _ _ => true
  | _ => false

/-- How many times a trace queries the relocaliser. -/
def relocaliserCalls {Pose : Type} (tr : List (Event Pose)) : Nat :=
  tr.countP Event.isRelocaliserCall

/-- How many times a trace resizes the todo list. -/
def resizeCalls {Pose : Type} (tr : List (Event Pose)) : Nat :=
  tr.countP Event.isResize

/-- The entry `todoList[i]`. -/
def WalkState.entry {W Pose : Type} (s : WalkState W Pose) (i : Nat) : TodoListEntry :=
  s.todoList.getD i terminator

/-- The scene index `currentSceneIdx` of iteration `i` (line 210). -/
def currentSceneIdxAt {W Pose : Type} (c : Collaborators W Pose) (i : Nat)
    (s : WalkState W Pose) : Int :=
  c.getSceneIndex s.world (s.entry i).dataID

/-- The walk state of iteration `i` at line 230, immediately before `Track` is called. -/
def stateBeforeTrack {W Pose : Type} (c : Collaborators W Pose) (i : Nat)
    (s : WalkState W Pose) : WalkState W Pose :=
  preprepareBlock c i (currentSceneIdxAt c i s) (s.log (.getScene i (currentSceneIdxAt c i s)))

/-- What the `Track` call of iteration `i` hands back. -/
def trackOutcomeAt {W Pose : Type} (c : Collaborators W Pose) (i : Nat)
    (s : WalkState W Pose) : (Pose × TrackingResult) × W :=
  c.Track (stateBeforeTrack c i s).world (currentSceneIdxAt c i s)
    ((stateBeforeTrack c i s).pose_d (currentSceneIdxAt c i s))

/-- The scene type the manager reports for the entry of iteration `i` after `Track`. -/
def sceneTypeAt {W Pose : Type} (c : Collaborators W Pose) (i : Nat)
    (s : WalkState W Pose) : SceneType :=
  c.getSceneType (trackOutcomeAt c i s).2 (s.entry i).dataID

/-- The local `trackingResult` of iteration `i` after line 236. -/
def trackingResultAt {W Pose : Type} (c : Collaborators W Pose) (i : Nat)
    (s : WalkState W Pose) : TrackingResult :=
  effectiveResult (sceneTypeAt c i s) (trackOutcomeAt c i s).1.2

/-- Is the call one of those that follow the relocaliser query in the terminator branch
(lines 192-197)? -/
def Event.isKeyframeCall {Pose : Type} : Event Pose → Bool
  | .getScene _ _ => true
  | .storePose _ _ _ _ => true
  | .retrievePose _ _ => true
  | .initiateNewLink _ _ _ _ _ => true
  | _ => false

/-- The number of terminators among the entries of the todo list from index `i` on. -/
def pendingTerminators {W Pose : Type} (s : WalkState W Pose) (i : Nat) : Nat :=
  (s.todoList.drop i).countP (fun e => decide (e.dataID = -1))

/-- A trace in which no todo entry that is not primary and whose `Track` call reported POOR
is followed up by a fusion call for that entry. -/
def NoFusionAfterPoor {Pose : Type} (tr : List (Event Pose)) : Prop :=
  ∀ (j : Nat) (d sc : Int) (t : SceneType),
    Event.Track j d sc TrackingResult.TRACKING_POOR ∈ tr → Event.getSceneType j d t ∈ tr →
    t ≠ SceneType.PRIMARY_SCENE → ∀ sc', Event.denseMapperProcessFrame j sc' ∉ tr

/-- A trace in which the todo list is resized only at an entry that the manager reported as
primary and whose tracking result was FAILED. -/
def ResizeOnlyOnPrimaryFailure {Pose : Type} (tr : List (Event Pose)) : Prop :=
  ∀ (j n : Nat), Event.resize j n ∈ tr →
    ∃ d b, Event.getSceneType j d SceneType.PRIMARY_SCENE ∈ tr ∧
      Event.recordTrackingResult j d TrackingResult.TRACKING_FAILED b ∈ tr

/-- The calls of lines 266-270 for flags `fusion` and `prepare`. -/
def fuseEvents {Pose : Type} (i : Nat) (sc : Int) (fusion prepare : Bool) : List (Event Pose) :=
  (if fusion then [Event.denseMapperProcessFrame i sc]
   else if prepare then [Event.UpdateVisibleList i sc] else []) ++
  (if prepare then [Event.Prepare i sc] else [])

/-- The calls of the `preprepare` block for flag `preprepare`. -/
def preprepareEvents {Pose : Type} (i : Nat) (sc : Int) (preprepare : Bool) :
    List (Event Pose) :=
  if preprepare then [Event.UpdateVisibleList i sc, Event.Prepare i sc] else []

/-- The calls of the tracking block of iteration `i`, `Track` first; `b` is the flag passed
to `recordTrackingResult`. -/
def trackEvents {W Pose : Type} (c : Collaborators W Pose) (i : Nat) (s : WalkState W Pose)
    (b : Bool) : List (Event Pose) :=
  [Event.Track i (s.entry i).dataID (currentSceneIdxAt c i s) (trackOutcomeAt c i s).1.2,
   Event.getSceneType i (s.entry i).dataID (sceneTypeAt c i s),
   Event.getSceneType i (s.entry i).dataID (sceneTypeAt c i s)] ++
  (if sceneTypeAt c i s = SceneType.PRIMARY_SCENE ∧
      trackingResultAt c i s = TrackingResult.TRACKING_FAILED
   then [Event.resize i (i + 1)] else []) ++
  [Event.recordTrackingResult i (s.entry i).dataID (trackingResultAt c i s) b]

/-- The invariant of the march loop at its head: the state is `BEHIND_SURFACE` exactly when
the last read in the loop gave a value `<= 0` in a state other than `SEARCH_BLOCK_FINE`, and
then that value is the current `sdfValue`; before that no read in the loop did so. -/
def MarchInv (m : March) : Prop :=
  (m.state = RayState.BEHIND_SURFACE →
    ∃ r, m.reads.getLast? = some r ∧ r.sdfValue = m.sdfValue ∧ r.sdfValue ≤ 0 ∧
      r.state ≠ RayState.SEARCH_BLOCK_FINE) ∧
  (m.state ≠ RayState.BEHIND_SURFACE →
    ∀ r ∈ m.reads, ¬ (r.sdfValue ≤ 0 ∧ r.state ≠ RayState.SEARCH_BLOCK_FINE))

/-! ## Further inputs and observations -/

/-- Tracking is lost: no primary and no active entry at the start, and the relocaliser neither
adds a keyframe nor proposes a neighbour in range. -/
def lostScript : Script :=
  { primaryDataIdx := -1,
    numActiveScenes := 0,
    sceneType := fun _ _ => .OTHER,
    sceneIndex := fun d => d,
    trackerResult := fun _ => .TRACKING_FAILED,
    relocOutput := fun _ => noNeighbour,
    newLinkDataID := fun _ => -1 }

/-- As `lostScript`, but the relocaliser hands back keyframe ID `0`. -/
def keyframeWithoutPrimaryScript : Script :=
  { lostScript with relocOutput := fun _ => { noNeighbour with addKeyframeIdx := 0 } }

/-- The collaborators of `primaryAndNewScript` with a map manager that asks for a global
adjustment and an optimizer that takes the measurements. -/
def absorbingCollaborators : Collaborators (Nat × Nat) Int :=
  { primaryAndNewScript.collaborators with
    maintainActiveData := fun w => (true, w),
    updateMeasurements := fun w => (true, w) }

/-- Poses of a one-dimensional world: a pose is a translation, its matrix is the amount,
matrices compose by addition and the inverse is the negation. -/
def translationOps : PoseOps Int Int :=
  { GetM := fun p => p, GetInvM := fun p => -p, SetM := fun _ m => m, Coerce := fun p => p,
    mul := fun a b => a + b }

/-- The collaborators of `primaryAndNewScript` with two sub-maps, sub-map `k` lying at `5 * k`. -/
def twoSubmapCollaborators : Collaborators (Nat × Nat) Int :=
  { primaryAndNewScript.collaborators with
    numScenes := fun _ => 2,
    findTransformation := fun _ a b => 5 * (b - a) }

/-- A camera pose one millimetre in front of the origin of the block grid. -/
def nearPose : Matrix4f :=
  { Matrix4f.identity with row2 := { x := 0, y := 0, z := 1, w := 1 / 1000 } }

/-- The camera-space point `pt3d` of a block corner (lines 38-46 of `ProjectSingleBlock`);
its `z` is the corner's depth. -/
def cornerPoint (SDF_BLOCK_SIZE : Int) (blockPos : Vector3s) (pose : Matrix4f) (voxelSize : ℚ)
    (corner : Nat) : Vector4f :=
  pose.mulVec
    { x := (toShort (blockPos.x + (if corner &&& 1 ≠ 0 then 1 else 0)) : ℚ) *
        (SDF_BLOCK_SIZE : ℚ) * voxelSize,
      y := (toShort (blockPos.y + (if corner &&& 2 ≠ 0 then 1 else 0)) : ℚ) *
        (SDF_BLOCK_SIZE : ℚ) * voxelSize,
      z := (toShort (blockPos.z + (if corner &&& 4 ≠ 0 then 1 else 0)) : ℚ) *
        (SDF_BLOCK_SIZE : ℚ) * voxelSize,
      w := 1 }

/-- A volume with one allocated block, voxels `3..10` along z, all of it behind the surface:
the SDF is `-1/2` in every voxel of the block. -/
def solidSdf (pt : Vector3f) : ℚ × Bool :=
  let v := voxelZ pt
  if 3 ≤ v ∧ v ≤ 10 then (-(1 / 2), true) else (1, false)

/-- The ray environment over `solidSdf`. -/
def solidEnv : RayEnv :=
  { SDF_BLOCK_SIZE := 8, sqrt := exactSqrt,
    readFromSDF_float_uninterpolated := solidSdf,
    readFromSDF_float_interpolated := solidSdf }

/-- A volume with one allocated block, voxels `11..18` along z: the SDF is `-1` up to voxel
`16` and `1/2` in voxels `17` and `18`. -/
def cycleSdf (pt : Vector3f) : ℚ × Bool :=
  let v := voxelZ pt
  if 11 ≤ v ∧ v ≤ 18 then (if v ≤ 16 then -1 else 1 / 2, true) else (1, false)

/-- The ray environment over `cycleSdf`. -/
def cycleEnv : RayEnv :=
  { SDF_BLOCK_SIZE := 8, sqrt := exactSqrt,
    readFromSDF_float_uninterpolated := cycleSdf,
    readFromSDF_float_interpolated := cycleSdf }

/-- A volume with one allocated block, voxels `11..18` along z, whose surface lies just before
voxel `18`: the uninterpolated SDF is `1/2` up to voxel `17` and `-1/20` at voxel `18`. -/
def shallowSdf (pt : Vector3f) : ℚ × Bool :=
  let v := voxelZ pt
  if 11 ≤ v ∧ v ≤ 18 then (if v = 18 then -(1 / 20) else 1 / 2, true) else (1, false)

/-- The interpolated SDF of the same volume: `-1/40` at voxel `18`. -/
def shallowSdfInterpolated (pt : Vector3f) : ℚ × Bool :=
  let v := voxelZ pt
  if 11 ≤ v ∧ v ≤ 18 then (if v = 18 then -(1 / 40) else 1 / 2, true) else (1, false)

/-- The ray environment over `shallowSdf` and `shallowSdfInterpolated`. -/
def shallowEnv : RayEnv :=
  { SDF_BLOCK_SIZE := 8, sqrt := exactSqrt,
    readFromSDF_float_uninterpolated := shallowSdf,
    readFromSDF_float_interpolated := shallowSdfInterpolated }

/-- The `updateMeasurements` calls of a trace. -/
def Event.isUpdateMeasurements {Pose : Type} : Event Pose → Bool
  | .updateMeasurements _ => true
  | _ => false

/-- The calls that start the optimizer: the wake-up of its thread, or the inline run. -/
def Event.isOptimizerStart {Pose : Type} : Event Pose → Bool
  | .wakeupSeparateThread => true
  | .runGlobalAdjustment => true
  | _ => false

/-- The schedule flag after line 273: `mScheduleGlobalAdjustment |= maintainActiveData()`,
for the walk state `s` with which the walk ended. -/
def scheduledAfterMaintain {W Pose : Type} (c : Collaborators W Pose)
    (mScheduleGlobalAdjustment : Bool) (s : WalkState W Pose) : Bool :=
  mScheduleGlobalAdjustment || (c.maintainActiveData s.world).1

/-- What `updateMeasurements` answers when it is called after `maintainActiveData`. -/
def absorbedAfterMaintain {W Pose : Type} (c : Collaborators W Pose) (s : WalkState W Pose) :
    Bool :=
  (c.updateMeasurements (c.maintainActiveData s.world).2).1

/-- The loop variables of the march without the record of the reads. -/
def March.core (m : March) : RayState × Bool × ℚ × Vector3f × ℚ :=
  (m.state, m.hash_found, m.sdfValue, m.pt_result, m.totalLength)

/-- One iteration of the march loop that does not leave through `break`. -/
def marchIter (env : RayEnv) (stepScale : ℚ) (rayDirection : Vector3f) (m : March) : March :=
  readAndTest env (advance env stepScale rayDirection m)

/-- The loop variables of the ray `axisRay` through the volume of `cycleEnv` after `k`
iterations of the march loop. -/
def cycleMarch (k : Nat) : March :=
  (marchIter cycleEnv axisRay.stepScale (axisRay.rayDirection cycleEnv))^[k]
    (initialMarch cycleEnv axisRay)

/-- The ranges handed out by a sequence of `AllocateSurfels` calls with the given sizes, in
order: for every call that succeeds, the offset of the returned pointer from the buffer base
and the size asked for. -/
def ITMSurfelScene.allocations (s : ITMSurfelScene) : List Nat → List (Nat × Nat)
  | [] => []
  | n :: ns =>
    match (s.AllocateSurfels n).1 with
    | some p => (p, n) :: (s.AllocateSurfels n).2.allocations ns
    | none => (s.AllocateSurfels n).2.allocations ns

/-- The todo entries listed for an active entry `i` of role `t`: three for NEW (the first
with fusion), two for LOOP_CLOSURE, one for RELOCALISATION, none for any other role. -/
def roleEntries (t : SceneType) (i : Int) : List TodoListEntry :=
  match t with
  | .NEW_SCENE => [TodoListEntry.make i true true true, TodoListEntry.make i true false true,
      TodoListEntry.make i true false true]
  | .LOOP_CLOSURE => [TodoListEntry.make i true false true, TodoListEntry.make i true false true]
  | .RELOCALISATION => [TodoListEntry.make i true false true]
  | _ => []

/-- The number of active entries `0 .. numActiveScenes() - 1` whose role is `t`. -/
def roleCount {W Pose : Type} (c : Collaborators W Pose) (w : W) (t : SceneType) : Nat :=
  (List.range (c.numActiveScenes w).toNat).countP
    (fun (j : Nat) => decide (c.getSceneType w (j : Int) = t))

/-- The rule of lines 169-170 on the record of one read: the interpolated value was read, and
is the value tested, if the uninterpolated value lies in `[-0.1, 0]`; if not, no interpolated
value was read and the value tested is the uninterpolated one. -/
def SdfRead.obeysRule (r : SdfRead) : Prop :=
  if -(1 / 10) ≤ r.uninterpolated ∧ r.uninterpolated ≤ 0 then r.interpolated = some r.sdfValue
  else r.interpolated = none ∧ r.sdfValue = r.uninterpolated

/-- The index that the free-camera cases of `GetImage` hand to `getScene` (lines 372-373 and
the `else` branch): `freeviewSceneIdx` if it is `>= 0`, and `0` if not. -/
def GetImage_sceneIdx (freeviewSceneIdx : Int) : Int :=
  if freeviewSceneIdx ≥ 0 then freeviewSceneIdx else 0

/-- Whether pixel `(px, py)` lies in a rendering block; both corners belong to the block. -/
def RenderingBlock.contains (b : RenderingBlock) (px py : Int) : Bool :=
  decide (b.upperLeft.x ≤ px ∧ px ≤ b.lowerRight.x ∧ b.upperLeft.y ≤ py ∧ py ≤ b.lowerRight.y)

/-- The walk state after the first `n` iterations of the loop over the todo list (fewer if
the loop ends before). -/
def walkPrefix {W Pose : Type} (c : Collaborators W Pose) (s : WalkState W Pose) :
    Nat → WalkState W Pose
  | 0 => s
  | n + 1 =>
    if n < (walkPrefix c s n).todoList.length then walkStep c n (walkPrefix c s n)
    else walkPrefix c s n

/-- Iteration `j` tracks an entry that the manager reports as PRIMARY, with result GOOD. -/
def primaryGoodAt {W Pose : Type} (c : Collaborators W Pose) (j : Nat)
    (s : WalkState W Pose) : Prop :=
  (s.entry j).dataID ≠ -1 ∧ (s.entry j).track = true ∧
    sceneTypeAt c j s = SceneType.PRIMARY_SCENE ∧
    trackingResultAt c j s = TrackingResult.TRACKING_GOOD

/-- The todo entry of an accepted link: track, no fusion, prepare, and `preprepare`. -/
def linkEntry (dataID : Int) : TodoListEntry :=
  { dataID := dataID, track := true, fusion := false, prepare := true, preprepare := true }

/-- One link attempt in the words of the specification: look up the `(sub-map, pose)` of
neighbour `j`, call `initiateNewLink` with it and with `makePrimaryIfNone`; a returned dataID
`>= 0` appends one todo entry, any other appends nothing. -/
def attemptLink {W Pose : Type} (c : Collaborators W Pose) (i : Nat) (makePrimaryIfNone : Bool)
    (r : RelocOutput) (s : WalkState W Pose) (j : Nat) : WalkState W Pose :=
  let keyframe := c.retrievePose s.world (r.NN j)
  let res := c.initiateNewLink s.world keyframe.sceneIdx keyframe.pose makePrimaryIfNone
  let s := { s with world := res.2,
                    trace := s.trace ++ [Event.retrievePose i (r.NN j),
                      Event.initiateNewLink i keyframe.sceneIdx keyframe.pose makePrimaryIfNone
                        res.1] }
  if 0 ≤ res.1 then { s with todoList := s.todoList ++ [linkEntry res.1] } else s

/-- The link attempts of a terminator in the words of the specification: one attempt for each
neighbour `j` in `0 .. k_loopcloseneighbours - 1` whose distance is at most
`F_maxdistattemptreloc`, in increasing `j`. -/
def linkAttempts {W Pose : Type} (c : Collaborators W Pose) (i : Nat) (makePrimaryIfNone : Bool)
    (r : RelocOutput) (s : WalkState W Pose) : WalkState W Pose :=
  ((List.range k_loopcloseneighbours).filter
    (fun j => decide (r.distances j ≤ F_maxdistattemptreloc))).foldl
    (attemptLink c i makePrimaryIfNone r) s

/-- Every entry of the list `l` with `preprepare = true` is the entry of a link: its dataID
is `>= 0`, it is tracked and not fused, and an `initiateNewLink` call in the trace `tr`
returned its dataID. -/
def LinkedEntries {Pose : Type} (tr : List (Event Pose)) (l : List TodoListEntry) : Prop :=
  ∀ e ∈ l, e.preprepare = true →
    0 ≤ e.dataID ∧ e.track = true ∧ e.fusion = false ∧
      ∃ (j : Nat) (sc : Int) (p : Pose) (b : Bool), Event.initiateNewLink j sc p b e.dataID ∈ tr

/-- No todo entry other than the entry of a link made in this frame has `preprepare = true`. -/
def PreprepareOnlyForLinks {W Pose : Type} (s : WalkState W Pose) : Prop :=
  LinkedEntries s.trace s.todoList

/-- The primary (entry `0`, sub-map `0`) and one RELOCALISATION entry (entry `1`, sub-map
`1`); the tracker reports FAILED on every call. -/
def failedPrimaryScript : Script :=
  { primaryDataIdx := 0,
    numActiveScenes := 2,
    sceneType := fun _ d => if d = 0 then .PRIMARY_SCENE else if d = 1 then .RELOCALISATION
      else .OTHER,
    sceneIndex := fun d => d,
    trackerResult := fun _ => .TRACKING_FAILED,
    relocOutput := fun _ => noNeighbour,
    newLinkDataID := fun _ => -1 }

/-- The primary (entry `0`, sub-map `0`), tracked GOOD.  The relocaliser adds no keyframe and
proposes keyframes `1`, `2`, `3` (in sub-maps `1`, `2`, `3`) at distances `0`, `1/20` and
`1/2`; the manager accepts a link to sub-map `1` (as entry `1`) and refuses any other. -/
def twoNeighbourScript : Script :=
  { primaryDataIdx := 0,
    numActiveScenes := 1,
    sceneType := fun _ d => if d = 0 then .PRIMARY_SCENE else .LOOP_CLOSURE,
    sceneIndex := fun d => d,
    trackerResult := fun _ => .TRACKING_GOOD,
    relocOutput := fun _ =>
      { addKeyframeIdx := -1, NN := fun j => (j : Int) + 1,
        distances := fun j => if j = 0 then 0 else if j = 1 then 1 / 20 else 1 / 2 },
    newLinkDataID := fun sceneIdx => if sceneIdx = 1 then 1 else -1 }

/-- The primary (entry `0`, sub-map `0`) alone; the tracker reports FAILED for it and GOOD
afterwards.  The relocaliser proposes keyframe `1` (in sub-map `1`) on its first call; the
manager attaches the link as entry `1` and reports it as a RELOCALISATION entry. -/
def relocalisationScript : Script :=
  { primaryDataIdx := 0,
    numActiveScenes := 1,
    sceneType := fun _ d => if d = 0 then .PRIMARY_SCENE else .RELOCALISATION,
    sceneIndex := fun d => d,
    trackerResult := fun k => if k = 0 then .TRACKING_FAILED else .TRACKING_GOOD,
    relocOutput := fun k => if k = 0 then oneNeighbour 1 else noNeighbour,
    newLinkDataID := fun sceneIdx => sceneIdx }

/-- Modelled from the spec: the contract of the active map manager (`ITMActiveMapManager`,
whose code is not among the sources embedded here) on the links of one frame.  An entry
attached by `initiateNewLink` is a RELOCALISATION or LOOP_CLOSURE candidate, and a candidate
becomes PRIMARY only once its confirmed-inlier count has reached `n_overlap`, which takes
later frames.  So among the calls of one frame `getSceneType` reports `PRIMARY_SCENE` for no
data index `>= 0` that `initiateNewLink` returned in that frame. -/
def LinksNotPrimary {Pose : Type} (tr : List (Event Pose)) : Prop :=
  ∀ (j k : Nat) (sc : Int) (p : Pose) (b : Bool) (d : Int), 0 ≤ d →
    Event.initiateNewLink j sc p b d ∈ tr →
    Event.getSceneType k d SceneType.PRIMARY_SCENE ∉ tr

/-- The two phases of a walk in which no link is reported as primary.  Before the relocaliser
is queried, the entries still ahead are regular entries followed by one terminator, the last
entry of the list; after the query, every entry still ahead is the entry of a link (it has
`preprepare = true`). -/
def QueryPhase {W Pose : Type} (s : WalkState W Pose) (i : Nat) : Prop :=
  (relocaliserCalls s.trace = 0 ∧
    ∃ l, s.todoList.drop i = l ++ [terminator] ∧ ∀ e ∈ l, e.dataID ≠ -1) ∨
  (relocaliserCalls s.trace = 1 ∧ ∀ e ∈ s.todoList.drop i, e.preprepare = true)

/-! ## Theorems: surfel store -/

/-- Every scene reachable from the constructor keeps the block size of the constructor and a
count within it. -/
theorem calls_invariant (cs : List SurfelCall) (s : ITMSurfelScene)
    (h : s.dataSize = MAX_SURFEL_COUNT ∧ s.m_surfelCount ≤ MAX_SURFEL_COUNT) :
    (s.calls cs).dataSize = MAX_SURFEL_COUNT ∧ (s.calls cs).m_surfelCount ≤ MAX_SURFEL_COUNT := by
  induction cs generalizing s with
  | nil => simpa [ITMSurfelScene.calls] using h
  | cons c cs ih =>
    have step : (s.call c).dataSize = MAX_SURFEL_COUNT ∧
        (s.call c).m_surfelCount ≤ MAX_SURFEL_COUNT := by
      cases c with
      | allocate n =>
        simp only [ITMSurfelScene.call, ITMSurfelScene.AllocateSurfels]
        split
        · exact h
        · rename_i hle
          refine ⟨h.1, ?_⟩
          have := h.1
          simp only [] at hle ⊢
          omega
      | reset => exact ⟨h.1, Nat.zero_le _⟩
    simpa [ITMSurfelScene.calls] using ih (s.call c) step

/-- Without wrap-around of the `size_t` sum, `AllocateSurfels` returns null exactly when the
count plus the request exceeds the block size, and then leaves the count as it was. -/
theorem AllocateSurfels_of_no_wrap (s : ITMSurfelScene) (n : Nat)
    (h : s.m_surfelCount + n < SIZE_T_RANGE) :
    ((s.AllocateSurfels n).1 = none ↔ s.m_surfelCount + n > s.dataSize) ∧
    ((s.AllocateSurfels n).1 = none → (s.AllocateSurfels n).2 = s) := by
  simp only [ITMSurfelScene.AllocateSurfels, Nat.mod_eq_of_lt h]
  split <;> simp_all

/-- C1, evaluated where the code departs from it: in the scene reached from a fresh one by
`AllocateSurfels(1)`, the request `n = 2^64 - 1` (the largest `size_t`) makes count plus `n`
exceed `MAX_SURFEL_COUNT`, yet `AllocateSurfels(n)` returns the non-null pointer `base + 1`
and sets the count to `0`. -/
theorem C1_AllocateSurfels_wraps :
    (ITMSurfelScene.construct.AllocateSurfels 1).2.m_surfelCount = 1 ∧
    (ITMSurfelScene.construct.AllocateSurfels 1).2.m_surfelCount + (2 ^ 64 - 1)
      > MAX_SURFEL_COUNT ∧
    ((ITMSurfelScene.construct.AllocateSurfels 1).2.AllocateSurfels (2 ^ 64 - 1)).1 = some 1 ∧
    ((ITMSurfelScene.construct.AllocateSurfels 1).2.AllocateSurfels (2 ^ 64 - 1)).2.GetSurfelCount
      = 0 := by
  decide

/-- C2: in every state reachable from a freshly constructed surfel scene by a finite sequence
of `AllocateSurfels(n)` and `Reset()` calls, `GetSurfelCount()` is at most
`MAX_SURFEL_COUNT`. -/
theorem C2_surfelCount_le_MAX (cs : List SurfelCall) :
    (ITMSurfelScene.construct.calls cs).GetSurfelCount ≤ MAX_SURFEL_COUNT :=
  (calls_invariant cs ITMSurfelScene.construct ⟨rfl, Nat.zero_le _⟩).2

/-! ## Theorems: the todo-list walk -/

section Walk

variable {W Pose : Type}

theorem getElem?_take_succ_append (l : List TodoListEntry) (i : Nat) (t : TodoListEntry)
    (h : i < l.length) : (l.take (i + 1) ++ [t])[i]? = l[i]? := by
  have h1 : i < (l.take (i + 1)).length := by simp; omega
  simp [List.getElem?_append_left h1, List.getElem?_take]

theorem drop_take_succ_append (l : List TodoListEntry) (i : Nat) (t : TodoListEntry)
    (h : i < l.length) : (l.take (i + 1) ++ [t]).drop (i + 1) = [t] := by
  have h1 : (l.take (i + 1)).length = i + 1 := by simp; omega
  rw [List.drop_append_eq_append_drop, h1]
  simp [List.drop_eq_nil_of_le, h1]

theorem drop_succ_set (l : List TodoListEntry) (i : Nat) (e : TodoListEntry) :
    (l.set i e).drop (i + 1) = l.drop (i + 1) := by
  induction l generalizing i with
  | nil => simp
  | cons a l ih =>
    cases i with
    | zero => simp
    | succ i => simpa using ih i

theorem preprepareBlock_fields (c : Collaborators W Pose) (i : Nat) (sc : Int)
    (s : WalkState W Pose) :
    (preprepareBlock c i sc s).todoList = s.todoList ∧
    (preprepareBlock c i sc s).pose_d = s.pose_d ∧
    (preprepareBlock c i sc s).primaryDataIdx = s.primaryDataIdx ∧
    (preprepareBlock c i sc s).primaryTrackingSuccess = s.primaryTrackingSuccess ∧
    (preprepareBlock c i sc s).primarySceneTrackingResult = s.primarySceneTrackingResult ∧
    (preprepareBlock c i sc s).trace = s.trace ++ preprepareEvents i sc (s.entry i).preprepare := by
  unfold preprepareBlock WalkState.entry preprepareEvents
  split <;> simp_all [WalkState.log]

theorem fusePrepareBlock_fields (c : Collaborators W Pose) (i : Nat) (sc : Int)
    (s : WalkState W Pose) :
    (fusePrepareBlock c i sc s).todoList = s.todoList ∧
    (fusePrepareBlock c i sc s).pose_d = s.pose_d ∧
    (fusePrepareBlock c i sc s).primaryDataIdx = s.primaryDataIdx ∧
    (fusePrepareBlock c i sc s).primaryTrackingSuccess = s.primaryTrackingSuccess ∧
    (fusePrepareBlock c i sc s).primarySceneTrackingResult = s.primarySceneTrackingResult ∧
    (fusePrepareBlock c i sc s).trace = s.trace ++
      fuseEvents i sc (s.entry i).fusion (s.entry i).prepare := by
  unfold fusePrepareBlock WalkState.entry fuseEvents
  split_ifs <;> simp_all [WalkState.log]

theorem stateBeforeTrack_fields (c : Collaborators W Pose) (i : Nat) (s : WalkState W Pose) :
    (stateBeforeTrack c i s).todoList = s.todoList ∧
    (stateBeforeTrack c i s).pose_d = s.pose_d ∧
    (stateBeforeTrack c i s).primaryDataIdx = s.primaryDataIdx ∧
    (stateBeforeTrack c i s).primaryTrackingSuccess = s.primaryTrackingSuccess ∧
    (stateBeforeTrack c i s).primarySceneTrackingResult = s.primarySceneTrackingResult ∧
    (stateBeforeTrack c i s).trace = s.trace ++ Event.getScene i (currentSceneIdxAt c i s) ::
      preprepareEvents i (currentSceneIdxAt c i s) (s.entry i).preprepare := by
  unfold stateBeforeTrack
  have h := preprepareBlock_fields c i (currentSceneIdxAt c i s)
    (s.log (.getScene i (currentSceneIdxAt c i s)))
  simp only [WalkState.log, WalkState.entry] at h ⊢
  simp [h]

/-- What the tracking block leaves, in terms of the answers of the tracker and the manager. -/
theorem trackBlock_fields (c : Collaborators W Pose) (i : Nat) (s : WalkState W Pose)
    (h : i < s.todoList.length) :
    ∃ b, (trackBlock c i (currentSceneIdxAt c i s) (stateBeforeTrack c i s)).trace =
        (stateBeforeTrack c i s).trace ++ trackEvents c i s b ∧
      ((trackBlock c i (currentSceneIdxAt c i s) (stateBeforeTrack c i s)).entry i).dataID =
        (s.entry i).dataID ∧
      ((trackBlock c i (currentSceneIdxAt c i s) (stateBeforeTrack c i s)).entry i).fusion =
        ((s.entry i).fusion && decide (trackingResultAt c i s = TrackingResult.TRACKING_GOOD)) ∧
      ((trackBlock c i (currentSceneIdxAt c i s) (stateBeforeTrack c i s)).entry i).prepare =
        ((s.entry i).prepare && decide (trackingResultAt c i s ≠ TrackingResult.TRACKING_FAILED)) ∧
      (trackBlock c i (currentSceneIdxAt c i s) (stateBeforeTrack c i s)).todoList.drop (i + 1) =
        (if sceneTypeAt c i s = SceneType.PRIMARY_SCENE ∧
            trackingResultAt c i s = TrackingResult.TRACKING_FAILED
         then [terminator] else s.todoList.drop (i + 1)) ∧
      (trackingResultAt c i s = TrackingResult.TRACKING_FAILED →
        (trackBlock c i (currentSceneIdxAt c i s) (stateBeforeTrack c i s)).pose_d =
          (stateBeforeTrack c i s).pose_d) := by
  have hf := stateBeforeTrack_fields c i s
  have h' : i < (stateBeforeTrack c i s).todoList.length := by rw [hf.1]; exact h
  have he : (stateBeforeTrack c i s).todoList = s.todoList := hf.1
  simp only [trackBlock, WalkState.log, WalkState.setEntry, WalkState.entry, trackEvents,
    trackingResultAt, sceneTypeAt, trackOutcomeAt, he] at h' ⊢
  split_ifs <;>
    simp_all [getElem?_take_succ_append, drop_take_succ_append, drop_succ_set]

theorem regularStep_eq (c : Collaborators W Pose) (i : Nat) (s : WalkState W Pose) :
    regularStep c i s = fusePrepareBlock c i (currentSceneIdxAt c i s)
      (if ((stateBeforeTrack c i s).entry i).track
       then trackBlock c i (currentSceneIdxAt c i s) (stateBeforeTrack c i s)
       else stateBeforeTrack c i s) := rfl

/-- What one iteration on a regular entry leaves. -/
theorem regularStep_fields (c : Collaborators W Pose) (i : Nat) (s : WalkState W Pose)
    (h : i < s.todoList.length) :
    ∃ b, (regularStep c i s).trace = s.trace ++ Event.getScene i (currentSceneIdxAt c i s) ::
        (preprepareEvents i (currentSceneIdxAt c i s) (s.entry i).preprepare ++
          (if (s.entry i).track then
            trackEvents c i s b ++ fuseEvents i (currentSceneIdxAt c i s)
              ((s.entry i).fusion && decide (trackingResultAt c i s = TrackingResult.TRACKING_GOOD))
              ((s.entry i).prepare &&
                decide (trackingResultAt c i s ≠ TrackingResult.TRACKING_FAILED))
           else fuseEvents i (currentSceneIdxAt c i s) (s.entry i).fusion (s.entry i).prepare)) ∧
      (regularStep c i s).todoList.drop (i + 1) =
        (if (s.entry i).track = true ∧ sceneTypeAt c i s = SceneType.PRIMARY_SCENE ∧
            trackingResultAt c i s = TrackingResult.TRACKING_FAILED
         then [terminator] else s.todoList.drop (i + 1)) ∧
      ((s.entry i).track = true → trackingResultAt c i s = TrackingResult.TRACKING_FAILED →
        (regularStep c i s).pose_d = s.pose_d) := by
  have hf := stateBeforeTrack_fields c i s
  have hentry : (stateBeforeTrack c i s).entry i = s.entry i := by
    simp [WalkState.entry, hf.1]
  obtain ⟨b, hb⟩ := trackBlock_fields c i s h
  refine ⟨b, ?_⟩
  rw [regularStep_eq, hentry]
  by_cases ht : (s.entry i).track = true
  · have hfp := fusePrepareBlock_fields c i (currentSceneIdxAt c i s)
      (trackBlock c i (currentSceneIdxAt c i s) (stateBeforeTrack c i s))
    simp only [ht, if_true, true_and]
    refine ⟨?_, ?_, ?_⟩
    · rw [hfp.2.2.2.2.2, hb.1, hb.2.2.1, hb.2.2.2.1, hf.2.2.2.2.2]
      simp [List.append_assoc]
    · rw [hfp.1, hb.2.2.2.2.1]
    · intro _ hfail
      rw [hfp.2.1, hb.2.2.2.2.2 hfail, hf.2.1]
  · have hfp := fusePrepareBlock_fields c i (currentSceneIdxAt c i s) (stateBeforeTrack c i s)
    simp only [ht, if_false, false_and, Bool.false_eq_true]
    refine ⟨?_, ?_, ?_⟩
    · rw [hfp.2.2.2.2.2, hentry, hf.2.2.2.2.2]
      simp [List.append_assoc]
    · rw [hfp.1, hf.1]
    · intro hc; exact absurd hc (by simp)

theorem newLinkBody_fields (c : Collaborators W Pose) (i : Nat) (p : Int) (r : RelocOutput)
    (j : Nat) (s : WalkState W Pose) :
    ∃ evs extra, (newLinkBody c i p r j s).trace = s.trace ++ evs ∧
      (newLinkBody c i p r j s).todoList = s.todoList ++ extra ∧
      (newLinkBody c i p r j s).pose_d = s.pose_d ∧
      (∀ e ∈ evs, e.index = some i ∧ e.isKeyframeCall = true) ∧
      (∀ e ∈ extra, 0 ≤ e.dataID) := by
  by_cases hd : r.distances j > F_maxdistattemptreloc
  · exact ⟨[], [], by simp [newLinkBody, hd]⟩
  · have hev : ∀ e ∈ [Event.retrievePose i (r.NN j),
        Event.initiateNewLink i (c.retrievePose s.world (r.NN j)).sceneIdx
          (c.retrievePose s.world (r.NN j)).pose (decide (p < 0))
          (c.initiateNewLink s.world (c.retrievePose s.world (r.NN j)).sceneIdx
            (c.retrievePose s.world (r.NN j)).pose (decide (p < 0))).1],
        e.index = some i ∧ e.isKeyframeCall = true := by
      intro e he
      simp only [List.mem_cons, List.mem_singleton, List.not_mem_nil, or_false] at he
      rcases he with rfl | rfl <;> exact ⟨rfl, rfl⟩
    by_cases hge : (c.initiateNewLink s.world (c.retrievePose s.world (r.NN j)).sceneIdx
        (c.retrievePose s.world (r.NN j)).pose (decide (p < 0))).1 ≥ 0
    · refine ⟨_, [{ TodoListEntry.make (c.initiateNewLink s.world
          (c.retrievePose s.world (r.NN j)).sceneIdx
          (c.retrievePose s.world (r.NN j)).pose (decide (p < 0))).1 true false true with
          preprepare := true }], ?_, ?_, ?_, hev, ?_⟩
      · simp [newLinkBody, hd, hge, WalkState.log]
      · simp [newLinkBody, hd, hge, WalkState.log]
      · simp [newLinkBody, hd, hge, WalkState.log]
      · intro e he
        simp only [List.mem_singleton] at he
        subst he
        simpa [TodoListEntry.make] using hge
    · refine ⟨_, [], ?_, ?_, ?_, hev, by simp⟩
      · simp [newLinkBody, hd, hge, WalkState.log]
      · simp [newLinkBody, hd, hge, WalkState.log]
      · simp [newLinkBody, hd, hge, WalkState.log]

theorem newLinkLoop_fields (c : Collaborators W Pose) (i : Nat) (p : Int) (r : RelocOutput)
    (n j : Nat) (s : WalkState W Pose) :
    ∃ evs extra, (newLinkLoop c i p r n j s).trace = s.trace ++ evs ∧
      (newLinkLoop c i p r n j s).todoList = s.todoList ++ extra ∧
      (newLinkLoop c i p r n j s).pose_d = s.pose_d ∧
      (∀ e ∈ evs, e.index = some i ∧ e.isKeyframeCall = true) ∧
      (∀ e ∈ extra, 0 ≤ e.dataID) := by
  induction n generalizing j s with
  | zero => exact ⟨[], [], by simp [newLinkLoop]⟩
  | succ n ih =>
    obtain ⟨evs1, extra1, a1, a2, a3, a4, a5⟩ := newLinkBody_fields c i p r j s
    obtain ⟨evs2, extra2, b1, b2, b3, b4, b5⟩ := ih (j + 1) (newLinkBody c i p r j s)
    refine ⟨evs1 ++ evs2, extra1 ++ extra2, ?_, ?_, ?_, ?_, ?_⟩
    · simp only [newLinkLoop]; rw [b1, a1, List.append_assoc]
    · simp only [newLinkLoop]; rw [b2, a2, List.append_assoc]
    · simp only [newLinkLoop]; rw [b3, a3]
    · intro e he
      rcases List.mem_append.1 he with h | h
      · exact a4 e h
      · exact b4 e h
    · intro e he
      rcases List.mem_append.1 he with h | h
      · exact a5 e h
      · exact b5 e h

/-- What one iteration on a terminator leaves. -/
theorem terminatorStep_fields (c : Collaborators W Pose) (i : Nat) (s : WalkState W Pose) :
    ∃ k evs extra, (terminatorStep c i s).trace = s.trace ++
        Event.UpdateHostFromDevice i ::
          Event.relocaliserProcessFrame i s.primaryTrackingSuccess k :: evs ∧
      (terminatorStep c i s).todoList = s.todoList ++ extra ∧
      (terminatorStep c i s).pose_d = s.pose_d ∧
      (∀ e ∈ evs, e.index = some i ∧ e.isKeyframeCall = true) ∧
      (∀ e ∈ extra, 0 ≤ e.dataID) := by
  by_cases hk : (c.relocaliserProcessFrame s.world s.primaryTrackingSuccess).1.addKeyframeIdx ≥ 0
  · refine ⟨(c.relocaliserProcessFrame s.world s.primaryTrackingSuccess).1.addKeyframeIdx,
      [Event.getScene i (if s.primaryDataIdx ≥ 0 then c.getSceneIndex
          (c.relocaliserProcessFrame s.world s.primaryTrackingSuccess).2 s.primaryDataIdx else -1),
       Event.storePose i (c.relocaliserProcessFrame s.world s.primaryTrackingSuccess).1.addKeyframeIdx
        (s.pose_d (if s.primaryDataIdx ≥ 0 then c.getSceneIndex
          (c.relocaliserProcessFrame s.world s.primaryTrackingSuccess).2 s.primaryDataIdx else -1))
        (if s.primaryDataIdx ≥ 0 then c.getSceneIndex
          (c.relocaliserProcessFrame s.world s.primaryTrackingSuccess).2 s.primaryDataIdx else -1)],
      [], ?_, ?_, ?_, ?_, by simp⟩
    · simp [terminatorStep, hk, WalkState.log]
    · simp [terminatorStep, hk, WalkState.log]
    · simp [terminatorStep, hk, WalkState.log]
    · intro e he
      simp only [List.mem_cons, List.mem_singleton, List.not_mem_nil, or_false] at he
      rcases he with rfl | rfl <;> exact ⟨rfl, rfl⟩
  · obtain ⟨evs, extra, h1, h2, h3, h4, h5⟩ := newLinkLoop_fields c i
      (if s.primaryDataIdx ≥ 0 then c.getSceneIndex
        (c.relocaliserProcessFrame s.world s.primaryTrackingSuccess).2 s.primaryDataIdx else -1)
      (c.relocaliserProcessFrame s.world s.primaryTrackingSuccess).1 k_loopcloseneighbours 0
      (({ (s.log (.UpdateHostFromDevice i)) with
          world := (c.relocaliserProcessFrame s.world s.primaryTrackingSuccess).2 } :
            WalkState W Pose).log
        (.relocaliserProcessFrame i s.primaryTrackingSuccess
          (c.relocaliserProcessFrame s.world s.primaryTrackingSuccess).1.addKeyframeIdx))
    refine ⟨(c.relocaliserProcessFrame s.world s.primaryTrackingSuccess).1.addKeyframeIdx,
      evs, extra, ?_, ?_, ?_, h4, h5⟩
    · simpa [terminatorStep, hk, WalkState.log] using h1
    · simpa [terminatorStep, hk, WalkState.log] using h2
    · simpa [terminatorStep, hk, WalkState.log] using h3

/-- An invariant of the walk that every iteration preserves holds when the walk ends. -/
theorem walk_invariant (c : Collaborators W Pose) (P : Nat → WalkState W Pose → Prop)
    (hstep : ∀ i s, i < s.todoList.length → P i s → P (i + 1) (walkStep c i s)) :
    ∀ fuel i s s', walk c fuel i s = some s' → P i s → ∃ j, s'.todoList.length ≤ j ∧ P j s' := by
  intro fuel
  induction fuel with
  | zero =>
    intro i s s' h hP
    unfold walk at h
    split at h
    · simp at h
    · rename_i hlt
      injection h with h
      subst h
      exact ⟨i, Nat.le_of_not_lt hlt, hP⟩
  | succ fuel ih =>
    intro i s s' h hP
    unfold walk at h
    split at h
    · rename_i hlt
      exact ih (i + 1) (walkStep c i s) s' h (hstep i s hlt hP)
    · rename_i hlt
      injection h with h
      subst h
      exact ⟨i, Nat.le_of_not_lt hlt, hP⟩

theorem walk_fuel_mono (c : Collaborators W Pose) :
    ∀ fuel i s s', walk c fuel i s = some s' → ∀ k, walk c (fuel + k) i s = some s' := by
  intro fuel
  induction fuel with
  | zero =>
    intro i s s' h k
    unfold walk at h ⊢
    split at h
    · simp at h
    · rename_i hlt
      simp [hlt, h]
  | succ fuel ih =>
    intro i s s' h k
    unfold walk at h
    split at h
    · rename_i hlt
      have := ih (i + 1) (walkStep c i s) s' h k
      rw [show fuel + 1 + k = (fuel + k) + 1 by omega]
      unfold walk
      simp [hlt, this]
    · rename_i hlt
      unfold walk
      simp [hlt, h]

theorem activeScenesLoop_dataID (c : Collaborators W Pose) (w : W) :
    ∀ n (i : Int) (todo : List TodoListEntry), 0 ≤ i → (∀ e ∈ todo, 0 ≤ e.dataID) →
      ∀ e ∈ activeScenesLoop c w n i todo, 0 ≤ e.dataID := by
  intro n
  induction n with
  | zero => intro i todo _ h; simpa [activeScenesLoop] using h
  | succ n ih =>
    intro i todo hi h
    simp only [activeScenesLoop]
    apply ih (i + 1) _ (by omega)
    intro e he
    unfold switchSceneType at he
    split at he
    · simp only [caseNEW_SCENE, caseLOOP_CLOSURE, caseRELOCALISATION, List.mem_append,
        List.mem_singleton] at he
      rcases he with ((he | rfl) | rfl) | rfl
      · exact h e he
      all_goals simpa [TodoListEntry.make] using hi
    · simp only [caseLOOP_CLOSURE, caseRELOCALISATION, List.mem_append,
        List.mem_singleton] at he
      rcases he with (he | rfl) | rfl
      · exact h e he
      all_goals simpa [TodoListEntry.make] using hi
    · simp only [caseRELOCALISATION, List.mem_append, List.mem_singleton] at he
      rcases he with he | rfl
      · exact h e he
      all_goals simpa [TodoListEntry.make] using hi
    · exact h e he

theorem countP_terminator_eq_zero (l : List TodoListEntry) (h : ∀ e ∈ l, 0 ≤ e.dataID) :
    l.countP (fun e => decide (e.dataID = -1)) = 0 := by
  rw [List.countP_eq_zero]
  intro e he
  have := h e he
  simp only [decide_eq_true_eq]
  omega

theorem buildTodoList_terminators (c : Collaborators W Pose) (w : W) :
    (buildTodoList c w).countP (fun e => decide (e.dataID = -1)) = 1 := by
  unfold buildTodoList
  simp only [List.countP_append]
  rw [countP_terminator_eq_zero]
  · rfl
  · apply activeScenesLoop_dataID c w _ 0 _ (le_refl 0)
    intro e he
    split at he
    · rename_i hp
      simp only [List.mem_singleton] at he
      subst he
      simpa [TodoListEntry.make] using hp
    · simp at he

theorem preprepareEvents_index (i : Nat) (sc : Int) (pp : Bool) :
    ∀ e ∈ (preprepareEvents i sc pp : List (Event Pose)), e.index = some i := by
  unfold preprepareEvents
  split_ifs <;> simp [Event.index]

theorem fuseEvents_index (i : Nat) (sc : Int) (f p : Bool) :
    ∀ e ∈ (fuseEvents i sc f p : List (Event Pose)), e.index = some i := by
  unfold fuseEvents
  split_ifs <;> simp [Event.index]

theorem trackEvents_index (c : Collaborators W Pose) (i : Nat) (s : WalkState W Pose) (b : Bool) :
    ∀ e ∈ trackEvents c i s b, e.index = some i := by
  unfold trackEvents
  split_ifs <;> simp [Event.index]

/-- The calls of one iteration on a regular entry: none queries the relocaliser, one resizes
the todo list exactly when a primary entry failed, and all carry the index `i`. -/
theorem regular_events_counts (c : Collaborators W Pose) (i : Nat) (s : WalkState W Pose)
    (b f1 p1 f2 p2 pp : Bool) (sc : Int) :
    relocaliserCalls (Event.getScene i sc :: (preprepareEvents i sc pp ++
        (if (s.entry i).track then trackEvents c i s b ++ fuseEvents i sc f1 p1
         else fuseEvents i sc f2 p2))) = 0 ∧
    resizeCalls (Event.getScene i sc :: (preprepareEvents i sc pp ++
        (if (s.entry i).track then trackEvents c i s b ++ fuseEvents i sc f1 p1
         else fuseEvents i sc f2 p2))) =
      (if (s.entry i).track = true ∧ sceneTypeAt c i s = SceneType.PRIMARY_SCENE ∧
          trackingResultAt c i s = TrackingResult.TRACKING_FAILED then 1 else 0) ∧
    (∀ e ∈ (Event.getScene i sc :: (preprepareEvents i sc pp ++
        (if (s.entry i).track then trackEvents c i s b ++ fuseEvents i sc f1 p1
         else fuseEvents i sc f2 p2))), e.index = some i) := by
  refine ⟨?_, ?_, ?_⟩
  · unfold relocaliserCalls preprepareEvents trackEvents fuseEvents
    split_ifs <;> simp [List.countP_cons, Event.isRelocaliserCall]
  · unfold resizeCalls preprepareEvents trackEvents fuseEvents
    split_ifs <;> simp_all [List.countP_cons, Event.isResize]
  · intro e he
    simp only [List.mem_cons, List.mem_append] at he
    rcases he with rfl | he | he
    · rfl
    · exact preprepareEvents_index i sc pp e he
    · split_ifs at he
      · rcases List.mem_append.1 he with h | h
        · exact trackEvents_index c i s b e h
        · exact fuseEvents_index i sc f1 p1 e h
      · exact fuseEvents_index i sc f2 p2 e he

/-- Among the calls of one iteration on a regular entry: when `Track` reported POOR and the
entry is not primary, there is no fusion call. -/
theorem regular_events_no_fusion (c : Collaborators W Pose) (i : Nat) (s : WalkState W Pose)
    (b : Bool) (d : Int) (sc' : Int) (t : SceneType)
    (hT : Event.Track i d sc' TrackingResult.TRACKING_POOR ∈
      (Event.getScene i (currentSceneIdxAt c i s) ::
        (preprepareEvents i (currentSceneIdxAt c i s) (s.entry i).preprepare ++
        (if (s.entry i).track then
            trackEvents c i s b ++ fuseEvents i (currentSceneIdxAt c i s)
              ((s.entry i).fusion && decide (trackingResultAt c i s = TrackingResult.TRACKING_GOOD))
              ((s.entry i).prepare &&
                decide (trackingResultAt c i s ≠ TrackingResult.TRACKING_FAILED))
           else fuseEvents i (currentSceneIdxAt c i s) (s.entry i).fusion (s.entry i).prepare))))
    (ht : Event.getSceneType i d t ∈
      (Event.getScene i (currentSceneIdxAt c i s) ::
        (preprepareEvents i (currentSceneIdxAt c i s) (s.entry i).preprepare ++
        (if (s.entry i).track then
            trackEvents c i s b ++ fuseEvents i (currentSceneIdxAt c i s)
              ((s.entry i).fusion && decide (trackingResultAt c i s = TrackingResult.TRACKING_GOOD))
              ((s.entry i).prepare &&
                decide (trackingResultAt c i s ≠ TrackingResult.TRACKING_FAILED))
           else fuseEvents i (currentSceneIdxAt c i s) (s.entry i).fusion (s.entry i).prepare))))
    (hnp : t ≠ SceneType.PRIMARY_SCENE) (sc'' : Int) :
    Event.denseMapperProcessFrame i sc'' ∉
      (Event.getScene i (currentSceneIdxAt c i s) ::
        (preprepareEvents i (currentSceneIdxAt c i s) (s.entry i).preprepare ++
        (if (s.entry i).track then
            trackEvents c i s b ++ fuseEvents i (currentSceneIdxAt c i s)
              ((s.entry i).fusion && decide (trackingResultAt c i s = TrackingResult.TRACKING_GOOD))
              ((s.entry i).prepare &&
                decide (trackingResultAt c i s ≠ TrackingResult.TRACKING_FAILED))
           else fuseEvents i (currentSceneIdxAt c i s) (s.entry i).fusion (s.entry i).prepare))) := by
  by_cases htr : (s.entry i).track = true
  · simp only [htr, if_true] at hT ht ⊢
    have hr : (trackOutcomeAt c i s).1.2 = TrackingResult.TRACKING_POOR := by
      unfold preprepareEvents trackEvents fuseEvents at hT
      split_ifs at hT <;> simp at hT <;> exact hT.2.2.symm
    have hty : sceneTypeAt c i s = t := by
      unfold preprepareEvents trackEvents fuseEvents at ht
      split_ifs at ht <;> simp at ht <;> exact ht.2.symm
    have heff : trackingResultAt c i s = TrackingResult.TRACKING_FAILED := by
      unfold trackingResultAt
      rw [hty, hr]
      simp [effectiveResult, hnp]
    rw [heff]
    have hnone : (fuseEvents i (currentSceneIdxAt c i s)
        ((s.entry i).fusion &&
          decide (TrackingResult.TRACKING_FAILED = TrackingResult.TRACKING_GOOD))
        ((s.entry i).prepare &&
          decide (TrackingResult.TRACKING_FAILED ≠ TrackingResult.TRACKING_FAILED)) :
        List (Event Pose)) = [] := by
      simp [fuseEvents]
    rw [hnone]
    unfold preprepareEvents trackEvents
    split_ifs <;> simp
  · have hf : (s.entry i).track = false := by simpa using htr
    rw [hf] at hT
    simp only [Bool.false_eq_true, if_false] at hT
    unfold preprepareEvents fuseEvents at hT
    split_ifs at hT <;> simp at hT

theorem keyframeCall_kinds (e : Event Pose) (h : e.isKeyframeCall = true) :
    e.isRelocaliserCall = false ∧ e.isResize = false ∧ e.isTrack = false := by
  cases e <;> simp_all [Event.isKeyframeCall, Event.isRelocaliserCall, Event.isResize,
    Event.isTrack]

theorem countP_eq_zero_of_keyframeCalls (evs : List (Event Pose))
    (h : ∀ e ∈ evs, e.isKeyframeCall = true) :
    relocaliserCalls evs = 0 ∧ resizeCalls evs = 0 := by
  unfold relocaliserCalls resizeCalls
  simp only [List.countP_eq_zero]
  refine ⟨?_, ?_⟩
  · intro e he
    simp [(keyframeCall_kinds e (h e he)).1]
  · intro e he
    simp [(keyframeCall_kinds e (h e he)).2.1]

theorem entry_eq_getElem (s : WalkState W Pose) (i : Nat) (h : i < s.todoList.length) :
    s.entry i = s.todoList[i] := by
  simp [WalkState.entry, List.getD, h]

/-- The counting invariant of the walk: at most one terminator is still ahead; the relocaliser
queries made plus that terminator are at least one, and at most one more than the resizes. -/
theorem walkStep_counts (c : Collaborators W Pose) (i : Nat) (s : WalkState W Pose)
    (hi : i < s.todoList.length)
    (h : pendingTerminators s i ≤ 1 ∧
      1 ≤ relocaliserCalls s.trace + pendingTerminators s i ∧
      relocaliserCalls s.trace + pendingTerminators s i ≤ 1 + resizeCalls s.trace) :
    pendingTerminators (walkStep c i s) (i + 1) ≤ 1 ∧
      1 ≤ relocaliserCalls (walkStep c i s).trace + pendingTerminators (walkStep c i s) (i + 1) ∧
      relocaliserCalls (walkStep c i s).trace + pendingTerminators (walkStep c i s) (i + 1) ≤
        1 + resizeCalls (walkStep c i s).trace := by
  have hdrop : s.todoList.drop i = s.todoList[i] :: s.todoList.drop (i + 1) :=
    List.drop_eq_getElem_cons hi
  have hentry := entry_eq_getElem s i hi
  unfold walkStep
  rw [← WalkState.entry]
  by_cases hterm : (s.entry i).dataID = -1
  · simp only [hterm, if_true]
    obtain ⟨k, evs, extra, h1, h2, _, h4, h5⟩ := terminatorStep_fields c i s
    have hpend : pendingTerminators s i = 1 + (s.todoList.drop (i + 1)).countP
        (fun e => decide (e.dataID = -1)) := by
      unfold pendingTerminators
      rw [hdrop, List.countP_cons, ← hentry]
      simp [hterm, Nat.add_comm]
    have hpend' : pendingTerminators (terminatorStep c i s) (i + 1) =
        (s.todoList.drop (i + 1)).countP (fun e => decide (e.dataID = -1)) := by
      unfold pendingTerminators
      rw [h2, List.drop_append_of_le_length (by omega), List.countP_append,
        countP_terminator_eq_zero extra h5]
      simp
    have hc := countP_eq_zero_of_keyframeCalls evs (fun e he => (h4 e he).2)
    have hr : relocaliserCalls (terminatorStep c i s).trace = relocaliserCalls s.trace + 1 := by
      have := hc.1
      unfold relocaliserCalls at this ⊢
      rw [h1, List.countP_append, List.countP_cons, List.countP_cons, this]
      simp [Event.isRelocaliserCall]
    have hz : resizeCalls (terminatorStep c i s).trace = resizeCalls s.trace := by
      have := hc.2
      unfold resizeCalls at this ⊢
      rw [h1, List.countP_append, List.countP_cons, List.countP_cons, this]
      simp [Event.isResize]
    rw [hpend', hr, hz]
    omega
  · simp only [hterm, if_false]
    obtain ⟨b, h1, h2, _⟩ := regularStep_fields c i s hi
    obtain ⟨c1, c2, _⟩ := regular_events_counts c i s b
      ((s.entry i).fusion && decide (trackingResultAt c i s = TrackingResult.TRACKING_GOOD))
      ((s.entry i).prepare && decide (trackingResultAt c i s ≠ TrackingResult.TRACKING_FAILED))
      (s.entry i).fusion (s.entry i).prepare (s.entry i).preprepare (currentSceneIdxAt c i s)
    have hpend : pendingTerminators s i = (s.todoList.drop (i + 1)).countP
        (fun e => decide (e.dataID = -1)) := by
      unfold pendingTerminators
      rw [hdrop, List.countP_cons, ← hentry]
      simp [hterm]
    have hr : relocaliserCalls (regularStep c i s).trace = relocaliserCalls s.trace := by
      unfold relocaliserCalls at c1 ⊢
      rw [h1, List.countP_append, c1]
      simp
    have hz : resizeCalls (regularStep c i s).trace = resizeCalls s.trace +
        (if (s.entry i).track = true ∧ sceneTypeAt c i s = SceneType.PRIMARY_SCENE ∧
          trackingResultAt c i s = TrackingResult.TRACKING_FAILED then 1 else 0) := by
      unfold resizeCalls at c2 ⊢
      rw [h1, List.countP_append, c2]
    have hpend' : pendingTerminators (regularStep c i s) (i + 1) =
        (if (s.entry i).track = true ∧ sceneTypeAt c i s = SceneType.PRIMARY_SCENE ∧
          trackingResultAt c i s = TrackingResult.TRACKING_FAILED then 1
         else (s.todoList.drop (i + 1)).countP (fun e => decide (e.dataID = -1))) := by
      unfold pendingTerminators
      rw [h2]
      split_ifs
      · rfl
      · rfl
    rw [hpend', hr, hz]
    rw [hpend] at h
    split_ifs <;> omega

/-- The hand-off after the walk only adds calls that carry no todo-list index. -/
theorem globalAdjustmentBlock_trace (c : Collaborators W Pose) (g : Bool) (s : WalkState W Pose) :
    ∃ evs, (globalAdjustmentBlock c g s).2.trace = s.trace ++ evs ∧
      (∀ e ∈ evs, e.index = none) ∧
      (globalAdjustmentBlock c g s).2.pose_d = s.pose_d ∧
      (globalAdjustmentBlock c g s).2.todoList = s.todoList ∧
      (globalAdjustmentBlock c g s).2.primarySceneTrackingResult =
        s.primarySceneTrackingResult := by
  unfold globalAdjustmentBlock MultithreadedGlobalAdjustment
  simp only [WalkState.log]
  split_ifs
  · exact ⟨[Event.maintainActiveData (c.maintainActiveData s.world).1,
      Event.updateMeasurements (c.updateMeasurements (c.maintainActiveData s.world).2).1,
      Event.wakeupSeparateThread, Event.retrieveNewEstimates],
      by simp, by simp [Event.index], rfl, rfl, rfl⟩
  · exact ⟨[Event.maintainActiveData (c.maintainActiveData s.world).1,
      Event.updateMeasurements (c.updateMeasurements (c.maintainActiveData s.world).2).1,
      Event.retrieveNewEstimates],
      by simp, by simp [Event.index], rfl, rfl, rfl⟩
  · exact ⟨[Event.maintainActiveData (c.maintainActiveData s.world).1,
      Event.retrieveNewEstimates],
      by simp, by simp [Event.index], rfl, rfl, rfl⟩

theorem index_none_kinds (e : Event Pose) (h : e.index = none) :
    e.isRelocaliserCall = false ∧ e.isResize = false ∧ e.isTrack = false ∧
      e.isMapping = false := by
  cases e <;> simp_all [Event.index, Event.isRelocaliserCall, Event.isResize, Event.isTrack,
    Event.isMapping]

/-- A frame that returns is a walk that ended, followed by the hand-off. -/
theorem ProcessFrame_some (c : Collaborators W Pose) (fuel : Nat) (eng : ITMMultiEngine W Pose)
    (hasImu : Bool) (out : FrameOutcome W Pose) (h : ProcessFrame c fuel eng hasImu = some out) :
    ∃ s, walk c fuel 0 (initialWalkState c eng hasImu) = some s ∧
      out.trace = (globalAdjustmentBlock c eng.mScheduleGlobalAdjustment s).2.trace ∧
      out.todoList = s.todoList ∧
      out.result = s.primarySceneTrackingResult ∧
      out.engine.pose_d = s.pose_d := by
  unfold ProcessFrame at h
  split at h
  · simp at h
  · rename_i s hs
    obtain ⟨evs, h1, h2, h3, h4, h5⟩ :=
      globalAdjustmentBlock_trace c eng.mScheduleGlobalAdjustment s
    injection h with h
    subst h
    exact ⟨s, hs, rfl, h4, h5, h3⟩

/-- The relocaliser queries and todo-list resizes of a frame that returns. -/
theorem ProcessFrame_counts (c : Collaborators W Pose) (fuel : Nat) (eng : ITMMultiEngine W Pose)
    (hasImu : Bool) (out : FrameOutcome W Pose) (h : ProcessFrame c fuel eng hasImu = some out) :
    1 ≤ relocaliserCalls out.trace ∧ relocaliserCalls out.trace ≤ 1 + resizeCalls out.trace := by
  obtain ⟨s, hs, ht, -, -, -⟩ := ProcessFrame_some c fuel eng hasImu out h
  obtain ⟨j, hj, hPj⟩ := walk_invariant c
    (fun i s => pendingTerminators s i ≤ 1 ∧
      1 ≤ relocaliserCalls s.trace + pendingTerminators s i ∧
      relocaliserCalls s.trace + pendingTerminators s i ≤ 1 + resizeCalls s.trace)
    (fun i s hi hP => walkStep_counts c i s hi hP) fuel 0 _ s hs
    (by
      have hb := buildTodoList_terminators c (c.UpdateView eng.world hasImu)
      simp only [pendingTerminators, initialWalkState, List.drop_zero, hb, relocaliserCalls,
        resizeCalls, List.countP_nil]
      omega)
  have hz : pendingTerminators s j = 0 := by
    unfold pendingTerminators
    rw [List.drop_eq_nil_of_le hj]
    rfl
  obtain ⟨evs, h1, h2, -⟩ := globalAdjustmentBlock_trace c eng.mScheduleGlobalAdjustment s
  have hr : relocaliserCalls out.trace = relocaliserCalls s.trace := by
    rw [ht, h1]
    unfold relocaliserCalls
    rw [List.countP_append]
    have : List.countP Event.isRelocaliserCall evs = 0 := by
      rw [List.countP_eq_zero]
      intro e he
      simp [(index_none_kinds e (h2 e he)).1]
    omega
  have hq : resizeCalls out.trace = resizeCalls s.trace := by
    rw [ht, h1]
    unfold resizeCalls
    rw [List.countP_append]
    have : List.countP Event.isResize evs = 0 := by
      rw [List.countP_eq_zero]
      intro e he
      simp [(index_none_kinds e (h2 e he)).2.1]
    omega
  rw [hr, hq]
  rw [hz] at hPj
  omega

theorem NoFusionAfterPoor_append (tr evs : List (Event Pose)) (i : Nat)
    (hold : ∀ e ∈ tr, ∃ j, j < i ∧ e.index = some j) (hnew : ∀ e ∈ evs, e.index = some i)
    (h1 : NoFusionAfterPoor tr) (h2 : NoFusionAfterPoor evs) : NoFusionAfterPoor (tr ++ evs) := by
  intro j d sc t hT ht hnp sc' hf
  have key : ∀ e : Event Pose, e ∈ tr ++ evs → e.index = some j →
      (j < i ∧ e ∈ tr) ∨ (j = i ∧ e ∈ evs) := by
    intro e he hidx
    rcases List.mem_append.1 he with h | h
    · obtain ⟨k, hk, hk'⟩ := hold e h
      rw [hidx] at hk'
      injection hk' with hk'
      subst hk'
      exact Or.inl ⟨hk, h⟩
    · have := hnew e h
      rw [hidx] at this
      injection this with this
      exact Or.inr ⟨this, h⟩
  rcases key _ hT rfl with ⟨a1, a2⟩ | ⟨a1, a2⟩ <;>
    rcases key _ ht rfl with ⟨b1, b2⟩ | ⟨b1, b2⟩ <;>
    rcases key _ hf rfl with ⟨c1, c2⟩ | ⟨c1, c2⟩
  · exact h1 j d sc t a2 b2 hnp sc' c2
  all_goals first
    | omega
    | exact h2 j d sc t a2 b2 hnp sc' c2

theorem ResizeOnlyOnPrimaryFailure_append (tr evs : List (Event Pose))
    (h1 : ResizeOnlyOnPrimaryFailure tr) (h2 : ResizeOnlyOnPrimaryFailure evs) :
    ResizeOnlyOnPrimaryFailure (tr ++ evs) := by
  intro j n h
  rcases List.mem_append.1 h with h | h
  · obtain ⟨d, b, hd, hb⟩ := h1 j n h
    exact ⟨d, b, List.mem_append_left _ hd, List.mem_append_left _ hb⟩
  · obtain ⟨d, b, hd, hb⟩ := h2 j n h
    exact ⟨d, b, List.mem_append_right _ hd, List.mem_append_right _ hb⟩

/-- The calls of one iteration resize the todo list only for a primary entry that failed. -/
theorem regular_events_resize (c : Collaborators W Pose) (i : Nat) (s : WalkState W Pose)
    (b f1 p1 f2 p2 pp : Bool) (sc : Int) :
    ResizeOnlyOnPrimaryFailure (Event.getScene i sc :: (preprepareEvents i sc pp ++
        (if (s.entry i).track then trackEvents c i s b ++ fuseEvents i sc f1 p1
         else fuseEvents i sc f2 p2))) := by
  intro j n h
  unfold preprepareEvents trackEvents fuseEvents at h ⊢
  split_ifs at h ⊢ <;> simp at h <;> simp_all

/-- The trace invariant of the walk: calls made so far carry an index below `i`; a POOR
non-primary entry got no fusion call; the list was resized only on a primary failure. -/
theorem walkStep_trace_invariant (c : Collaborators W Pose) (i : Nat) (s : WalkState W Pose)
    (hi : i < s.todoList.length)
    (h : (∀ e ∈ s.trace, ∃ j, j < i ∧ e.index = some j) ∧ NoFusionAfterPoor s.trace ∧
      ResizeOnlyOnPrimaryFailure s.trace) :
    (∀ e ∈ (walkStep c i s).trace, ∃ j, j < i + 1 ∧ e.index = some j) ∧
      NoFusionAfterPoor (walkStep c i s).trace ∧
      ResizeOnlyOnPrimaryFailure (walkStep c i s).trace := by
  have main : ∃ evs, (walkStep c i s).trace = s.trace ++ evs ∧ (∀ e ∈ evs, e.index = some i) ∧
      NoFusionAfterPoor evs ∧ ResizeOnlyOnPrimaryFailure evs := by
    unfold walkStep
    rw [← WalkState.entry]
    by_cases hterm : (s.entry i).dataID = -1
    · simp only [hterm, if_true]
      obtain ⟨k, evs, extra, h1, -, -, h4, -⟩ := terminatorStep_fields c i s
      refine ⟨_, h1, ?_, ?_, ?_⟩
      · intro e he
        simp only [List.mem_cons] at he
        rcases he with rfl | rfl | he
        · rfl
        · rfl
        · exact (h4 e he).1
      · intro j d sc t hT
        simp only [List.mem_cons] at hT
        rcases hT with hT | hT | hT
        · cases hT
        · cases hT
        · have := (keyframeCall_kinds _ (h4 _ hT).2).2.2
          simp [Event.isTrack] at this
      · intro j n hT
        simp only [List.mem_cons] at hT
        rcases hT with hT | hT | hT
        · cases hT
        · cases hT
        · have := (keyframeCall_kinds _ (h4 _ hT).2).2.1
          simp [Event.isResize] at this
    · simp only [hterm, if_false]
      obtain ⟨b, h1, -, -⟩ := regularStep_fields c i s hi
      refine ⟨_, h1, ?_, ?_, ?_⟩
      · exact (regular_events_counts c i s b _ _ _ _ _ _).2.2
      · intro j d sc t hT ht hnp sc'
        have hj : j = i := by
          have := (regular_events_counts c i s b _ _ _ _ _ _).2.2 _ hT
          simpa [Event.index] using this
        subst hj
        exact regular_events_no_fusion c j s b d sc t hT ht hnp sc'
      · exact regular_events_resize c i s b _ _ _ _ _ _
  obtain ⟨evs, e1, e2, e3, e4⟩ := main
  rw [e1]
  refine ⟨?_, NoFusionAfterPoor_append _ _ i h.1 e2 h.2.1 e3,
    ResizeOnlyOnPrimaryFailure_append _ _ h.2.2 e4⟩
  intro e he
  rcases List.mem_append.1 he with h' | h'
  · obtain ⟨j, hj, hj'⟩ := h.1 e h'
    exact ⟨j, by omega, hj'⟩
  · exact ⟨i, by omega, e2 e h'⟩

/-- The trace of a frame that returns obeys both rules. -/
theorem ProcessFrame_trace_rules (c : Collaborators W Pose) (fuel : Nat)
    (eng : ITMMultiEngine W Pose) (hasImu : Bool) (out : FrameOutcome W Pose)
    (h : ProcessFrame c fuel eng hasImu = some out) :
    NoFusionAfterPoor out.trace ∧ ResizeOnlyOnPrimaryFailure out.trace := by
  obtain ⟨s, hs, ht, -, -, -⟩ := ProcessFrame_some c fuel eng hasImu out h
  obtain ⟨j, -, hP1, hP2, hP3⟩ := walk_invariant c
    (fun i s => (∀ e ∈ s.trace, ∃ j, j < i ∧ e.index = some j) ∧ NoFusionAfterPoor s.trace ∧
      ResizeOnlyOnPrimaryFailure s.trace)
    (fun i s hi hP => walkStep_trace_invariant c i s hi hP) fuel 0 _ s hs
    (by
      refine ⟨?_, ?_, ?_⟩
      · intro e he; simp [initialWalkState] at he
      · intro j d sc t hT; simp [initialWalkState] at hT
      · intro j n hT; simp [initialWalkState] at hT)
  obtain ⟨evs, h1, h2, -⟩ := globalAdjustmentBlock_trace c eng.mScheduleGlobalAdjustment s
  rw [ht, h1]
  refine ⟨?_, ?_⟩
  · intro j' d sc t hT ht' hnp sc' hf
    have inOld : ∀ e : Event Pose, e ∈ s.trace ++ evs → e.index = some j' → e ∈ s.trace := by
      intro e he hidx
      rcases List.mem_append.1 he with h' | h'
      · exact h'
      · rw [h2 e h'] at hidx; cases hidx
    exact hP2 j' d sc t (inOld _ hT rfl) (inOld _ ht' rfl) hnp sc' (inOld _ hf rfl)
  · intro j' n hT
    rcases List.mem_append.1 hT with h' | h'
    · obtain ⟨d, b, hd, hb⟩ := hP3 j' n h'
      exact ⟨d, b, List.mem_append_left _ hd, List.mem_append_left _ hb⟩
    · have := h2 _ h'
      simp [Event.index] at this

theorem effectiveResult_eq_FAILED_iff (t : SceneType) (r : TrackingResult) :
    effectiveResult t r = TrackingResult.TRACKING_FAILED ↔
      r = TrackingResult.TRACKING_FAILED ∨
        (r = TrackingResult.TRACKING_POOR ∧ t ≠ SceneType.PRIMARY_SCENE) := by
  cases t <;> cases r <;> simp [effectiveResult]

/-- C3 (amended): in every frame that returns, a todo entry that is not primary (the manager
reports a type other than PRIMARY for it) and whose `Track` call reported POOR gets no fusion
call (`DenseMapper::ProcessFrame`) for that entry, whatever the sub-map. -/
theorem C3_no_fusion_for_poor_entry (c : Collaborators W Pose) (fuel : Nat)
    (eng : ITMMultiEngine W Pose) (hasImu : Bool) (out : FrameOutcome W Pose)
    (h : ProcessFrame c fuel eng hasImu = some out) (i : Nat) (d sc : Int) (t : SceneType)
    (hT : Event.Track i d sc TrackingResult.TRACKING_POOR ∈ out.trace)
    (ht : Event.getSceneType i d t ∈ out.trace) (hnp : t ≠ SceneType.PRIMARY_SCENE)
    (sc' : Int) : Event.denseMapperProcessFrame i sc' ∉ out.trace :=
  (ProcessFrame_trace_rules c fuel eng hasImu out h).1 i d sc t hT ht hnp sc'

/-- C3, at a concrete frame: the relocalisation candidate at todo index `1` is tracked POOR
and no fusion call is made at index `1`. -/
theorem C3_no_fusion_for_poor_entry_witness :
    ∃ out, ProcessFrame sharedSubmapScript.collaborators 10 freshEngine false = some out ∧
      Event.Track 1 1 0 TrackingResult.TRACKING_POOR ∈ out.trace ∧
      Event.getSceneType 1 1 SceneType.RELOCALISATION ∈ out.trace ∧
      Event.denseMapperProcessFrame 1 0 ∉ out.trace := by
  have htr : (ProcessFrame sharedSubmapScript.collaborators 10 freshEngine false).map
      FrameOutcome.trace = some
      [Event.getScene 0 0, Event.Track 0 0 0 TrackingResult.TRACKING_GOOD,
       Event.getSceneType 0 0 SceneType.PRIMARY_SCENE,
       Event.getSceneType 0 0 SceneType.PRIMARY_SCENE,
       Event.recordTrackingResult 0 0 TrackingResult.TRACKING_GOOD true,
       Event.denseMapperProcessFrame 0 0, Event.Prepare 0 0,
       Event.getScene 1 0, Event.Track 1 1 0 TrackingResult.TRACKING_POOR,
       Event.getSceneType 1 1 SceneType.RELOCALISATION,
       Event.getSceneType 1 1 SceneType.RELOCALISATION,
       Event.recordTrackingResult 1 1 TrackingResult.TRACKING_FAILED true,
       Event.UpdateHostFromDevice 2, Event.relocaliserProcessFrame 2 true (-1),
       Event.maintainActiveData false, Event.retrieveNewEstimates] := by
    decide!
  match hp : ProcessFrame sharedSubmapScript.collaborators 10 freshEngine false with
  | none => rw [hp] at htr; cases htr
  | some out =>
    rw [hp] at htr
    simp only [Option.map_some', Option.some.injEq] at htr
    have hT : Event.Track 1 1 0 TrackingResult.TRACKING_POOR ∈ out.trace := by
      rw [htr]; decide
    have ht : Event.getSceneType 1 1 SceneType.RELOCALISATION ∈ out.trace := by
      rw [htr]; decide
    exact ⟨out, rfl, hT, ht,
      C3_no_fusion_for_poor_entry _ 10 freshEngine false out hp 1 1 0 _ hT ht (by decide) 0⟩

/-- C3 as stated fails: the relocalisation candidate (entry `1`) is on sub-map `0` and is
tracked POOR, yet a fusion call on sub-map `0` is made in the same frame, through the
primary entry (todo index `0`), which is on the same sub-map. -/
theorem C3_fusion_on_shared_submap :
    (∀ w, sharedSubmapScript.collaborators.getSceneType w 1 = SceneType.RELOCALISATION) ∧
    (∀ w, sharedSubmapScript.collaborators.getSceneIndex w 1 = 0) ∧
    (ProcessFrame sharedSubmapScript.collaborators 10 freshEngine false).map
      FrameOutcome.trace = some
      [Event.getScene 0 0, Event.Track 0 0 0 TrackingResult.TRACKING_GOOD,
       Event.getSceneType 0 0 SceneType.PRIMARY_SCENE,
       Event.getSceneType 0 0 SceneType.PRIMARY_SCENE,
       Event.recordTrackingResult 0 0 TrackingResult.TRACKING_GOOD true,
       Event.denseMapperProcessFrame 0 0, Event.Prepare 0 0,
       Event.getScene 1 0, Event.Track 1 1 0 TrackingResult.TRACKING_POOR,
       Event.getSceneType 1 1 SceneType.RELOCALISATION,
       Event.getSceneType 1 1 SceneType.RELOCALISATION,
       Event.recordTrackingResult 1 1 TrackingResult.TRACKING_FAILED true,
       Event.UpdateHostFromDevice 2, Event.relocaliserProcessFrame 2 true (-1),
       Event.maintainActiveData false, Event.retrieveNewEstimates] := by
  exact ⟨fun _ => rfl, fun _ => rfl, by decide!⟩

theorem trackEvents_not_mapping (c : Collaborators W Pose) (i : Nat) (s : WalkState W Pose)
    (b : Bool) : ∀ e ∈ trackEvents c i s b, e.isMapping = false := by
  unfold trackEvents
  split_ifs <;> simp [Event.isMapping]

/-- C4: for a todo entry that is tracked and whose tracking result after line 236 is FAILED,
one iteration of the walk leaves the pose of the entry's sub-map (indeed every pose) equal to
the pose it had immediately before `Track` was called, and after the state in which `Track`
is called its only calls are `Track` itself followed by calls none of which is a fusion, a
visible-list update or a Prepare raycast. -/
theorem C4_failed_entry_restored (c : Collaborators W Pose) (i : Nat) (s : WalkState W Pose)
    (hi : i < s.todoList.length) (hreg : (s.entry i).dataID ≠ -1)
    (htrack : (s.entry i).track = true)
    (hfail : trackingResultAt c i s = TrackingResult.TRACKING_FAILED) :
    (walkStep c i s).pose_d (currentSceneIdxAt c i s) =
      (stateBeforeTrack c i s).pose_d (currentSceneIdxAt c i s) ∧
    (walkStep c i s).pose_d = (stateBeforeTrack c i s).pose_d ∧
    ∃ rest, (walkStep c i s).trace = (stateBeforeTrack c i s).trace ++
        Event.Track i (s.entry i).dataID (currentSceneIdxAt c i s) (trackOutcomeAt c i s).1.2 ::
          rest ∧
      ∀ e ∈ rest, e.isMapping = false := by
  have hw : walkStep c i s = regularStep c i s := by
    unfold walkStep
    rw [← WalkState.entry]
    simp [hreg]
  obtain ⟨b, h1, -, h3⟩ := regularStep_fields c i s hi
  have hf := stateBeforeTrack_fields c i s
  have hpose : (walkStep c i s).pose_d = (stateBeforeTrack c i s).pose_d := by
    rw [hw, h3 htrack hfail, hf.2.1]
  refine ⟨by rw [hpose], hpose, ?_⟩
  have hnone : (fuseEvents i (currentSceneIdxAt c i s)
      ((s.entry i).fusion && decide (trackingResultAt c i s = TrackingResult.TRACKING_GOOD))
      ((s.entry i).prepare && decide (trackingResultAt c i s ≠ TrackingResult.TRACKING_FAILED)) :
      List (Event Pose)) = [] := by
    simp [fuseEvents, hfail]
  rw [hw, h1, hf.2.2.2.2.2, htrack, hnone]
  refine ⟨(trackEvents c i s b).tail, ?_, ?_⟩
  · simp [trackEvents]
  · intro e he
    exact trackEvents_not_mapping c i s b e (List.mem_of_mem_tail he)

/-- C4, at a concrete iteration: the relocalisation candidate at todo index `1` of
`failedCandidateScript` is tracked FAILED. -/
theorem C4_failed_entry_restored_witness :
    (1 < failedCandidateState.todoList.length ∧
      (failedCandidateState.entry 1).dataID ≠ -1 ∧
      (failedCandidateState.entry 1).track = true ∧
      trackingResultAt failedCandidateScript.collaborators 1 failedCandidateState =
        TrackingResult.TRACKING_FAILED ∧
      failedCandidateState.pose_d 1 = 0 ∧
      (walkStep failedCandidateScript.collaborators 1 failedCandidateState).pose_d 1 = 0) ∧
    ((walkStep failedCandidateScript.collaborators 1 failedCandidateState).pose_d
        (currentSceneIdxAt failedCandidateScript.collaborators 1 failedCandidateState) =
      (stateBeforeTrack failedCandidateScript.collaborators 1 failedCandidateState).pose_d
        (currentSceneIdxAt failedCandidateScript.collaborators 1 failedCandidateState) ∧
    (walkStep failedCandidateScript.collaborators 1 failedCandidateState).pose_d =
      (stateBeforeTrack failedCandidateScript.collaborators 1 failedCandidateState).pose_d ∧
    ∃ rest, (walkStep failedCandidateScript.collaborators 1 failedCandidateState).trace =
        (stateBeforeTrack failedCandidateScript.collaborators 1 failedCandidateState).trace ++
        Event.Track 1 (failedCandidateState.entry 1).dataID
          (currentSceneIdxAt failedCandidateScript.collaborators 1 failedCandidateState)
          (trackOutcomeAt failedCandidateScript.collaborators 1 failedCandidateState).1.2 ::
          rest ∧
      ∀ e ∈ rest, e.isMapping = false) :=
  ⟨by decide!,
   C4_failed_entry_restored failedCandidateScript.collaborators 1 failedCandidateState
    (by decide!) (by decide!) (by decide!) (by decide!)⟩

/-- A frame that returns with some fuel returns the same with more. -/
theorem ProcessFrame_fuel_mono (c : Collaborators W Pose) (fuel : Nat)
    (eng : ITMMultiEngine W Pose) (hasImu : Bool) (out : FrameOutcome W Pose)
    (h : ProcessFrame c fuel eng hasImu = some out) (k : Nat) :
    ProcessFrame c (fuel + k) eng hasImu = some out := by
  unfold ProcessFrame at h ⊢
  split at h
  · simp at h
  · rename_i s hs
    rw [walk_fuel_mono c fuel 0 _ s hs k]
    exact h

/-- C6, evaluated where the code departs from it: with a primary (entry `0`) and one NEW
entry (entry `1`), the todo list at the start of the walk holds three entries for the NEW
entry (the second and third with `fusion = false`), not one. -/
theorem C6_new_entry_listed_three_times :
    buildTodoList primaryAndNewScript.collaborators (0, 0) =
      [TodoListEntry.make 0 true true true,
       TodoListEntry.make 1 true true true,
       TodoListEntry.make 1 true false true,
       TodoListEntry.make 1 true false true,
       terminator] := by
  decide!

end Walk

/-! ## Theorems: rendering blocks and ray march -/

section Rendering

/-- The slots written by a run of the inner loop are consecutive from the running offset, and
their number is the smaller of the iteration count and the room left below the cap. -/
theorem innerBlockLoop_spec (ul lr : Vector2i) (zr : Vector2f) (by_ : Int) :
    ∀ (n : Nat) (bx : Int) (st : BlockListState),
      ∃ ws, (innerBlockLoop ul lr zr by_ n bx st).2.writes = st.writes ++ ws ∧
        ws.length = min n (MAX_RENDERING_BLOCKS - st.offset).toNat ∧
        (innerBlockLoop ul lr zr by_ n bx st).2.offset = st.offset + (ws.length : Int) ∧
        ws.map Prod.fst = (List.range ws.length).map (fun (j : Nat) => st.offset + (j : Int)) ∧
        ((innerBlockLoop ul lr zr by_ n bx st).1 = true ↔
          (MAX_RENDERING_BLOCKS - st.offset).toNat < n) := by
  intro n
  induction n with
  | zero =>
    intro bx st
    exact ⟨[], by simp [innerBlockLoop]⟩
  | succ n ih =>
    intro bx st
    by_cases hcap : st.offset ≥ MAX_RENDERING_BLOCKS
    · have hz : (MAX_RENDERING_BLOCKS - st.offset).toNat = 0 := by
        apply Int.toNat_eq_zero.2; omega
      exact ⟨[], by simp [innerBlockLoop, hcap, hz]⟩
    · obtain ⟨ws, h1, h2, h3, h4, h5⟩ := ih (bx + 1)
        { offset := st.offset + 1,
          writes := st.writes ++ [(st.offset, makeRenderingBlock ul lr zr bx by_)] }
      dsimp only at h1 h2 h3 h4 h5
      have hs : (MAX_RENDERING_BLOCKS - st.offset).toNat =
          (MAX_RENDERING_BLOCKS - (st.offset + 1)).toNat + 1 := by
        have : 0 < MAX_RENDERING_BLOCKS - st.offset := by omega
        omega
      refine ⟨(st.offset, makeRenderingBlock ul lr zr bx by_) :: ws, ?_, ?_, ?_, ?_, ?_⟩
      · simp only [innerBlockLoop, hcap, if_false]
        rw [h1]; simp
      · simp only [List.length_cons, h2, hs]
        omega
      · simp only [innerBlockLoop, hcap, if_false]
        rw [h3]; simp only [List.length_cons]; push_cast; omega
      · simp only [List.map_cons, List.length_cons, List.range_succ_eq_map, List.map_map, h4]
        refine congrArg₂ _ (by simp) ?_
        apply List.map_congr_left
        intro j _
        simp only [Function.comp, Nat.succ_eq_add_one]
        push_cast; omega
      · simp only [innerBlockLoop, hcap, if_false]
        rw [h5, hs]
        omega

/-- The slots written by a run of the outer loop are consecutive from the running offset, and
their number is the smaller of the number of tiles and the room left below the cap. -/
theorem outerBlockLoop_spec (ul lr : Vector2i) (zr : Vector2f) :
    ∀ (m : Nat) (by_ : Int) (st : BlockListState),
      ∃ ws, (outerBlockLoop ul lr zr m by_ st).writes = st.writes ++ ws ∧
        ws.length = min (m * (tileCount (1 + lr.x - ul.x) renderingBlockSizeX).toNat)
          (MAX_RENDERING_BLOCKS - st.offset).toNat ∧
        (outerBlockLoop ul lr zr m by_ st).offset = st.offset + (ws.length : Int) ∧
        ws.map Prod.fst = (List.range ws.length).map (fun (j : Nat) => st.offset + (j : Int)) := by
  intro m
  induction m with
  | zero =>
    intro by_ st
    exact ⟨[], by simp [outerBlockLoop]⟩
  | succ m ih =>
    intro by_ st
    obtain ⟨ws1, a1, a2, a3, a4, a5⟩ := innerBlockLoop_spec ul lr zr by_
      (tileCount (1 + lr.x - ul.x) renderingBlockSizeX).toNat 0 st
    by_cases hret : (innerBlockLoop ul lr zr by_
        (tileCount (1 + lr.x - ul.x) renderingBlockSizeX).toNat 0 st).1 = true
    · have hlt := a5.1 hret
      refine ⟨ws1, ?_, ?_, ?_, a4⟩
      · simp only [outerBlockLoop, hret, if_true]; exact a1
      · rw [a2, Nat.succ_mul]; omega
      · simp only [outerBlockLoop, hret, if_true]; exact a3
    · have hge : ¬ (MAX_RENDERING_BLOCKS - st.offset).toNat <
          (tileCount (1 + lr.x - ul.x) renderingBlockSizeX).toNat := fun h => hret (a5.2 h)
      obtain ⟨ws2, b1, b2, b3, b4⟩ := ih (by_ + 1) (innerBlockLoop ul lr zr by_
        (tileCount (1 + lr.x - ul.x) renderingBlockSizeX).toNat 0 st).2
      have hlen1 : ws1.length = (tileCount (1 + lr.x - ul.x) renderingBlockSizeX).toNat := by
        rw [a2]; omega
      have hstep : outerBlockLoop ul lr zr (m + 1) by_ st =
          outerBlockLoop ul lr zr m (by_ + 1) (innerBlockLoop ul lr zr by_
            (tileCount (1 + lr.x - ul.x) renderingBlockSizeX).toNat 0 st).2 := by
        simp [outerBlockLoop, hret]
      refine ⟨ws1 ++ ws2, ?_, ?_, ?_, ?_⟩
      · rw [hstep, b1, a1, List.append_assoc]
      · rw [List.length_append, b2, a3, Nat.succ_mul, hlen1]
        omega
      · rw [hstep, b3, a3, List.length_append]
        push_cast; omega
      · rw [List.map_append, a4, b4, a3, List.length_append, List.range_add, List.map_append,
          List.map_map]
        congr 1
        apply List.map_congr_left
        intro j _
        simp only [Function.comp]
        push_cast; omega

theorem tileCount_nonneg (extent : Int) (h : 0 ≤ extent) : 0 ≤ tileCount extent 16 := by
  unfold tileCount
  apply Int.ceil_nonneg
  have : (0 : ℚ) ≤ (extent : ℚ) := by exact_mod_cast h
  positivity

/-- The loop bound of `CreateRenderingBlocks` is the integer quotient `(extent + 15) / 16`. -/
theorem tileCount_eq (extent : Int) : tileCount extent 16 = (extent + 15) / 16 := by
  unfold tileCount
  rw [Int.ceil_eq_iff]
  have h4 : 16 * ((extent + 15) / 16) - 16 < extent := by omega
  have h4q : (16 : ℚ) * (((extent + 15) / 16 : Int) : ℚ) - 16 < (extent : ℚ) := by
    exact_mod_cast h4
  have h5 : extent ≤ 16 * ((extent + 15) / 16) := by omega
  have h5q : (extent : ℚ) ≤ 16 * (((extent + 15) / 16 : Int) : ℚ) := by exact_mod_cast h5
  push_cast
  constructor
  · rw [lt_div_iff₀ (by norm_num : (0 : ℚ) < 16)]
    linarith
  · rw [div_le_iff₀ (by norm_num : (0 : ℚ) < 16)]
    linarith

/-- C7: for every bounding box (of non-negative width and height), z-range and starting
offset, `CreateRenderingBlocks` writes only list slots with index in `[offset, 262144)`,
the slots written are `offset, offset + 1, ...` in this order, and the number of blocks
written is `min(T, max(0, 262144 - offset))` with `T = ceil(width/16) * ceil(height/16)`,
where `width = 1 + lowerRight.x - upperLeft.x` and `height = 1 + lowerRight.y - upperLeft.y`.
The count is stated twice: with the two ceilings of the rational quotients, and with the
integer quotients `(width + 15) / 16` and `(height + 15) / 16` they are equal to. -/
theorem C7_CreateRenderingBlocks_cap (offset : Int) (upperLeft lowerRight : Vector2i)
    (zRange : Vector2f) (hw : 0 ≤ 1 + lowerRight.x - upperLeft.x)
    (hh : 0 ≤ 1 + lowerRight.y - upperLeft.y) :
    (∀ w ∈ CreateRenderingBlocks offset upperLeft lowerRight zRange,
      offset ≤ w.1 ∧ w.1 < 262144) ∧
    (((CreateRenderingBlocks offset upperLeft lowerRight zRange).length : Int) =
      min (⌈((1 + lowerRight.x - upperLeft.x : Int) : ℚ) / 16⌉ *
            ⌈((1 + lowerRight.y - upperLeft.y : Int) : ℚ) / 16⌉)
          (max 0 (262144 - offset))) ∧
    (((CreateRenderingBlocks offset upperLeft lowerRight zRange).length : Int) =
      min (((1 + lowerRight.x - upperLeft.x + 15) / 16) *
            ((1 + lowerRight.y - upperLeft.y + 15) / 16))
          (max 0 (262144 - offset))) ∧
    (CreateRenderingBlocks offset upperLeft lowerRight zRange).map Prod.fst =
      (List.range (CreateRenderingBlocks offset upperLeft lowerRight zRange).length).map
        (fun (j : Nat) => offset + (j : Int)) := by
  obtain ⟨ws, h1, h2, -, h4⟩ := outerBlockLoop_spec upperLeft lowerRight zRange
    (tileCount (1 + lowerRight.y - upperLeft.y) renderingBlockSizeY).toNat 0
    { offset := offset, writes := [] }
  have hres : CreateRenderingBlocks offset upperLeft lowerRight zRange = ws := by
    unfold CreateRenderingBlocks
    rw [h1]; rfl
  dsimp only at h2 h4
  have hx := tileCount_nonneg _ hw
  have hy := tileCount_nonneg _ hh
  have hmax : MAX_RENDERING_BLOCKS = 262144 := by decide
  have hlen : (ws.length : Int) = min (tileCount (1 + lowerRight.x - upperLeft.x) 16 *
      tileCount (1 + lowerRight.y - upperLeft.y) 16) (max 0 (262144 - offset)) := by
    rw [h2]
    simp only [renderingBlockSizeX, renderingBlockSizeY]
    push_cast
    rw [Int.toNat_of_nonneg hx, Int.toNat_of_nonneg hy, Int.toNat_eq_max, mul_comm,
      max_comm (MAX_RENDERING_BLOCKS - offset) 0, hmax]
  have hceil : ∀ e : Int, tileCount e 16 = ⌈(e : ℚ) / 16⌉ := by
    intro e
    unfold tileCount
    norm_num
  rw [hres]
  refine ⟨?_, ?_, ?_, h4⟩
  · intro w hwm
    have hm : w.1 ∈ ws.map Prod.fst := List.mem_map_of_mem _ hwm
    rw [h4] at hm
    obtain ⟨j, hj, hj'⟩ := List.mem_map.1 hm
    have hj2 : j < ws.length := List.mem_range.1 hj
    have hcap : ws.length ≤ (MAX_RENDERING_BLOCKS - offset).toNat := by
      rw [h2]; exact Nat.min_le_right _ _
    rw [hmax] at hcap
    omega
  · rw [hlen, hceil, hceil]
  · rw [hlen, tileCount_eq, tileCount_eq]

/-- C7, at two concrete inputs.  A 40x20 box at offset `0` has `ceil(40/16) * ceil(20/16) = 6`
tiles and gets six blocks, in slots `0 .. 5`; a 48x32 box (also six tiles) at offset
`262140` gets the four blocks that still fit below the cap, in slots `262140 .. 262143`. -/
theorem C7_CreateRenderingBlocks_cap_witness :
    ((0 : Int) ≤ 1 + 39 - 0 ∧ (0 : Int) ≤ 1 + 19 - 0 ∧
      (CreateRenderingBlocks 0 { x := 0, y := 0 } { x := 39, y := 19 }
        { x := 1, y := 2 }).map Prod.fst = [0, 1, 2, 3, 4, 5] ∧
      (CreateRenderingBlocks 262140 { x := 0, y := 0 } { x := 47, y := 31 }
        { x := 1, y := 2 }).map Prod.fst = [262140, 262141, 262142, 262143]) ∧
    ((∀ w ∈ CreateRenderingBlocks 0 { x := 0, y := 0 } { x := 39, y := 19 } { x := 1, y := 2 },
      0 ≤ w.1 ∧ w.1 < 262144) ∧
    (((CreateRenderingBlocks 0 { x := 0, y := 0 } { x := 39, y := 19 }
        { x := 1, y := 2 }).length : Int) =
      min (⌈(((1 + 39 - 0 : Int)) : ℚ) / 16⌉ * ⌈(((1 + 19 - 0 : Int)) : ℚ) / 16⌉)
          (max 0 (262144 - 0))) ∧
    (((CreateRenderingBlocks 0 { x := 0, y := 0 } { x := 39, y := 19 }
        { x := 1, y := 2 }).length : Int) =
      min (((1 + 39 - 0 + 15) / 16) * ((1 + 19 - 0 + 15) / 16)) (max 0 (262144 - 0))) ∧
    (CreateRenderingBlocks 0 { x := 0, y := 0 } { x := 39, y := 19 }
        { x := 1, y := 2 }).map Prod.fst =
      (List.range (CreateRenderingBlocks 0 { x := 0, y := 0 } { x := 39, y := 19 }
        { x := 1, y := 2 }).length).map (fun (j : Nat) => (0 : Int) + (j : Int))) ∧
    ((∀ w ∈ CreateRenderingBlocks 262140 { x := 0, y := 0 } { x := 47, y := 31 } { x := 1, y := 2 },
      262140 ≤ w.1 ∧ w.1 < 262144) ∧
    (((CreateRenderingBlocks 262140 { x := 0, y := 0 } { x := 47, y := 31 }
        { x := 1, y := 2 }).length : Int) =
      min (⌈(((1 + 47 - 0 : Int)) : ℚ) / 16⌉ * ⌈(((1 + 31 - 0 : Int)) : ℚ) / 16⌉)
          (max 0 (262144 - 262140))) ∧
    (((CreateRenderingBlocks 262140 { x := 0, y := 0 } { x := 47, y := 31 }
        { x := 1, y := 2 }).length : Int) =
      min (((1 + 47 - 0 + 15) / 16) * ((1 + 31 - 0 + 15) / 16)) (max 0 (262144 - 262140))) ∧
    (CreateRenderingBlocks 262140 { x := 0, y := 0 } { x := 47, y := 31 }
        { x := 1, y := 2 }).map Prod.fst =
      (List.range (CreateRenderingBlocks 262140 { x := 0, y := 0 } { x := 47, y := 31 }
        { x := 1, y := 2 }).length).map (fun (j : Nat) => (262140 : Int) + (j : Int))) :=
  ⟨by decide!,
   C7_CreateRenderingBlocks_cap 0 { x := 0, y := 0 } { x := 39, y := 19 } { x := 1, y := 2 }
    (by decide) (by decide),
   C7_CreateRenderingBlocks_cap 262140 { x := 0, y := 0 } { x := 47, y := 31 } { x := 1, y := 2 }
    (by decide) (by decide)⟩

theorem clampUpperLeft_nonneg (v : Vector2i) :
    0 ≤ (clampUpperLeft v).x ∧ 0 ≤ (clampUpperLeft v).y := by
  unfold clampUpperLeft
  dsimp only
  split_ifs <;> simp_all

theorem clampLowerRight_lt (imgSize v : Vector2i) :
    (clampLowerRight imgSize v).x ≤ imgSize.x - 1 ∧
      (clampLowerRight imgSize v).y ≤ imgSize.y - 1 := by
  unfold clampLowerRight
  dsimp only
  split_ifs <;> simp_all <;> omega

/-- The sanity checks of `ProjectSingleBlock` return `true` only on a box inside the image
with `zMin` at least `VERY_CLOSE`, whatever bounds the corner loop left. -/
theorem clampBounds_true (imgSize : Vector2i) (b : BlockBounds)
    (h : (clampBounds imgSize b).1 = true) :
    0 ≤ (clampBounds imgSize b).2.upperLeft.x ∧
    (clampBounds imgSize b).2.upperLeft.x ≤ (clampBounds imgSize b).2.lowerRight.x ∧
    (clampBounds imgSize b).2.lowerRight.x ≤ imgSize.x - 1 ∧
    0 ≤ (clampBounds imgSize b).2.upperLeft.y ∧
    (clampBounds imgSize b).2.upperLeft.y ≤ (clampBounds imgSize b).2.lowerRight.y ∧
    (clampBounds imgSize b).2.lowerRight.y ≤ imgSize.y - 1 ∧
    (clampBounds imgSize b).2.zRange.x ≥ 5 / 100 := by
  have hul := clampUpperLeft_nonneg b.upperLeft
  have hlr := clampLowerRight_lt imgSize b.lowerRight
  unfold clampBounds at h ⊢
  dsimp only at h ⊢
  generalize clampUpperLeft b.upperLeft = ul at h hul ⊢
  generalize clampLowerRight imgSize b.lowerRight = lr at h hlr ⊢
  by_cases h1 : ul.x > lr.x
  · simp [h1] at h
  · by_cases h2 : ul.y > lr.y
    · simp [h1, h2] at h
    · simp only [h1, h2, if_false] at h ⊢
      by_cases h3 : b.zRange.x < VERY_CLOSE
      · simp only [h3, if_true] at h ⊢
        split_ifs at h ⊢
        dsimp only
        refine ⟨hul.1, by omega, hlr.1, hul.2, by omega, hlr.2, ?_⟩
        norm_num [VERY_CLOSE]
      · simp only [h3, if_false] at h ⊢
        split_ifs at h ⊢
        dsimp only
        refine ⟨hul.1, by omega, hlr.1, hul.2, by omega, hlr.2, ?_⟩
        simp only [VERY_CLOSE] at h3
        simp only [ge_iff_le]
        linarith [not_lt.1 h3]

/-- C8: whenever `ProjectSingleBlock` returns `true`, its outputs satisfy
`0 <= upperLeft.x <= lowerRight.x <= imgSize.x - 1`,
`0 <= upperLeft.y <= lowerRight.y <= imgSize.y - 1` and `zRange.x >= 0.05`. -/
theorem C8_ProjectSingleBlock_bounds (SDF_BLOCK_SIZE : Int) (blockPos : Vector3s)
    (pose : Matrix4f) (intrinsics : Vector4f) (imgSize : Vector2i) (voxelSize : ℚ)
    (h : (ProjectSingleBlock SDF_BLOCK_SIZE blockPos pose intrinsics imgSize voxelSize).1 = true) :
    0 ≤ (ProjectSingleBlock SDF_BLOCK_SIZE blockPos pose intrinsics imgSize voxelSize).2.upperLeft.x ∧
    (ProjectSingleBlock SDF_BLOCK_SIZE blockPos pose intrinsics imgSize voxelSize).2.upperLeft.x ≤
      (ProjectSingleBlock SDF_BLOCK_SIZE blockPos pose intrinsics imgSize voxelSize).2.lowerRight.x ∧
    (ProjectSingleBlock SDF_BLOCK_SIZE blockPos pose intrinsics imgSize voxelSize).2.lowerRight.x ≤
      imgSize.x - 1 ∧
    0 ≤ (ProjectSingleBlock SDF_BLOCK_SIZE blockPos pose intrinsics imgSize voxelSize).2.upperLeft.y ∧
    (ProjectSingleBlock SDF_BLOCK_SIZE blockPos pose intrinsics imgSize voxelSize).2.upperLeft.y ≤
      (ProjectSingleBlock SDF_BLOCK_SIZE blockPos pose intrinsics imgSize voxelSize).2.lowerRight.y ∧
    (ProjectSingleBlock SDF_BLOCK_SIZE blockPos pose intrinsics imgSize voxelSize).2.lowerRight.y ≤
      imgSize.y - 1 ∧
    (ProjectSingleBlock SDF_BLOCK_SIZE blockPos pose intrinsics imgSize voxelSize).2.zRange.x ≥
      5 / 100 :=
  clampBounds_true imgSize _ h

/-- C8, at a concrete input: the block at `(0, 0, 1)` seen by a camera at the origin (voxel
size 5 mm, corner depths 4 cm and 8 cm) is accepted with box `(40, 30) .. (159, 119)` in a
`160 x 120` image and `zMin` raised to `0.05`. -/
theorem C8_ProjectSingleBlock_bounds_witness :
    ((ProjectSingleBlock 8 { x := 0, y := 0, z := 1 } Matrix4f.identity
        { x := 500, y := 500, z := 320, w := 240 } { x := 160, y := 120 } (1 / 200)).1 = true ∧
      (ProjectSingleBlock 8 { x := 0, y := 0, z := 1 } Matrix4f.identity
        { x := 500, y := 500, z := 320, w := 240 } { x := 160, y := 120 } (1 / 200)).2 =
        { upperLeft := { x := 40, y := 30 }, lowerRight := { x := 159, y := 119 },
          zRange := { x := 1 / 20, y := 2 / 25 } }) ∧
    (0 ≤ (ProjectSingleBlock 8 { x := 0, y := 0, z := 1 } Matrix4f.identity
        { x := 500, y := 500, z := 320, w := 240 } { x := 160, y := 120 } (1 / 200)).2.upperLeft.x ∧
    (ProjectSingleBlock 8 { x := 0, y := 0, z := 1 } Matrix4f.identity
        { x := 500, y := 500, z := 320, w := 240 } { x := 160, y := 120 } (1 / 200)).2.upperLeft.x ≤
      (ProjectSingleBlock 8 { x := 0, y := 0, z := 1 } Matrix4f.identity
        { x := 500, y := 500, z := 320, w := 240 } { x := 160, y := 120 } (1 / 200)).2.lowerRight.x ∧
    (ProjectSingleBlock 8 { x := 0, y := 0, z := 1 } Matrix4f.identity
        { x := 500, y := 500, z := 320, w := 240 } { x := 160, y := 120 } (1 / 200)).2.lowerRight.x ≤
      (160 : Int) - 1 ∧
    0 ≤ (ProjectSingleBlock 8 { x := 0, y := 0, z := 1 } Matrix4f.identity
        { x := 500, y := 500, z := 320, w := 240 } { x := 160, y := 120 } (1 / 200)).2.upperLeft.y ∧
    (ProjectSingleBlock 8 { x := 0, y := 0, z := 1 } Matrix4f.identity
        { x := 500, y := 500, z := 320, w := 240 } { x := 160, y := 120 } (1 / 200)).2.upperLeft.y ≤
      (ProjectSingleBlock 8 { x := 0, y := 0, z := 1 } Matrix4f.identity
        { x := 500, y := 500, z := 320, w := 240 } { x := 160, y := 120 } (1 / 200)).2.lowerRight.y ∧
    (ProjectSingleBlock 8 { x := 0, y := 0, z := 1 } Matrix4f.identity
        { x := 500, y := 500, z := 320, w := 240 } { x := 160, y := 120 } (1 / 200)).2.lowerRight.y ≤
      (120 : Int) - 1 ∧
    (ProjectSingleBlock 8 { x := 0, y := 0, z := 1 } Matrix4f.identity
        { x := 500, y := 500, z := 320, w := 240 } { x := 160, y := 120 } (1 / 200)).2.zRange.x ≥
      5 / 100) :=
  ⟨by decide!,
   C8_ProjectSingleBlock_bounds 8 { x := 0, y := 0, z := 1 } Matrix4f.identity
    { x := 500, y := 500, z := 320, w := 240 } { x := 160, y := 120 } (1 / 200) (by decide!)⟩

theorem selectStep_ne_BEHIND (env : RayEnv) (stepScale : ℚ) (state : RayState) (hf : Bool)
    (sdf : ℚ) (h : state ≠ RayState.BEHIND_SURFACE) :
    (selectStep env stepScale state hf sdf).1 ≠ RayState.BEHIND_SURFACE := by
  unfold selectStep
  cases state <;> cases hf <;> simp_all

theorem advance_fields (env : RayEnv) (stepScale : ℚ) (dir : Vector3f) (m : March) :
    (advance env stepScale dir m).reads = m.reads ∧
    (advance env stepScale dir m).sdfValue = m.sdfValue ∧
    (advance env stepScale dir m).hash_found = m.hash_found ∧
    (advance env stepScale dir m).state =
      (selectStep env stepScale m.state m.hash_found m.sdfValue).1 ∧
    (advance env stepScale dir m).totalLength =
      m.totalLength + (selectStep env stepScale m.state m.hash_found m.sdfValue).2 :=
  ⟨rfl, rfl, rfl, rfl, rfl⟩

theorem signTest_eq_BEHIND (state : RayState) (sdf : ℚ) (h : state ≠ RayState.BEHIND_SURFACE) :
    signTest state sdf = RayState.BEHIND_SURFACE ↔
      sdf ≤ 0 ∧ state ≠ RayState.SEARCH_BLOCK_FINE := by
  unfold signTest
  cases state <;> split_ifs <;> simp_all

theorem readAndTest_inv (env : RayEnv) (m : March) (h : m.state ≠ RayState.BEHIND_SURFACE)
    (hinv : MarchInv m) : MarchInv (readAndTest env m) := by
  have hold := hinv.2 h
  have hreads : (readAndTest env m).reads = m.reads ++
      [{ totalLength := m.totalLength,
         state := m.state,
         uninterpolated := (env.readFromSDF_float_uninterpolated m.pt_result).1,
         interpolated := (readSdf env m.pt_result).2.2,
         sdfValue := (readSdf env m.pt_result).1 }] := rfl
  have hstate : (readAndTest env m).state = signTest m.state (readSdf env m.pt_result).1 := rfl
  have hsdf : (readAndTest env m).sdfValue = (readSdf env m.pt_result).1 := rfl
  have hiff := signTest_eq_BEHIND m.state (readSdf env m.pt_result).1 h
  refine ⟨?_, ?_⟩
  · intro hb
    rw [hstate] at hb
    obtain ⟨h1, h2⟩ := hiff.1 hb
    refine ⟨SdfRead.mk m.totalLength m.state (env.readFromSDF_float_uninterpolated m.pt_result).1
      (readSdf env m.pt_result).2.2 (readSdf env m.pt_result).1, ?_, ?_, ?_, ?_⟩
    · rw [hreads, List.getLast?_append]
      rfl
    · rw [hsdf]
    · exact h1
    · exact h2
  · intro hb r hr
    rw [hstate] at hb
    rw [hreads] at hr
    rcases List.mem_append.1 hr with hr | hr
    · exact hold r hr
    · simp only [List.mem_singleton] at hr
      subst hr
      exact fun hc => hb (hiff.2 hc)

/-- How the march loop can end: through its condition, in state `BEHIND_SURFACE`, or through
`break`, in another state and with the path length above the maximum. -/
theorem marchLoop_result (env : RayEnv) (stepScale : ℚ) (dir : Vector3f) (maxLen : ℚ) :
    ∀ (fuel : Nat) (m : March) (r : Bool × March),
      marchLoop env stepScale dir maxLen fuel m = some r → MarchInv m →
      MarchInv r.2 ∧ (r.1 = false → r.2.state = RayState.BEHIND_SURFACE) ∧
        (r.1 = true → r.2.state ≠ RayState.BEHIND_SURFACE ∧ r.2.totalLength > maxLen) := by
  intro fuel
  induction fuel with
  | zero =>
    intro m r h hinv
    unfold marchLoop at h
    split at h
    · rename_i hb
      injection h with h
      subst h
      exact ⟨hinv, fun _ => hb, fun hc => by simp at hc⟩
    · simp at h
  | succ fuel ih =>
    intro m r h hinv
    unfold marchLoop at h
    split at h
    · rename_i hb
      injection h with h
      subst h
      exact ⟨hinv, fun _ => hb, fun hc => by simp at hc⟩
    · rename_i hb
      dsimp only at h
      have ha := advance_fields env stepScale dir m
      have hne : (advance env stepScale dir m).state ≠ RayState.BEHIND_SURFACE := by
        rw [ha.2.2.2.1]
        exact selectStep_ne_BEHIND env stepScale _ _ _ hb
      have hinv1 : MarchInv (advance env stepScale dir m) := by
        refine ⟨fun hc => absurd hc hne, fun _ => ?_⟩
        rw [ha.1]
        exact hinv.2 hb
      split at h
      · rename_i hlen
        injection h with h
        subst h
        exact ⟨hinv1, fun hc => by simp at hc, fun _ => ⟨hne, hlen⟩⟩
      · exact ih _ r h (readAndTest_inv env _ hne hinv1)

theorem marchLoop_fuel_mono (env : RayEnv) (stepScale : ℚ) (dir : Vector3f) (maxLen : ℚ) :
    ∀ (fuel : Nat) (m : March) (r : Bool × March),
      marchLoop env stepScale dir maxLen fuel m = some r →
      ∀ k, marchLoop env stepScale dir maxLen (fuel + k) m = some r := by
  intro fuel
  induction fuel with
  | zero =>
    intro m r h k
    unfold marchLoop at h ⊢
    split at h
    · rename_i hb
      simp [hb, h]
    · simp at h
  | succ fuel ih =>
    intro m r h k
    rw [show fuel + 1 + k = (fuel + k) + 1 by omega]
    unfold marchLoop at h ⊢
    split at h
    · rename_i hb
      simp [hb, h]
    · rename_i hb
      simp only [hb, if_false]
      dsimp only at h ⊢
      split at h
      · rename_i hlen
        simp [hlen, h]
      · rename_i hlen
        simp only [hlen, if_false]
        exact ih _ r h k

theorem initialMarch_inv (env : RayEnv) (a : RayArgs) : MarchInv (initialMarch env a) := by
  refine ⟨fun h => ?_, fun _ r hr => ?_⟩
  · unfold initialMarch at h
    dsimp only at h
    split_ifs at h
  · simp [initialMarch] at hr

theorem castRayRun_some (env : RayEnv) (fuel : Nat) (a : RayArgs) (o : RayOutcome)
    (h : castRayRun env fuel a = some o) :
    ∃ r, marchLoop env a.stepScale (a.rayDirection env) (a.totalLengthMax env) fuel
        (initialMarch env a) = some r ∧
      o = finishRay a.stepScale (a.rayDirection env) r.1 r.2 := by
  unfold castRayRun at h
  split at h
  · simp at h
  · rename_i r hr
    injection h with h
    exact ⟨r, hr, h.symm⟩

/-- C9: `castRay` returns `true` exactly when its march loop ended in state
`BEHIND_SURFACE` (which is when the loop was left through its condition and not through
`break`); then the last SDF value read is the current `sdfValue`, it is `<= 0`, the output
point is the last marched position moved by `sdfValue * stepScale` along the ray direction and
`pt_out.w = 1`.  When the loop is left through `break`, the path length exceeds the maximum,
`castRay` returns `false`, `pt_out.w = 0` and the output point is the last marched position.
More fuel does not change the outcome. -/
theorem C9_castRay_outcome (env : RayEnv) (fuel : Nat) (a : RayArgs) (o : RayOutcome)
    (h : castRayRun env fuel a = some o) :
    castRay env fuel a = some (o.pt_found, o.pt_out) ∧
    (o.pt_found = true ↔ o.last.state = RayState.BEHIND_SURFACE) ∧
    (o.leftByBreak = false ↔ o.last.state = RayState.BEHIND_SURFACE) ∧
    (o.last.state = RayState.BEHIND_SURFACE →
      (∃ r, o.last.reads.getLast? = some r ∧ r.sdfValue = o.last.sdfValue) ∧
      o.last.sdfValue ≤ 0 ∧
      TO_VECTOR3 o.pt_out = o.last.pt_result.add
        (Vector3f.smul (o.last.sdfValue * a.stepScale) (a.rayDirection env)) ∧
      o.pt_out.w = 1) ∧
    (o.leftByBreak = true →
      o.last.totalLength > a.totalLengthMax env ∧ o.pt_found = false ∧
      TO_VECTOR3 o.pt_out = o.last.pt_result ∧ o.pt_out.w = 0) ∧
    (∀ k, castRayRun env (fuel + k) a = some o) := by
  obtain ⟨r, hr, ho⟩ := castRayRun_some env fuel a o h
  obtain ⟨hinv, hcond, hbrk⟩ := marchLoop_result env _ _ _ fuel _ r hr (initialMarch_inv env a)
  have hlast : o.last = r.2 := by rw [ho]; rfl
  have hbreak : o.leftByBreak = r.1 := by rw [ho]; rfl
  have hfound : o.pt_found = decide (r.2.state = RayState.BEHIND_SURFACE) := by rw [ho]; rfl
  refine ⟨?_, ?_, ?_, ?_, ?_, ?_⟩
  · unfold castRay; rw [h]; rfl
  · rw [hfound, hlast]; simp
  · rw [hbreak, hlast]
    constructor
    · exact hcond
    · intro hb
      cases hr1 : r.1
      · rfl
      · exact absurd hb (hbrk hr1).1
  · intro hb
    rw [hlast] at hb ⊢
    obtain ⟨rd, h1, h2, h3, -⟩ := hinv.1 hb
    refine ⟨⟨rd, h1, h2⟩, h2 ▸ h3, ?_, ?_⟩
    · rw [ho]; simp [finishRay, TO_VECTOR3, hb]
    · rw [ho]; simp [finishRay, hb]
  · intro hb
    rw [hbreak] at hb
    obtain ⟨h1, h2⟩ := hbrk hb
    rw [hlast]
    refine ⟨h2, ?_, ?_, ?_⟩
    · rw [hfound]; simp [h1]
    · rw [ho]; simp [finishRay, TO_VECTOR3, h1]
    · rw [ho]; simp [finishRay, h1]
  · intro k
    unfold castRayRun
    rw [marchLoop_fuel_mono env _ _ _ fuel _ r hr k]
    unfold castRayRun at h
    rw [hr] at h
    exact h

/-- C9, at a concrete ray: on the front-facing surface the first coarse step lands behind
the surface (SDF `-1/2` at voxel 18); the result is found, at `z = 18 + (-1/2) * 4 = 16`. -/
theorem C9_castRay_outcome_witness :
    castRayRun frontFaceEnv 10 axisRay = some
      { pt_found := true, pt_out := { x := 0, y := 0, z := 16, w := 1 }, leftByBreak := false,
        last := { state := RayState.BEHIND_SURFACE, hash_found := true, sdfValue := -(1 / 2),
                  pt_result := { x := 0, y := 0, z := 18 }, totalLength := 18,
                  reads := [{ totalLength := 18, state := RayState.SEARCH_BLOCK_COARSE,
                              uninterpolated := -(1 / 2), interpolated := none,
                              sdfValue := -(1 / 2) }] } } ∧
    castRay frontFaceEnv 10 axisRay = some (true, { x := 0, y := 0, z := 16, w := 1 }) :=
  ⟨by decide!,
   (C9_castRay_outcome frontFaceEnv 10 axisRay
      { pt_found := true, pt_out := { x := 0, y := 0, z := 16, w := 1 }, leftByBreak := false,
        last := { state := RayState.BEHIND_SURFACE, hash_found := true, sdfValue := -(1 / 2),
                  pt_result := { x := 0, y := 0, z := 18 }, totalLength := 18,
                  reads := [{ totalLength := 18, state := RayState.SEARCH_BLOCK_COARSE,
                              uninterpolated := -(1 / 2), interpolated := none,
                              sdfValue := -(1 / 2) }] } }
      (by decide!)).1⟩

/-- C10 (amended): in every run of `castRay` that returns, `found = true` exactly when some SDF
value tested inside the march loop is `<= 0` while the state is not `SEARCH_BLOCK_FINE`, and
then that value is the last one read; in particular `found = false` if no value tested in the
loop is `<= 0`.  A value `<= 0` read in state `SEARCH_BLOCK_FINE` does not give
`found = true`. -/
theorem C10_castRay_found (env : RayEnv) (a : RayArgs) (fuel : Nat) (o : RayOutcome)
    (h : castRayRun env fuel a = some o) :
    (o.pt_found = true ↔
      ∃ r ∈ o.last.reads, r.sdfValue ≤ 0 ∧ r.state ≠ RayState.SEARCH_BLOCK_FINE) ∧
    (o.pt_found = true →
      ∃ r, o.last.reads.getLast? = some r ∧ r.sdfValue ≤ 0 ∧
        r.state ≠ RayState.SEARCH_BLOCK_FINE) ∧
    ((∀ r ∈ o.last.reads, 0 < r.sdfValue) → o.pt_found = false) := by
  obtain ⟨r, hr, ho⟩ := castRayRun_some env fuel a o h
  obtain ⟨hinv, -, -⟩ := marchLoop_result env _ _ _ fuel _ r hr (initialMarch_inv env a)
  have hlast : o.last = r.2 := by rw [ho]; rfl
  have hfound : o.pt_found = decide (r.2.state = RayState.BEHIND_SURFACE) := by rw [ho]; rfl
  have hiff : o.pt_found = true ↔
      ∃ rd ∈ o.last.reads, rd.sdfValue ≤ 0 ∧ rd.state ≠ RayState.SEARCH_BLOCK_FINE := by
    rw [hfound, hlast]
    constructor
    · intro hb
      obtain ⟨rd, h1, -, h3, h4⟩ := hinv.1 (by simpa using hb)
      exact ⟨rd, List.mem_of_getLast?_eq_some h1, h3, h4⟩
    · rintro ⟨rd, h1, h2⟩
      by_contra hb
      exact hinv.2 (by simpa using hb) rd h1 h2
  refine ⟨hiff, ?_, ?_⟩
  · rw [hfound, hlast]
    intro hb
    obtain ⟨rd, h1, -, h3, h4⟩ := hinv.1 (by simpa using hb)
    exact ⟨rd, h1, h3, h4⟩
  · intro hall
    cases hf : o.pt_found
    · rfl
    · obtain ⟨rd, h1, h2, -⟩ := hiff.1 hf
      exact absurd h2 (not_le.2 (hall rd h1))

/-- C10 as stated fails: on a surface seen from behind the march reads the SDF value `-1/2`
in state `SEARCH_BLOCK_FINE` at path length 14 (the maximum is 30), turns to `WRONG_SIDE`,
steps back, and ends beyond the maximum path length with `found = false`. -/
theorem C10_back_face_not_found :
    0 < axisRay.stepScale ∧ axisRay.totalLengthMax backFaceEnv = 30 ∧
    (castRayRun backFaceEnv 10 axisRay).map
      (fun o => (o.pt_found, o.leftByBreak,
        o.last.reads.map (fun r => (r.totalLength, r.state, r.sdfValue)))) =
      some (false, true,
        [(18, RayState.SEARCH_BLOCK_COARSE, 1 / 2),
         (14, RayState.SEARCH_BLOCK_FINE, -(1 / 2)),
         (12, RayState.WRONG_SIDE, 1),
         (20, RayState.SEARCH_BLOCK_COARSE, 4 / 5),
         (16, RayState.SEARCH_BLOCK_FINE, 1 / 10),
         (17, RayState.SEARCH_SURFACE, 3 / 10),
         (91 / 5, RayState.SEARCH_SURFACE, 1 / 2),
         (101 / 5, RayState.SEARCH_SURFACE, 4 / 5),
         (117 / 5, RayState.SEARCH_SURFACE, 1)]) := by
  decide!

/-- C10, at two concrete rays.  In a volume with no allocated block (every read gives `1`)
the run with fuel 10 returns with `found = false`; towards a surface seen from the front the
run returns with `found = true`, its last read being `-1/2` in state `SEARCH_BLOCK_COARSE`. -/
theorem C10_castRay_found_witness :
    ((castRayRun emptyEnv 10 axisRay).map
        (fun o => (o.pt_found, o.last.reads.map (fun r => (r.state, r.sdfValue)))) =
      some (false, [(RayState.SEARCH_BLOCK_COARSE, 1), (RayState.SEARCH_BLOCK_COARSE, 1)]) ∧
     (castRayRun frontFaceEnv 10 axisRay).map
        (fun o => (o.pt_found, o.last.reads.map (fun r => (r.state, r.sdfValue)))) =
      some (true, [(RayState.SEARCH_BLOCK_COARSE, -(1 / 2))])) ∧
    (∃ o, castRayRun emptyEnv 10 axisRay = some o ∧
      (o.pt_found = true ↔
        ∃ r ∈ o.last.reads, r.sdfValue ≤ 0 ∧ r.state ≠ RayState.SEARCH_BLOCK_FINE) ∧
      (o.pt_found = true →
        ∃ r, o.last.reads.getLast? = some r ∧ r.sdfValue ≤ 0 ∧
          r.state ≠ RayState.SEARCH_BLOCK_FINE) ∧
      ((∀ r ∈ o.last.reads, 0 < r.sdfValue) → o.pt_found = false)) ∧
    (∃ o, castRayRun frontFaceEnv 10 axisRay = some o ∧
      (o.pt_found = true ↔
        ∃ r ∈ o.last.reads, r.sdfValue ≤ 0 ∧ r.state ≠ RayState.SEARCH_BLOCK_FINE) ∧
      (o.pt_found = true →
        ∃ r, o.last.reads.getLast? = some r ∧ r.sdfValue ≤ 0 ∧
          r.state ≠ RayState.SEARCH_BLOCK_FINE) ∧
      ((∀ r ∈ o.last.reads, 0 < r.sdfValue) → o.pt_found = false)) :=
  ⟨by decide!,
   match h : castRayRun emptyEnv 10 axisRay with
   | some o => ⟨o, rfl, C10_castRay_found emptyEnv axisRay 10 o h⟩
   | none => absurd h (by decide!),
   match h : castRayRun frontFaceEnv 10 axisRay with
   | some o => ⟨o, rfl, C10_castRay_found frontFaceEnv axisRay 10 o h⟩
   | none => absurd h (by decide!)⟩

end Rendering

/-! ## Theorems: keyframes, global adjustment, free view, rejection and march states -/

section Further

variable {W Pose : Type}

/-- Without wrap-around of the `size_t` sum, the count after `AllocateSurfels(n)` is the count
before it when the call returns null, and larger by exactly `n` when it succeeds. -/
theorem AllocateSurfels_count_of_no_wrap (s : ITMSurfelScene) (n : Nat)
    (h : s.m_surfelCount + n < SIZE_T_RANGE) :
    ((s.AllocateSurfels n).1 = none →
      (s.AllocateSurfels n).2.GetSurfelCount = s.GetSurfelCount) ∧
    ((s.AllocateSurfels n).1 ≠ none →
      (s.AllocateSurfels n).2.GetSurfelCount = s.GetSurfelCount + n) := by
  simp only [ITMSurfelScene.AllocateSurfels, ITMSurfelScene.GetSurfelCount, Nat.mod_eq_of_lt h]
  split <;> simp_all

/-- C14, evaluated where the code departs from it: in the scene reached from a fresh one by
`AllocateSurfels(1)`, the call `AllocateSurfels(2^64 - 1)` succeeds (the pointer is not null),
and the count after it is `0`: below the count before it, `1`, and not larger by `2^64 - 1`. -/
theorem C14_AllocateSurfels_lowers_count :
    (ITMSurfelScene.construct.AllocateSurfels 1).2.GetSurfelCount = 1 ∧
    ((ITMSurfelScene.construct.AllocateSurfels 1).2.AllocateSurfels (2 ^ 64 - 1)).1 ≠ none ∧
    ((ITMSurfelScene.construct.AllocateSurfels 1).2.AllocateSurfels (2 ^ 64 - 1)).2.GetSurfelCount
      < (ITMSurfelScene.construct.AllocateSurfels 1).2.GetSurfelCount ∧
    ((ITMSurfelScene.construct.AllocateSurfels 1).2.AllocateSurfels (2 ^ 64 - 1)).2.GetSurfelCount
      ≠ (ITMSurfelScene.construct.AllocateSurfels 1).2.GetSurfelCount + (2 ^ 64 - 1) := by
  decide

/-- At a count of `MAX_SURFEL_COUNT`, a request of `n >= 1` surfels whose `size_t` sum with
the count does not wrap is refused and leaves the scene as it was. -/
theorem AllocateSurfels_full (s : ITMSurfelScene) (n : Nat)
    (hd : s.dataSize = MAX_SURFEL_COUNT) (hc : s.m_surfelCount = MAX_SURFEL_COUNT)
    (hn : 1 ≤ n) (h : MAX_SURFEL_COUNT + n < SIZE_T_RANGE) :
    s.AllocateSurfels n = (none, s) := by
  simp only [ITMSurfelScene.AllocateSurfels, hc, hd, Nat.mod_eq_of_lt h]
  rw [if_pos (by omega)]

/-- After `Reset()` the count is `0`, and a request of `1 <= n <= MAX_SURFEL_COUNT` surfels
succeeds at the start of the block and leaves the count at `n`. -/
theorem AllocateSurfels_after_Reset (s : ITMSurfelScene) (n : Nat)
    (hd : s.dataSize = MAX_SURFEL_COUNT) (hn : n ≤ MAX_SURFEL_COUNT) :
    s.Reset.GetSurfelCount = 0 ∧ (s.Reset.AllocateSurfels n).1 = some 0 ∧
      (s.Reset.AllocateSurfels n).2.GetSurfelCount = n := by
  have hlt : n % SIZE_T_RANGE = n :=
    Nat.mod_eq_of_lt (by simp only [MAX_SURFEL_COUNT, SIZE_T_RANGE] at hn ⊢; omega)
  simp only [ITMSurfelScene.AllocateSurfels, ITMSurfelScene.Reset,
    ITMSurfelScene.GetSurfelCount, Nat.zero_add, hlt, hd]
  rw [if_neg (by omega)]
  simp

/-- C15, evaluated where the code departs from it: a fresh scene is filled by
`AllocateSurfels(MAX_SURFEL_COUNT)`, so its count is exactly `MAX_SURFEL_COUNT`; the request
`n = 2^64 - MAX_SURFEL_COUNT >= 1` is then granted: the call returns the pointer
`base + MAX_SURFEL_COUNT` (one past the block), not null, and sets the count to `0`. -/
theorem C15_AllocateSurfels_at_MAX_granted :
    (ITMSurfelScene.construct.AllocateSurfels MAX_SURFEL_COUNT).1 = some 0 ∧
    (ITMSurfelScene.construct.AllocateSurfels MAX_SURFEL_COUNT).2.GetSurfelCount
      = MAX_SURFEL_COUNT ∧
    1 ≤ 2 ^ 64 - MAX_SURFEL_COUNT ∧ 2 ^ 64 - MAX_SURFEL_COUNT < SIZE_T_RANGE ∧
    ((ITMSurfelScene.construct.AllocateSurfels MAX_SURFEL_COUNT).2.AllocateSurfels
      (2 ^ 64 - MAX_SURFEL_COUNT)).1 = some MAX_SURFEL_COUNT ∧
    ((ITMSurfelScene.construct.AllocateSurfels MAX_SURFEL_COUNT).2.AllocateSurfels
      (2 ^ 64 - MAX_SURFEL_COUNT)).2.GetSurfelCount = 0 := by
  decide

/-- The keyframe store of a terminator: when the relocaliser hands back an ID `>= 0`, the
scene `primarySceneIdx` is looked up and its `pose_d` is stored under that ID, where
`primarySceneIdx` is the primary's sub-map index if `primaryDataIdx >= 0` and `-1` if not. -/
theorem terminatorStep_store (c : Collaborators W Pose) (i : Nat) (s : WalkState W Pose)
    (hk : 0 ≤ (c.relocaliserProcessFrame s.world s.primaryTrackingSuccess).1.addKeyframeIdx) :
    (terminatorStep c i s).trace = s.trace ++
      [Event.UpdateHostFromDevice i,
       Event.relocaliserProcessFrame i s.primaryTrackingSuccess
        (c.relocaliserProcessFrame s.world s.primaryTrackingSuccess).1.addKeyframeIdx,
       Event.getScene i (if s.primaryDataIdx ≥ 0 then c.getSceneIndex
          (c.relocaliserProcessFrame s.world s.primaryTrackingSuccess).2 s.primaryDataIdx
          else -1),
       Event.storePose i
        (c.relocaliserProcessFrame s.world s.primaryTrackingSuccess).1.addKeyframeIdx
        (s.pose_d (if s.primaryDataIdx ≥ 0 then c.getSceneIndex
          (c.relocaliserProcessFrame s.world s.primaryTrackingSuccess).2 s.primaryDataIdx
          else -1))
        (if s.primaryDataIdx ≥ 0 then c.getSceneIndex
          (c.relocaliserProcessFrame s.world s.primaryTrackingSuccess).2 s.primaryDataIdx
          else -1)] := by
  simp [terminatorStep, hk, WalkState.log]

/-- C11, evaluated where the code departs from it: the frame starts with no primary
(`findPrimaryDataIdx() = -1`, no active entry) and the relocaliser hands back keyframe ID `0`.
The calls of the frame are then: the relocaliser query, `getScene(-1)`, and
`storePose(0, pose_d of scene -1, -1)`, followed by the global adjustment hand-off. -/
theorem C11_store_without_primary :
    keyframeWithoutPrimaryScript.collaborators.findPrimaryDataIdx freshEngine.world = -1 ∧
    (ProcessFrame keyframeWithoutPrimaryScript.collaborators 10 freshEngine false).map
        (fun out => out.trace) =
      some [Event.UpdateHostFromDevice 0, Event.relocaliserProcessFrame 0 false 0,
        Event.getScene 0 (-1), Event.storePose 0 0 0 (-1),
        Event.maintainActiveData false, Event.retrieveNewEstimates] := by
  decide!

/-- A PRIMARY entry's tracker result is taken as it is: POOR stays POOR. -/
theorem effectiveResult_primary (r : TrackingResult) :
    effectiveResult SceneType.PRIMARY_SCENE r = r := by
  simp [effectiveResult]

/-- C13, evaluated where the code departs from it: the frame starts with tracking lost
(`findPrimaryDataIdx() = -1`, no active entry, no relocalisation candidate).  No entry is
tracked, the local `primarySceneTrackingResult` is never assigned, and the frame returns it. -/
theorem C13_result_unassigned_without_primary :
    lostScript.collaborators.findPrimaryDataIdx freshEngine.world = -1 ∧
    (ProcessFrame lostScript.collaborators 10 freshEngine false).map
        (fun out => (out.result, out.trace)) =
      some (none, [Event.UpdateHostFromDevice 0, Event.relocaliserProcessFrame 0 false (-1),
        Event.maintainActiveData false, Event.retrieveNewEstimates]) := by
  decide!

/-- A tracked entry that the manager reports as PRIMARY sets the value that the frame
returns to the tracker's own result. -/
theorem trackBlock_primary_result (c : Collaborators W Pose) (i : Nat) (sc : Int)
    (s : WalkState W Pose)
    (hp : c.getSceneType (c.Track s.world sc (s.pose_d sc)).2
      (s.todoList.getD i terminator).dataID = SceneType.PRIMARY_SCENE) :
    (trackBlock c i sc s).primarySceneTrackingResult =
      some (c.Track s.world sc (s.pose_d sc)).1.2 := by
  simp only [trackBlock, WalkState.log, WalkState.setEntry, hp, effectiveResult]
  split_ifs <;> simp_all

/-- The calls of the global adjustment hand-off, one by one. -/
theorem globalAdjustmentBlock_events (c : Collaborators W Pose) (g : Bool)
    (s : WalkState W Pose) :
    (globalAdjustmentBlock c g s).1 =
      (scheduledAfterMaintain c g s && !absorbedAfterMaintain c s) ∧
    (globalAdjustmentBlock c g s).2.trace = s.trace ++
      (Event.maintainActiveData (c.maintainActiveData s.world).1 ::
        ((if scheduledAfterMaintain c g s = true then
            Event.updateMeasurements (absorbedAfterMaintain c s) ::
              (if absorbedAfterMaintain c s = true then [Event.wakeupSeparateThread] else [])
          else []) ++ [Event.retrieveNewEstimates])) := by
  unfold globalAdjustmentBlock MultithreadedGlobalAdjustment scheduledAfterMaintain
    absorbedAfterMaintain
  simp only [WalkState.log]
  split_ifs <;> simp_all

/-- The calls made by a walk that ended all carry a todo-list index. -/
theorem walk_trace_indexed (c : Collaborators W Pose) (fuel : Nat)
    (eng : ITMMultiEngine W Pose) (hasImu : Bool) (s : WalkState W Pose)
    (hs : walk c fuel 0 (initialWalkState c eng hasImu) = some s) :
    ∀ e ∈ s.trace, ∃ j, e.index = some j := by
  obtain ⟨j, -, hP1, -, -⟩ := walk_invariant c
    (fun i s => (∀ e ∈ s.trace, ∃ j, j < i ∧ e.index = some j) ∧ NoFusionAfterPoor s.trace ∧
      ResizeOnlyOnPrimaryFailure s.trace)
    (fun i s hi hP => walkStep_trace_invariant c i s hi hP) fuel 0 _ s hs
    (by
      refine ⟨?_, ?_, ?_⟩
      · intro e he; simp [initialWalkState] at he
      · intro j d sc t hT; simp [initialWalkState] at hT
      · intro j n hT; simp [initialWalkState] at hT)
  intro e he
  obtain ⟨k, -, hk⟩ := hP1 e he
  exact ⟨k, hk⟩

theorem countP_eq_zero_of_indexed (tr : List (Event Pose)) (p : Event Pose → Bool)
    (hp : ∀ e, p e = true → e.index = none) (h : ∀ e ∈ tr, ∃ j, e.index = some j) :
    tr.countP p = 0 := by
  rw [List.countP_eq_zero]
  intro e he hpe
  obtain ⟨j, hj⟩ := h e he
  rw [hp e hpe] at hj
  cases hj

/-- C12: in every `ProcessFrame` call that returns, with `s` the state in which the todo-list
walk ended: the schedule flag afterwards is (flag before OR `maintainActiveData()`) AND NOT
absorbed, where absorbed is the answer of `updateMeasurements`; `updateMeasurements` is called
exactly when (flag before OR `maintainActiveData()`) holds, and then once; the optimizer is
started exactly when that call was made and answered `true`, hence at most once in the frame;
and when the call answered `false` the flag stays set for the next frame. -/
theorem C12_global_adjustment_schedule (c : Collaborators W Pose) (fuel : Nat)
    (eng : ITMMultiEngine W Pose) (hasImu : Bool) (out : FrameOutcome W Pose)
    (h : ProcessFrame c fuel eng hasImu = some out) :
    ∃ s, walk c fuel 0 (initialWalkState c eng hasImu) = some s ∧
      out.engine.mScheduleGlobalAdjustment =
        (scheduledAfterMaintain c eng.mScheduleGlobalAdjustment s &&
          !absorbedAfterMaintain c s) ∧
      out.trace.countP Event.isUpdateMeasurements =
        (if scheduledAfterMaintain c eng.mScheduleGlobalAdjustment s = true then 1 else 0) ∧
      (scheduledAfterMaintain c eng.mScheduleGlobalAdjustment s = true →
        Event.updateMeasurements (absorbedAfterMaintain c s) ∈ out.trace) ∧
      out.trace.countP Event.isOptimizerStart =
        (if scheduledAfterMaintain c eng.mScheduleGlobalAdjustment s = true ∧
            absorbedAfterMaintain c s = true then 1 else 0) ∧
      out.trace.countP Event.isOptimizerStart ≤ 1 ∧
      (scheduledAfterMaintain c eng.mScheduleGlobalAdjustment s = true →
        absorbedAfterMaintain c s = false → out.engine.mScheduleGlobalAdjustment = true) := by
  unfold ProcessFrame at h
  split at h
  · simp at h
  · rename_i s hs
    injection h with h
    subst h
    obtain ⟨hflag, htrace⟩ := globalAdjustmentBlock_events c eng.mScheduleGlobalAdjustment s
    have hidx := walk_trace_indexed c fuel eng hasImu s hs
    have hu : s.trace.countP Event.isUpdateMeasurements = 0 :=
      countP_eq_zero_of_indexed _ _
        (fun e he => by cases e <;> simp_all [Event.isUpdateMeasurements, Event.index]) hidx
    have ho : s.trace.countP Event.isOptimizerStart = 0 :=
      countP_eq_zero_of_indexed _ _
        (fun e he => by cases e <;> simp_all [Event.isOptimizerStart, Event.index]) hidx
    refine ⟨s, hs, hflag, ?_, ?_, ?_, ?_, ?_⟩
    · simp only [htrace, List.countP_append, hu]
      split_ifs <;> simp [List.countP_cons, Event.isUpdateMeasurements]
    · intro hsch
      simp only [htrace, hsch, if_true]
      simp
    · simp only [htrace, List.countP_append, ho]
      split_ifs <;> simp_all [List.countP_cons, Event.isOptimizerStart]
    · simp only [htrace, List.countP_append, ho]
      split_ifs <;> simp [List.countP_cons, Event.isOptimizerStart]
    · intro hsch habs
      simp only [hflag, hsch, habs]
      rfl

/-- C12, at a concrete input: a frame with a primary and a NEW entry in which the map manager
asks for a global adjustment and the optimizer takes the measurements.  `updateMeasurements`
is called once, the optimizer is woken once, and the flag is clear afterwards. -/
theorem C12_global_adjustment_schedule_witness :
    ∃ out, ProcessFrame absorbingCollaborators 10 freshEngine false = some out ∧
      out.engine.mScheduleGlobalAdjustment = false ∧
      out.trace.countP Event.isUpdateMeasurements = 1 ∧
      out.trace.countP Event.isOptimizerStart = 1 ∧
      ∃ s, walk absorbingCollaborators 10 0
          (initialWalkState absorbingCollaborators freshEngine false) = some s ∧
        out.engine.mScheduleGlobalAdjustment =
          (scheduledAfterMaintain absorbingCollaborators freshEngine.mScheduleGlobalAdjustment s &&
            !absorbedAfterMaintain absorbingCollaborators s) ∧
        out.trace.countP Event.isUpdateMeasurements =
          (if scheduledAfterMaintain absorbingCollaborators
            freshEngine.mScheduleGlobalAdjustment s = true then 1 else 0) ∧
        (scheduledAfterMaintain absorbingCollaborators freshEngine.mScheduleGlobalAdjustment s
            = true →
          Event.updateMeasurements (absorbedAfterMaintain absorbingCollaborators s) ∈ out.trace) ∧
        out.trace.countP Event.isOptimizerStart =
          (if scheduledAfterMaintain absorbingCollaborators
              freshEngine.mScheduleGlobalAdjustment s = true ∧
              absorbedAfterMaintain absorbingCollaborators s = true then 1 else 0) ∧
        out.trace.countP Event.isOptimizerStart ≤ 1 ∧
        (scheduledAfterMaintain absorbingCollaborators freshEngine.mScheduleGlobalAdjustment s
            = true →
          absorbedAfterMaintain absorbingCollaborators s = false →
          out.engine.mScheduleGlobalAdjustment = true) := by
  have hn : (ProcessFrame absorbingCollaborators 10 freshEngine false).map
      (fun o => (o.engine.mScheduleGlobalAdjustment,
        o.trace.countP Event.isUpdateMeasurements, o.trace.countP Event.isOptimizerStart)) =
      some (false, 1, 1) := by
    decide!
  match hp : ProcessFrame absorbingCollaborators 10 freshEngine false with
  | none => rw [hp] at hn; cases hn
  | some out =>
    rw [hp] at hn
    simp only [Option.map_some', Option.some.injEq, Prod.mk.injEq] at hn
    exact ⟨out, rfl, hn.1, hn.2.1, hn.2.2,
      C12_global_adjustment_schedule absorbingCollaborators 10 freshEngine false out hp⟩

/-- An index of an existing sub-map is selected as it is. -/
theorem selectFreeviewSceneIdx_of_valid (numScenes : Nat) (k : Int) (h0 : 0 ≤ k)
    (h1 : k < numScenes) (h2 : numScenes ≤ 2 ^ 32) :
    selectFreeviewSceneIdx numScenes k = k := by
  have hk : ¬ k < -1 := by omega
  have hmod : k % 2 ^ 32 = k := Int.emod_eq_of_lt h0 (by omega)
  have hlt : ¬ (k.toNat ≥ numScenes) := by omega
  simp only [selectFreeviewSceneIdx, toUnsigned, hk, if_false, hmod, hlt]

/-- C16: let `k'` be the index that `changeFreeviewSceneIdx(P, k)` selects and
`T = findTransformation(previous free-view index, k')`.  The call sets `P` to
`Coerce(SetM(P, GetM(P) * GetInvM(T)))` and the free-view index to `k'`; for pose operations
in which `SetM` stores the matrix it is given and `Coerce` leaves the matrix of a pose as it is
(exact arithmetic on rigid transformations), the matrix of `P` afterwards is
`GetM(P) * GetInvM(T)`.  With two sub-maps and free-view index `0`, the call with `k = 1`
gives the matrix `GetM(P) * GetInvM(findTransformation(0, 1))` and free-view index `1`. -/
theorem C16_changeFreeviewSceneIdx {M : Type} (c : Collaborators W Pose) (ops : PoseOps Pose M)
    (eng : ITMMultiEngine W Pose) (P : Pose) (k : Int)
    (hSetM : ∀ p m, ops.GetM (ops.SetM p m) = m)
    (hCoerce : ∀ p, ops.GetM (ops.Coerce p) = ops.GetM p) :
    (changeFreeviewSceneIdx c ops eng P k).1 =
      ops.Coerce (ops.SetM P (ops.mul (ops.GetM P) (ops.GetInvM
        (c.findTransformation eng.world eng.freeviewSceneIdx
          (selectFreeviewSceneIdx (c.numScenes eng.world) k))))) ∧
    ops.GetM (changeFreeviewSceneIdx c ops eng P k).1 =
      ops.mul (ops.GetM P) (ops.GetInvM
        (c.findTransformation eng.world eng.freeviewSceneIdx
          (selectFreeviewSceneIdx (c.numScenes eng.world) k))) ∧
    (changeFreeviewSceneIdx c ops eng P k).2.freeviewSceneIdx =
      selectFreeviewSceneIdx (c.numScenes eng.world) k ∧
    (c.numScenes eng.world = 2 → eng.freeviewSceneIdx = 0 → k = 1 →
      ops.GetM (changeFreeviewSceneIdx c ops eng P k).1 =
        ops.mul (ops.GetM P) (ops.GetInvM (c.findTransformation eng.world 0 1)) ∧
      (changeFreeviewSceneIdx c ops eng P k).2.freeviewSceneIdx = 1) := by
  have hsel : selectFreeviewSceneIdx 2 1 = 1 := by decide
  refine ⟨rfl, ?_, rfl, ?_⟩
  · simp only [changeFreeviewSceneIdx, hCoerce, hSetM]
  · intro hn hf hk
    subst hk
    simp only [changeFreeviewSceneIdx, hCoerce, hSetM, hn, hf, hsel]
    simp

/-- C16, at a concrete input: two sub-maps, sub-map 1 lying 5 units from sub-map 0, poses of
a one-dimensional world.  From free-view index `0`, the call with `k = 1` turns the pose `7`
into `7 - 5 = 2` and sets the free-view index to `1`. -/
theorem C16_changeFreeviewSceneIdx_witness :
    (changeFreeviewSceneIdx twoSubmapCollaborators translationOps freshEngine 7 1).1 = 2 ∧
    twoSubmapCollaborators.findTransformation freshEngine.world 0 1 = 5 ∧
    ((changeFreeviewSceneIdx twoSubmapCollaborators translationOps freshEngine 7 1).1 =
      translationOps.Coerce (translationOps.SetM 7 (translationOps.mul (translationOps.GetM 7)
        (translationOps.GetInvM
          (twoSubmapCollaborators.findTransformation freshEngine.world
            freshEngine.freeviewSceneIdx
            (selectFreeviewSceneIdx (twoSubmapCollaborators.numScenes freshEngine.world) 1))))) ∧
    translationOps.GetM
        (changeFreeviewSceneIdx twoSubmapCollaborators translationOps freshEngine 7 1).1 =
      translationOps.mul (translationOps.GetM 7) (translationOps.GetInvM
        (twoSubmapCollaborators.findTransformation freshEngine.world
          freshEngine.freeviewSceneIdx
          (selectFreeviewSceneIdx (twoSubmapCollaborators.numScenes freshEngine.world) 1))) ∧
    (changeFreeviewSceneIdx twoSubmapCollaborators translationOps freshEngine 7 1).2.freeviewSceneIdx
      = selectFreeviewSceneIdx (twoSubmapCollaborators.numScenes freshEngine.world) 1 ∧
    (twoSubmapCollaborators.numScenes freshEngine.world = 2 →
      freshEngine.freeviewSceneIdx = 0 → (1 : Int) = 1 →
      translationOps.GetM
          (changeFreeviewSceneIdx twoSubmapCollaborators translationOps freshEngine 7 1).1 =
        translationOps.mul (translationOps.GetM 7) (translationOps.GetInvM
          (twoSubmapCollaborators.findTransformation freshEngine.world 0 1)) ∧
      (changeFreeviewSceneIdx twoSubmapCollaborators translationOps freshEngine 7 1).2.freeviewSceneIdx
        = 1)) :=
  ⟨by decide, by decide,
    C16_changeFreeviewSceneIdx twoSubmapCollaborators translationOps freshEngine 7 1
      (fun _ _ => rfl) (fun _ => rfl)⟩

theorem foldl_invariant {α β : Type} (P : β → Prop) (f : β → α → β)
    (hf : ∀ b a, P b → P (f b a)) (l : List α) (b : β) (hb : P b) : P (l.foldl f b) := by
  induction l generalizing b with
  | nil => exact hb
  | cons a l ih => exact ih (f b a) (hf b a hb)

/-- A corner whose depth is below `1e-6` leaves the bounds as they are. -/
theorem projectCorner_skip (SDF_BLOCK_SIZE : Int) (blockPos : Vector3s) (pose : Matrix4f)
    (intrinsics : Vector4f) (voxelSize : ℚ) (corner : Nat) (b : BlockBounds)
    (h : (cornerPoint SDF_BLOCK_SIZE blockPos pose voxelSize corner).z < 1 / 1000000) :
    projectCorner SDF_BLOCK_SIZE blockPos pose intrinsics voxelSize corner b = b := by
  unfold cornerPoint at h
  simp only [projectCorner]
  rw [if_pos h]

/-- The depth range after one corner, in terms of the corner's depth. -/
theorem projectCorner_zRange (SDF_BLOCK_SIZE : Int) (blockPos : Vector3s) (pose : Matrix4f)
    (intrinsics : Vector4f) (voxelSize : ℚ) (corner : Nat) (b : BlockBounds) :
    (projectCorner SDF_BLOCK_SIZE blockPos pose intrinsics voxelSize corner b).zRange =
      if (cornerPoint SDF_BLOCK_SIZE blockPos pose voxelSize corner).z < 1 / 1000000
      then b.zRange
      else
        if (if b.zRange.x > (cornerPoint SDF_BLOCK_SIZE blockPos pose voxelSize corner).z
            then { b.zRange with
              x := (cornerPoint SDF_BLOCK_SIZE blockPos pose voxelSize corner).z }
            else b.zRange).y < (cornerPoint SDF_BLOCK_SIZE blockPos pose voxelSize corner).z
        then { (if b.zRange.x > (cornerPoint SDF_BLOCK_SIZE blockPos pose voxelSize corner).z
            then { b.zRange with
              x := (cornerPoint SDF_BLOCK_SIZE blockPos pose voxelSize corner).z }
            else b.zRange) with
          y := (cornerPoint SDF_BLOCK_SIZE blockPos pose voxelSize corner).z }
        else (if b.zRange.x > (cornerPoint SDF_BLOCK_SIZE blockPos pose voxelSize corner).z
            then { b.zRange with
              x := (cornerPoint SDF_BLOCK_SIZE blockPos pose voxelSize corner).z }
            else b.zRange) := by
  by_cases hz : (cornerPoint SDF_BLOCK_SIZE blockPos pose voxelSize corner).z < 1 / 1000000
  · rw [projectCorner_skip _ _ _ _ _ _ _ hz, if_pos hz]
  · rw [if_neg hz]
    unfold cornerPoint at hz ⊢
    simp only [projectCorner]
    rw [if_neg hz]

/-- No corner lowers `zRange.y`. -/
theorem projectCorner_zRange_y (SDF_BLOCK_SIZE : Int) (blockPos : Vector3s) (pose : Matrix4f)
    (intrinsics : Vector4f) (voxelSize : ℚ) (corner : Nat) (b : BlockBounds)
    (h : VERY_CLOSE ≤ b.zRange.y) :
    VERY_CLOSE ≤
      (projectCorner SDF_BLOCK_SIZE blockPos pose intrinsics voxelSize corner b).zRange.y := by
  rw [projectCorner_zRange]
  generalize (cornerPoint SDF_BLOCK_SIZE blockPos pose voxelSize corner).z = z
  split_ifs <;> simp_all <;> linarith

/-- The corner loop leaves `zRange.y` at or above its initial value `VERY_CLOSE`, whatever the
corner depths are: the test `zRange.y < VERY_CLOSE` of line 68 never holds. -/
theorem projectCorners_zRange_y (SDF_BLOCK_SIZE : Int) (blockPos : Vector3s) (pose : Matrix4f)
    (intrinsics : Vector4f) (imgSize : Vector2i) (voxelSize : ℚ) :
    VERY_CLOSE ≤
      (projectCorners SDF_BLOCK_SIZE blockPos pose intrinsics imgSize voxelSize).zRange.y := by
  unfold projectCorners
  apply foldl_invariant (fun b : BlockBounds => VERY_CLOSE ≤ b.zRange.y)
    (fun b corner => projectCorner SDF_BLOCK_SIZE blockPos pose intrinsics voxelSize corner b)
    (fun b corner hb =>
      projectCorner_zRange_y SDF_BLOCK_SIZE blockPos pose intrinsics voxelSize corner b hb)
  exact le_refl VERY_CLOSE

/-- `ProjectSingleBlock` returns `false` exactly when the clamped 2D box is empty. -/
theorem ProjectSingleBlock_false_iff (SDF_BLOCK_SIZE : Int) (blockPos : Vector3s)
    (pose : Matrix4f) (intrinsics : Vector4f) (imgSize : Vector2i) (voxelSize : ℚ) :
    (ProjectSingleBlock SDF_BLOCK_SIZE blockPos pose intrinsics imgSize voxelSize).1 = false ↔
      ((clampUpperLeft
          (projectCorners SDF_BLOCK_SIZE blockPos pose intrinsics imgSize voxelSize).upperLeft).x >
        (clampLowerRight imgSize
          (projectCorners SDF_BLOCK_SIZE blockPos pose intrinsics imgSize voxelSize).lowerRight).x ∨
       (clampUpperLeft
          (projectCorners SDF_BLOCK_SIZE blockPos pose intrinsics imgSize voxelSize).upperLeft).y >
        (clampLowerRight imgSize
          (projectCorners SDF_BLOCK_SIZE blockPos pose intrinsics imgSize voxelSize).lowerRight).y) := by
  have hz := projectCorners_zRange_y SDF_BLOCK_SIZE blockPos pose intrinsics imgSize voxelSize
  unfold ProjectSingleBlock clampBounds
  generalize projectCorners SDF_BLOCK_SIZE blockPos pose intrinsics imgSize voxelSize = b at hz ⊢
  simp only []
  split_ifs with h1 h2 h3 h4 h5 <;> simp_all
  all_goals linarith

/-- When all eight corners have a depth below `1e-6`, `ProjectSingleBlock` returns `false`. -/
theorem ProjectSingleBlock_all_corners_skipped (SDF_BLOCK_SIZE : Int) (blockPos : Vector3s)
    (pose : Matrix4f) (intrinsics : Vector4f) (imgSize : Vector2i) (voxelSize : ℚ)
    (h : ∀ corner, corner < 8 →
      (cornerPoint SDF_BLOCK_SIZE blockPos pose voxelSize corner).z < 1 / 1000000) :
    (ProjectSingleBlock SDF_BLOCK_SIZE blockPos pose intrinsics imgSize voxelSize).1 = false := by
  have hr : List.range 8 = [0, 1, 2, 3, 4, 5, 6, 7] := by decide
  have hb : projectCorners SDF_BLOCK_SIZE blockPos pose intrinsics imgSize voxelSize =
      { upperLeft := { x := Int.tdiv imgSize.x minmaximg_subsample,
                       y := Int.tdiv imgSize.y minmaximg_subsample },
        lowerRight := { x := -1, y := -1 },
        zRange := { x := FAR_AWAY, y := VERY_CLOSE } } := by
    unfold projectCorners
    rw [hr]
    simp only [List.foldl]
    rw [projectCorner_skip _ _ _ _ _ 0 _ (h 0 (by omega)),
      projectCorner_skip _ _ _ _ _ 1 _ (h 1 (by omega)),
      projectCorner_skip _ _ _ _ _ 2 _ (h 2 (by omega)),
      projectCorner_skip _ _ _ _ _ 3 _ (h 3 (by omega)),
      projectCorner_skip _ _ _ _ _ 4 _ (h 4 (by omega)),
      projectCorner_skip _ _ _ _ _ 5 _ (h 5 (by omega)),
      projectCorner_skip _ _ _ _ _ 6 _ (h 6 (by omega)),
      projectCorner_skip _ _ _ _ _ 7 _ (h 7 (by omega))]
  rw [ProjectSingleBlock_false_iff, hb]
  left
  have h1 := (clampUpperLeft_nonneg
    { x := Int.tdiv imgSize.x minmaximg_subsample,
      y := Int.tdiv imgSize.y minmaximg_subsample }).1
  have h2 : (clampLowerRight imgSize { x := -1, y := -1 }).x ≤ -1 := by
    unfold clampLowerRight
    simp only []
    split_ifs <;> simp_all <;> omega
  simp only [gt_iff_lt]
  omega

/-- C17, evaluated where the code departs from it: the block at the grid origin seen by a
camera one millimetre in front of it (voxel size 5 mm) has its eight corners at depths 1 mm and
41 mm, all at least `1e-6`, so `zMax = 0.041 < 0.05`; yet `ProjectSingleBlock` returns `true`
for it, with `zRange = (0.05, 0.05)`. -/
theorem C17_near_block_accepted :
    (∀ corner ∈ List.range 8,
      1 / 1000000 ≤ (cornerPoint 8 { x := 0, y := 0, z := 0 } nearPose (1 / 200) corner).z ∧
      (cornerPoint 8 { x := 0, y := 0, z := 0 } nearPose (1 / 200) corner).z ≤ 41 / 1000) ∧
    (41 / 1000 : ℚ) < VERY_CLOSE ∧
    ProjectSingleBlock 8 { x := 0, y := 0, z := 0 } nearPose
        { x := 500, y := 500, z := 320, w := 240 } { x := 160, y := 120 } (1 / 200) =
      (true, { upperLeft := { x := 40, y := 30 }, lowerRight := { x := 159, y := 119 },
               zRange := { x := 1 / 20, y := 1 / 20 } }) := by
  decide!

/-- C18 as the code has it: an iteration that starts in WRONG_SIDE with a hash hit steps by
`min(sdf * stepScale, -1)` (backwards, by at least one voxel) and makes its read in
WRONG_SIDE; a value read `> 0` takes the march to SEARCH_SURFACE and a value read `<= 0` takes
it to BEHIND_SURFACE, so the march is never in WRONG_SIDE after that read. -/
theorem C18_wrong_side_step (env : RayEnv) (stepScale : ℚ) (dir : Vector3f) (m : March)
    (hs : m.state = RayState.WRONG_SIDE) (hh : m.hash_found = true) :
    (advance env stepScale dir m).state = RayState.WRONG_SIDE ∧
    (advance env stepScale dir m).totalLength =
      m.totalLength + min (m.sdfValue * stepScale) (-1) ∧
    (advance env stepScale dir m).pt_result =
      m.pt_result.add (Vector3f.smul (min (m.sdfValue * stepScale) (-1)) dir) ∧
    min (m.sdfValue * stepScale) (-1) ≤ -1 ∧
    (0 < (marchIter env stepScale dir m).sdfValue →
      (marchIter env stepScale dir m).state = RayState.SEARCH_SURFACE) ∧
    ((marchIter env stepScale dir m).sdfValue ≤ 0 →
      (marchIter env stepScale dir m).state = RayState.BEHIND_SURFACE) ∧
    (marchIter env stepScale dir m).state ≠ RayState.WRONG_SIDE := by
  have hsel : selectStep env stepScale m.state m.hash_found m.sdfValue =
      (RayState.WRONG_SIDE, min (m.sdfValue * stepScale) (-1)) := by
    rw [hs, hh]
    rfl
  have ha : (advance env stepScale dir m).state = RayState.WRONG_SIDE := by
    simp [advance, hsel]
  refine ⟨ha, by simp [advance, hsel], by simp [advance, hsel], min_le_right _ _, ?_, ?_, ?_⟩
  · intro hpos
    simp only [marchIter, readAndTest] at hpos ⊢
    simp only [ha, signTest, if_neg (not_le.2 hpos), if_true]
  · intro hneg
    simp only [marchIter, readAndTest] at hneg ⊢
    simp only [ha, signTest, if_pos hneg]
    simp
  · simp only [marchIter, readAndTest, ha, signTest]
    split_ifs <;> simp_all

/-- C18, at a concrete input: the ray of `axisRay` starts inside the solid block of `solidEnv`,
in WRONG_SIDE with a hash hit. -/
theorem C18_wrong_side_step_witness :
    (advance solidEnv 4 (axisRay.rayDirection solidEnv) (initialMarch solidEnv axisRay)).state =
      RayState.WRONG_SIDE ∧
    (advance solidEnv 4 (axisRay.rayDirection solidEnv)
        (initialMarch solidEnv axisRay)).totalLength =
      (initialMarch solidEnv axisRay).totalLength +
        min ((initialMarch solidEnv axisRay).sdfValue * 4) (-1) ∧
    (advance solidEnv 4 (axisRay.rayDirection solidEnv)
        (initialMarch solidEnv axisRay)).pt_result =
      (initialMarch solidEnv axisRay).pt_result.add
        (Vector3f.smul (min ((initialMarch solidEnv axisRay).sdfValue * 4) (-1))
          (axisRay.rayDirection solidEnv)) ∧
    min ((initialMarch solidEnv axisRay).sdfValue * 4) (-1) ≤ -1 ∧
    (0 < (marchIter solidEnv 4 (axisRay.rayDirection solidEnv)
        (initialMarch solidEnv axisRay)).sdfValue →
      (marchIter solidEnv 4 (axisRay.rayDirection solidEnv)
        (initialMarch solidEnv axisRay)).state = RayState.SEARCH_SURFACE) ∧
    ((marchIter solidEnv 4 (axisRay.rayDirection solidEnv)
        (initialMarch solidEnv axisRay)).sdfValue ≤ 0 →
      (marchIter solidEnv 4 (axisRay.rayDirection solidEnv)
        (initialMarch solidEnv axisRay)).state = RayState.BEHIND_SURFACE) ∧
    (marchIter solidEnv 4 (axisRay.rayDirection solidEnv)
        (initialMarch solidEnv axisRay)).state ≠ RayState.WRONG_SIDE :=
  C18_wrong_side_step solidEnv 4 (axisRay.rayDirection solidEnv) (initialMarch solidEnv axisRay)
    (by decide!) (by decide!)

/-- C18 fails on the code: the ray of `axisRay` starts inside the solid block of `solidEnv`
(SDF `-1/2` throughout), in WRONG_SIDE with a hash hit.  Its first iteration steps back by
`min(-1/2 * 4, -1) = -2` to path length `8` and reads `-1/2 <= 0` there, in WRONG_SIDE; the
march does not remain in WRONG_SIDE: it is in BEHIND_SURFACE, and the ray ends there with
`found = true`. -/
theorem C18_wrong_side_left_on_negative_read :
    (initialMarch solidEnv axisRay).state = RayState.WRONG_SIDE ∧
    (initialMarch solidEnv axisRay).hash_found = true ∧
    axisRay.stepScale = 4 ∧
    (marchIter solidEnv axisRay.stepScale (axisRay.rayDirection solidEnv)
      (initialMarch solidEnv axisRay)).reads =
        [{ totalLength := 8, state := RayState.WRONG_SIDE, uninterpolated := -(1 / 2),
           interpolated := none, sdfValue := -(1 / 2) }] ∧
    (marchIter solidEnv axisRay.stepScale (axisRay.rayDirection solidEnv)
      (initialMarch solidEnv axisRay)).state = RayState.BEHIND_SURFACE ∧
    (castRayRun solidEnv 10 axisRay).map
        (fun o => (o.pt_found, o.leftByBreak, o.last.state, o.last.reads.length)) =
      some (true, false, RayState.BEHIND_SURFACE, 1) := by
  decide!

/-- Out of fuel in a state other than BEHIND_SURFACE. -/
theorem marchLoop_zero (env : RayEnv) (stepScale : ℚ) (dir : Vector3f) (maxLen : ℚ) (m : March)
    (h : m.state ≠ RayState.BEHIND_SURFACE) :
    marchLoop env stepScale dir maxLen 0 m = none := by
  rw [marchLoop]
  simp [h]

/-- An iteration that does not leave the loop. -/
theorem marchLoop_succ (env : RayEnv) (stepScale : ℚ) (dir : Vector3f) (maxLen : ℚ) (fuel : Nat)
    (m : March) (h : m.state ≠ RayState.BEHIND_SURFACE)
    (hlen : ¬ (advance env stepScale dir m).totalLength > maxLen) :
    marchLoop env stepScale dir maxLen (fuel + 1) m =
      marchLoop env stepScale dir maxLen fuel (marchIter env stepScale dir m) := by
  rw [marchLoop]
  simp only [h, if_false, hlen, marchIter]

theorem advance_core (env : RayEnv) (stepScale : ℚ) (dir : Vector3f) (m m' : March)
    (h : m.core = m'.core) :
    (advance env stepScale dir m).core = (advance env stepScale dir m').core := by
  simp only [March.core, Prod.mk.injEq] at h
  obtain ⟨h1, h2, h3, h4, h5⟩ := h
  simp only [March.core, advance, h1, h2, h3, h4, h5]

theorem readAndTest_core (env : RayEnv) (m m' : March) (h : m.core = m'.core) :
    (readAndTest env m).core = (readAndTest env m').core := by
  simp only [March.core, Prod.mk.injEq] at h
  obtain ⟨h1, h2, h3, h4, h5⟩ := h
  simp only [March.core, readAndTest, h1, h4, h5]

/-- Whether the march runs out of fuel does not depend on the record of the reads. -/
theorem marchLoop_none_congr (env : RayEnv) (stepScale : ℚ) (dir : Vector3f) (maxLen : ℚ) :
    ∀ (fuel : Nat) (m m' : March), m.core = m'.core →
      (marchLoop env stepScale dir maxLen fuel m = none ↔
        marchLoop env stepScale dir maxLen fuel m' = none) := by
  intro fuel
  induction fuel with
  | zero =>
    intro m m' h
    have hs : m.state = m'.state := by
      simp only [March.core, Prod.mk.injEq] at h
      exact h.1
    rw [marchLoop, marchLoop]
    by_cases hb : m'.state = RayState.BEHIND_SURFACE
    · simp [hs, hb]
    · simp [hs, hb]
  | succ n ih =>
    intro m m' h
    have hs : m.state = m'.state := by
      simp only [March.core, Prod.mk.injEq] at h
      exact h.1
    have ha := advance_core env stepScale dir m m' h
    have hl : (advance env stepScale dir m).totalLength =
        (advance env stepScale dir m').totalLength := by
      simp only [March.core, Prod.mk.injEq] at ha
      exact ha.2.2.2.2
    have hr := readAndTest_core env _ _ ha
    rw [marchLoop, marchLoop]
    by_cases hb : m'.state = RayState.BEHIND_SURFACE
    · simp [hs, hb]
    · by_cases hlen : (advance env stepScale dir m').totalLength > maxLen
      · simp [hs, hb, hl, hlen]
      · simp only [hs, hb, if_false, hl, hlen]
        exact ih _ _ hr

/-- The march of `axisRay` through `cycleEnv` never leaves its loop: after the first
iteration the loop variables repeat with period three. -/
theorem cycleMarch_none (n : Nat) :
    marchLoop cycleEnv axisRay.stepScale (axisRay.rayDirection cycleEnv)
        (axisRay.totalLengthMax cycleEnv) n (cycleMarch 1) = none ∧
    marchLoop cycleEnv axisRay.stepScale (axisRay.rayDirection cycleEnv)
        (axisRay.totalLengthMax cycleEnv) n (cycleMarch 2) = none ∧
    marchLoop cycleEnv axisRay.stepScale (axisRay.rayDirection cycleEnv)
        (axisRay.totalLengthMax cycleEnv) n (cycleMarch 3) = none := by
  have s1 : (cycleMarch 1).state ≠ RayState.BEHIND_SURFACE := by decide!
  have s2 : (cycleMarch 2).state ≠ RayState.BEHIND_SURFACE := by decide!
  have s3 : (cycleMarch 3).state ≠ RayState.BEHIND_SURFACE := by decide!
  have l1 : ¬ (advance cycleEnv axisRay.stepScale (axisRay.rayDirection cycleEnv)
      (cycleMarch 1)).totalLength > axisRay.totalLengthMax cycleEnv := by decide!
  have l2 : ¬ (advance cycleEnv axisRay.stepScale (axisRay.rayDirection cycleEnv)
      (cycleMarch 2)).totalLength > axisRay.totalLengthMax cycleEnv := by decide!
  have l3 : ¬ (advance cycleEnv axisRay.stepScale (axisRay.rayDirection cycleEnv)
      (cycleMarch 3)).totalLength > axisRay.totalLengthMax cycleEnv := by decide!
  have e2 : marchIter cycleEnv axisRay.stepScale (axisRay.rayDirection cycleEnv)
      (cycleMarch 1) = cycleMarch 2 := rfl
  have e3 : marchIter cycleEnv axisRay.stepScale (axisRay.rayDirection cycleEnv)
      (cycleMarch 2) = cycleMarch 3 := rfl
  have e4 : marchIter cycleEnv axisRay.stepScale (axisRay.rayDirection cycleEnv)
      (cycleMarch 3) = cycleMarch 4 := rfl
  have hc : (cycleMarch 4).core = (cycleMarch 1).core := by decide!
  induction n with
  | zero => exact ⟨marchLoop_zero _ _ _ _ _ s1, marchLoop_zero _ _ _ _ _ s2,
      marchLoop_zero _ _ _ _ _ s3⟩
  | succ n ih =>
    refine ⟨?_, ?_, ?_⟩
    · rw [marchLoop_succ _ _ _ _ _ _ s1 l1, e2]
      exact ih.2.1
    · rw [marchLoop_succ _ _ _ _ _ _ s2 l2, e3]
      exact ih.2.2
    · rw [marchLoop_succ _ _ _ _ _ _ s3 l3, e4]
      exact (marchLoop_none_congr _ _ _ _ n _ _ hc).2 ih.1

/-- The ray `axisRay` through the volume of `cycleEnv` is not finished by any number of loop
iterations. -/
theorem castRayRun_cycle (fuel : Nat) : castRayRun cycleEnv fuel axisRay = none := by
  have s0 : (cycleMarch 0).state ≠ RayState.BEHIND_SURFACE := by decide!
  have l0 : ¬ (advance cycleEnv axisRay.stepScale (axisRay.rayDirection cycleEnv)
      (cycleMarch 0)).totalLength > axisRay.totalLengthMax cycleEnv := by decide!
  have e0 : initialMarch cycleEnv axisRay = cycleMarch 0 := rfl
  have e1 : marchIter cycleEnv axisRay.stepScale (axisRay.rayDirection cycleEnv)
      (cycleMarch 0) = cycleMarch 1 := rfl
  have hm : marchLoop cycleEnv axisRay.stepScale (axisRay.rayDirection cycleEnv)
      (axisRay.totalLengthMax cycleEnv) fuel (initialMarch cycleEnv axisRay) = none := by
    rw [e0]
    cases fuel with
    | zero => exact marchLoop_zero _ _ _ _ _ s0
    | succ n =>
      rw [marchLoop_succ _ _ _ _ _ _ s0 l0, e1]
      exact (cycleMarch_none n).1
  unfold castRayRun
  rw [hm]

/-- C20, evaluated where the code departs from it: the volume of `cycleEnv` has SDF values in
`[-1, 1]`, and the ray of `axisRay` has `mu = 0.02 > 0`, voxel size `0.005 > 0` and depth range
`0 < 0.05 <= 0.15`.  The march reaches path length 18 in SEARCH_BLOCK_COARSE with a hash hit,
steps back to 14 (SEARCH_BLOCK_FINE, reads `-1`, WRONG_SIDE), back to 10 (unallocated,
SEARCH_SURFACE), forward to 18 again (SEARCH_BLOCK_COARSE), and so on: the loop variables after
four iterations are those after one, the path length never exceeds the maximum 30, and no number
of iterations ends the loop. -/
theorem C20_march_never_ends :
    (∀ pt, -1 ≤ (cycleEnv.readFromSDF_float_uninterpolated pt).1 ∧
      (cycleEnv.readFromSDF_float_uninterpolated pt).1 ≤ 1 ∧
      -1 ≤ (cycleEnv.readFromSDF_float_interpolated pt).1 ∧
      (cycleEnv.readFromSDF_float_interpolated pt).1 ≤ 1) ∧
    0 < axisRay.mu ∧ 0 < 1 / axisRay.oneOverVoxelSize ∧
    0 < axisRay.viewFrustum_minmax.x ∧
    axisRay.viewFrustum_minmax.x ≤ axisRay.viewFrustum_minmax.y ∧
    axisRay.totalLengthMax cycleEnv = 30 ∧
    (cycleMarch 1).core =
      (RayState.SEARCH_BLOCK_COARSE, true, 1 / 2, { x := 0, y := 0, z := 18 }, 18) ∧
    (cycleMarch 2).core =
      (RayState.WRONG_SIDE, true, -1, { x := 0, y := 0, z := 14 }, 14) ∧
    (cycleMarch 3).core =
      (RayState.SEARCH_SURFACE, false, 1, { x := 0, y := 0, z := 10 }, 10) ∧
    (cycleMarch 4).core = (cycleMarch 1).core ∧
    ¬ ∃ fuel, (castRayRun cycleEnv fuel axisRay).isSome = true := by
  refine ⟨?_, by decide!, by decide!, by decide!, by decide!, by decide!, by decide!,
    by decide!, by decide!, by decide!, ?_⟩
  · intro pt
    have h : -1 ≤ (cycleSdf pt).1 ∧ (cycleSdf pt).1 ≤ 1 := by
      unfold cycleSdf
      simp only []
      split_ifs <;> norm_num
    exact ⟨h.1, h.2, h.1, h.2⟩
  · rintro ⟨fuel, h⟩
    rw [castRayRun_cycle fuel] at h
    simp at h

/-- A successful `AllocateSurfels` returns the buffer base offset by the count before it. -/
theorem AllocateSurfels_pointer (s : ITMSurfelScene) (n p : Nat)
    (h : (s.AllocateSurfels n).1 = some p) : p = s.m_surfelCount := by
  unfold ITMSurfelScene.AllocateSurfels at h
  split at h
  · simp at h
  · simp only [Option.some.injEq] at h
    exact h.symm

/-- Requests that cannot wrap the `size_t` sum: the ranges handed out between two resets
start at or after the count, end within the first `MAX_SURFEL_COUNT` slots, each starts where
the one before it ends, and they lie one after the other (so they are pairwise disjoint). -/
theorem allocations_of_no_wrap (ns : List Nat) :
    ∀ (s : ITMSurfelScene), s.dataSize = MAX_SURFEL_COUNT → s.m_surfelCount ≤ MAX_SURFEL_COUNT →
      (∀ n ∈ ns, n + MAX_SURFEL_COUNT < SIZE_T_RANGE) →
      (∀ a ∈ s.allocations ns, s.m_surfelCount ≤ a.1 ∧ a.1 + a.2 ≤ MAX_SURFEL_COUNT) ∧
      List.Chain' (fun a b => b.1 = a.1 + a.2) (s.allocations ns) ∧
      List.Pairwise (fun a b => a.1 + a.2 ≤ b.1) (s.allocations ns) ∧
      (∀ a, (s.allocations ns).head? = some a → a.1 = s.m_surfelCount) := by
  induction ns with
  | nil =>
    intro s _ _ _
    simp [ITMSurfelScene.allocations]
  | cons n ns ih =>
    intro s hd hc hn
    have hn0 : n + MAX_SURFEL_COUNT < SIZE_T_RANGE := hn n (List.mem_cons_self _ _)
    have hns : ∀ m ∈ ns, m + MAX_SURFEL_COUNT < SIZE_T_RANGE :=
      fun m hm => hn m (List.mem_cons_of_mem _ hm)
    have hmod : (s.m_surfelCount + n) % SIZE_T_RANGE = s.m_surfelCount + n :=
      Nat.mod_eq_of_lt (by omega)
    by_cases hfull : s.m_surfelCount + n > s.dataSize
    · have hA : s.AllocateSurfels n = (none, s) := by
        simp [ITMSurfelScene.AllocateSurfels, hmod, hfull]
      have hal : s.allocations (n :: ns) = s.allocations ns := by
        simp [ITMSurfelScene.allocations, hA]
      rw [hal]
      exact ih s hd hc hns
    · have hA : s.AllocateSurfels n =
          (some s.m_surfelCount, { s with m_surfelCount := s.m_surfelCount + n }) := by
        simp [ITMSurfelScene.AllocateSurfels, hmod, hfull]
      have hal : s.allocations (n :: ns) = (s.m_surfelCount, n) ::
          ({ s with m_surfelCount := s.m_surfelCount + n } : ITMSurfelScene).allocations ns := by
        simp [ITMSurfelScene.allocations, hA]
      obtain ⟨i1, i2, i3, i4⟩ := ih { s with m_surfelCount := s.m_surfelCount + n } hd
        (by dsimp only; omega) hns
      dsimp only at i1 i4
      rw [hal]
      refine ⟨?_, ?_, ?_, ?_⟩
      · intro a ha
        rcases List.mem_cons.1 ha with rfl | ha
        · dsimp only
          omega
        · have := i1 a ha
          omega
      · rw [List.chain'_cons']
        refine ⟨?_, i2⟩
        intro b hb
        exact i4 b (by simpa using hb)
      · rw [List.pairwise_cons]
        refine ⟨?_, i3⟩
        intro b hb
        have := i1 b hb
        dsimp only
        omega
      · intro a ha
        simp only [List.head?_cons, Option.some.injEq] at ha
        subst ha
        rfl

/-- C27, evaluated where the code departs from it: from a fresh scene, with no `Reset` in
between, the calls `AllocateSurfels(1)`, `AllocateSurfels(2^64 - 1)` and `AllocateSurfels(5)`
all succeed and return the ranges `[0, 1)`, `[1, 1 + (2^64 - 1))` and `[0, 5)`.  The second
call takes the count from `1` to `0`, not up by `2^64 - 1`; its range runs past the first
`MAX_SURFEL_COUNT` slots; and the third range starts at `0` again and overlaps the first. -/
theorem C27_allocations_overlap :
    ITMSurfelScene.construct.allocations [1, 2 ^ 64 - 1, 5] =
      [(0, 1), (1, 2 ^ 64 - 1), (0, 5)] ∧
    (ITMSurfelScene.construct.AllocateSurfels 1).2.GetSurfelCount = 1 ∧
    ((ITMSurfelScene.construct.AllocateSurfels 1).2.AllocateSurfels (2 ^ 64 - 1)).2.GetSurfelCount
      = 0 ∧
    MAX_SURFEL_COUNT < 1 + (2 ^ 64 - 1) := by
  decide

theorem switchSceneType_eq (t : SceneType) (i : Int) (l : List TodoListEntry) :
    switchSceneType t i l = l ++ roleEntries t i := by
  cases t <;>
    simp [switchSceneType, roleEntries, caseNEW_SCENE, caseLOOP_CLOSURE, caseRELOCALISATION]

theorem activeScenesLoop_eq (c : Collaborators W Pose) (w : W) :
    ∀ (n : Nat) (l : List TodoListEntry),
      activeScenesLoop c w n 0 l =
        l ++ (List.range n).flatMap (fun (j : Nat) => roleEntries (c.getSceneType w (j : Int)) j) := by
  have gen : ∀ (n k : Nat) (l : List TodoListEntry),
      activeScenesLoop c w n (k : Int) l =
        l ++ (List.range n).flatMap
          (fun (j : Nat) => roleEntries (c.getSceneType w ((k + j : Nat) : Int)) ((k + j : Nat) : Int)) := by
    intro n
    induction n with
    | zero => intro k l; simp [activeScenesLoop]
    | succ n ih =>
      intro k l
      have hk : ((k : Int) + 1) = ((k + 1 : Nat) : Int) := by push_cast; rfl
      simp only [activeScenesLoop]
      rw [hk, ih (k + 1), switchSceneType_eq, List.range_succ_eq_map, List.flatMap_cons,
        List.flatMap_map, List.append_assoc]
      have e0 : k + 0 = k := rfl
      have e1 : ∀ a : Nat, k + 1 + a = k + (a + 1) := fun a => by omega
      simp only [Function.comp, Nat.succ_eq_add_one, e0, e1]
  intro n l
  have := gen n 0 l
  simpa using this

theorem length_flatMap_roleEntries (f : Nat → SceneType) (n : Nat) :
    ((List.range n).flatMap (fun (j : Nat) => roleEntries (f j) (j : Int))).length =
      3 * (List.range n).countP (fun j => decide (f j = SceneType.NEW_SCENE)) +
      2 * (List.range n).countP (fun j => decide (f j = SceneType.LOOP_CLOSURE)) +
      (List.range n).countP (fun j => decide (f j = SceneType.RELOCALISATION)) := by
  induction n with
  | zero => simp
  | succ n ih =>
    rw [List.range_succ, List.flatMap_append, List.length_append, ih]
    simp only [List.countP_append, List.flatMap_cons, List.flatMap_nil, List.append_nil,
      List.countP_cons, List.countP_nil]
    cases f n <;> simp [roleEntries]
    all_goals omega

/-- C24: the todo list at the start of the walk is: the primary's entry if a primary exists;
then, for each active entry `i` in increasing order, the entries `(i, track, fusion = true,
prepare)`, `(i, track, fusion = false, prepare)`, `(i, track, fusion = false, prepare)` if its
role is NEW, the last two of these if its role is LOOP_CLOSURE, the last one if its role is
RELOCALISATION, and nothing for any other role; then the terminator.  Its length is
`[primary exists] + 3 * #NEW + 2 * #LOOP_CLOSURE + #RELOCALISATION + 1`. -/
theorem C24_first_pass_list (c : Collaborators W Pose) (w : W) :
    buildTodoList c w =
      (if c.findPrimaryDataIdx w ≥ 0
        then [TodoListEntry.make (c.findPrimaryDataIdx w) true true true] else []) ++
      (List.range (c.numActiveScenes w).toNat).flatMap
        (fun (j : Nat) => roleEntries (c.getSceneType w (j : Int)) (j : Int)) ++
      [terminator] ∧
    (buildTodoList c w).length =
      (if c.findPrimaryDataIdx w ≥ 0 then 1 else 0) +
      3 * roleCount c w SceneType.NEW_SCENE + 2 * roleCount c w SceneType.LOOP_CLOSURE +
      roleCount c w SceneType.RELOCALISATION + 1 ∧
    (∀ i : Int, roleEntries SceneType.NEW_SCENE i =
      [{ dataID := i, track := true, fusion := true, prepare := true, preprepare := false },
       { dataID := i, track := true, fusion := false, prepare := true, preprepare := false },
       { dataID := i, track := true, fusion := false, prepare := true, preprepare := false }]) ∧
    (∀ i : Int, roleEntries SceneType.LOOP_CLOSURE i =
      [{ dataID := i, track := true, fusion := false, prepare := true, preprepare := false },
       { dataID := i, track := true, fusion := false, prepare := true, preprepare := false }]) ∧
    (∀ i : Int, roleEntries SceneType.RELOCALISATION i =
      [{ dataID := i, track := true, fusion := false, prepare := true, preprepare := false }]) ∧
    (∀ (t : SceneType) (i : Int), t ≠ SceneType.NEW_SCENE → t ≠ SceneType.LOOP_CLOSURE →
      t ≠ SceneType.RELOCALISATION → roleEntries t i = []) := by
  have hlist : buildTodoList c w =
      (if c.findPrimaryDataIdx w ≥ 0
        then [TodoListEntry.make (c.findPrimaryDataIdx w) true true true] else []) ++
      (List.range (c.numActiveScenes w).toNat).flatMap
        (fun (j : Nat) => roleEntries (c.getSceneType w (j : Int)) (j : Int)) ++
      [terminator] := by
    simp only [buildTodoList]
    rw [activeScenesLoop_eq]
  refine ⟨hlist, ?_, fun _ => rfl, fun _ => rfl, fun _ => rfl, ?_⟩
  · rw [hlist, List.length_append, List.length_append,
      length_flatMap_roleEntries (fun j => c.getSceneType w (j : Int))]
    simp only [roleCount, List.length_singleton]
    split_ifs <;> simp only [List.length_cons, List.length_nil] <;> omega
  · intro t i h1 h2 h3
    cases t <;> simp_all [roleEntries]

/-- The record that `readAndTest` appends obeys the rule of lines 169-170. -/
theorem readAndTest_reads (env : RayEnv) (m : March) :
    ∃ r : SdfRead, (readAndTest env m).reads = m.reads ++ [r] ∧ r.obeysRule ∧
      r.uninterpolated = (env.readFromSDF_float_uninterpolated m.pt_result).1 ∧
      r.sdfValue = (readAndTest env m).sdfValue ∧ r.state = m.state ∧
      (r.interpolated.isSome = true →
        r.sdfValue = (env.readFromSDF_float_interpolated m.pt_result).1) := by
  refine ⟨SdfRead.mk m.totalLength m.state (env.readFromSDF_float_uninterpolated m.pt_result).1
    (readSdf env m.pt_result).2.2 (readSdf env m.pt_result).1, rfl, ?_, rfl, rfl, rfl, ?_⟩
  · unfold SdfRead.obeysRule readSdf
    dsimp only
    by_cases h : (env.readFromSDF_float_uninterpolated m.pt_result).1 ≤ 0 ∧
        (env.readFromSDF_float_uninterpolated m.pt_result).1 ≥ -(1 / 10)
    · rw [if_pos h, if_pos ⟨h.2, h.1⟩]
    · rw [if_neg h, if_neg (fun hc => h ⟨hc.2, hc.1⟩)]
      exact ⟨rfl, rfl⟩
  · unfold readSdf
    dsimp only
    split_ifs <;> simp

/-- Every read recorded by a march that ends obeys the rule of lines 169-170. -/
theorem marchLoop_reads (env : RayEnv) (stepScale : ℚ) (dir : Vector3f) (maxLen : ℚ) :
    ∀ (fuel : Nat) (m : March) (r : Bool × March),
      marchLoop env stepScale dir maxLen fuel m = some r →
      (∀ rd ∈ m.reads, rd.obeysRule) → ∀ rd ∈ r.2.reads, rd.obeysRule := by
  intro fuel
  induction fuel with
  | zero =>
    intro m r h hinv
    unfold marchLoop at h
    split at h
    · injection h with h
      subst h
      exact hinv
    · simp at h
  | succ fuel ih =>
    intro m r h hinv
    unfold marchLoop at h
    split at h
    · injection h with h
      subst h
      exact hinv
    · dsimp only at h
      split at h
      · injection h with h
        subst h
        exact hinv
      · apply ih _ r h
        obtain ⟨rd0, h1, h2, -⟩ := readAndTest_reads env (advance env stepScale dir m)
        intro rd hrd
        rw [h1] at hrd
        rcases List.mem_append.1 hrd with hrd | hrd
        · exact hinv rd hrd
        · simp only [List.mem_singleton] at hrd
          subst hrd
          exact h2

theorem readSdf_eq (env : RayEnv) (pt : Vector3f) :
    (-(1 / 10) ≤ (env.readFromSDF_float_uninterpolated pt).1 ∧
        (env.readFromSDF_float_uninterpolated pt).1 ≤ 0 →
      readSdf env pt = ((env.readFromSDF_float_interpolated pt).1,
        (env.readFromSDF_float_interpolated pt).2,
        some (env.readFromSDF_float_interpolated pt).1)) ∧
    (¬ (-(1 / 10) ≤ (env.readFromSDF_float_uninterpolated pt).1 ∧
        (env.readFromSDF_float_uninterpolated pt).1 ≤ 0) →
      readSdf env pt = ((env.readFromSDF_float_uninterpolated pt).1,
        (env.readFromSDF_float_uninterpolated pt).2, none)) := by
  unfold readSdf
  dsimp only
  constructor
  · intro hc
    rw [if_pos ⟨hc.2, hc.1⟩]
  · intro hc
    rw [if_neg (fun h => hc ⟨h.2, h.1⟩)]

/-- C25: the read made after a step (lines 169-173) tests the interpolated SDF value exactly
when the uninterpolated value at the point lies in `[-0.1, 0]`, and the uninterpolated value
otherwise; the state after the read is the sign test of the state before it on that value.
In every run of `castRay` that returns, every read made inside the loop obeys this rule. -/
theorem C25_interpolated_read (env : RayEnv) (fuel : Nat) (a : RayArgs) (o : RayOutcome)
    (m : March) (h : castRayRun env fuel a = some o) :
    (-(1 / 10) ≤ (env.readFromSDF_float_uninterpolated m.pt_result).1 ∧
        (env.readFromSDF_float_uninterpolated m.pt_result).1 ≤ 0 →
      (readAndTest env m).sdfValue = (env.readFromSDF_float_interpolated m.pt_result).1 ∧
      (readAndTest env m).hash_found = (env.readFromSDF_float_interpolated m.pt_result).2) ∧
    (¬ (-(1 / 10) ≤ (env.readFromSDF_float_uninterpolated m.pt_result).1 ∧
        (env.readFromSDF_float_uninterpolated m.pt_result).1 ≤ 0) →
      (readAndTest env m).sdfValue = (env.readFromSDF_float_uninterpolated m.pt_result).1 ∧
      (readAndTest env m).hash_found = (env.readFromSDF_float_uninterpolated m.pt_result).2) ∧
    (readAndTest env m).state = signTest m.state (readAndTest env m).sdfValue ∧
    (∀ rd ∈ o.last.reads, rd.obeysRule) := by
  refine ⟨?_, ?_, rfl, ?_⟩
  · intro hc
    have e := (readSdf_eq env m.pt_result).1 hc
    refine ⟨?_, ?_⟩
    · show (readSdf env m.pt_result).1 = _
      rw [e]
    · show (readSdf env m.pt_result).2.1 = _
      rw [e]
  · intro hc
    have e := (readSdf_eq env m.pt_result).2 hc
    refine ⟨?_, ?_⟩
    · show (readSdf env m.pt_result).1 = _
      rw [e]
    · show (readSdf env m.pt_result).2.1 = _
      rw [e]
  · obtain ⟨r, hr, ho⟩ := castRayRun_some env fuel a o h
    have hlast : o.last = r.2 := by rw [ho]; rfl
    rw [hlast]
    apply marchLoop_reads env _ _ _ fuel _ r hr
    intro rd hrd
    simp [initialMarch] at hrd

/-- C25, at a concrete ray: in the volume of `shallowEnv` the first coarse step lands on voxel
18, where the uninterpolated value is `-1/20`; the interpolated value `-1/40` is read and
tested, and the march ends there, behind the surface. -/
theorem C25_interpolated_read_witness :
    castRayRun shallowEnv 10 axisRay = some
      { pt_found := true, pt_out := { x := 0, y := 0, z := 179 / 10, w := 1 },
        leftByBreak := false,
        last := { state := RayState.BEHIND_SURFACE, hash_found := true, sdfValue := -(1 / 40),
                  pt_result := { x := 0, y := 0, z := 18 }, totalLength := 18,
                  reads := [{ totalLength := 18, state := RayState.SEARCH_BLOCK_COARSE,
                              uninterpolated := -(1 / 20), interpolated := some (-(1 / 40)),
                              sdfValue := -(1 / 40) }] } } ∧
    (readAndTest shallowEnv (advance shallowEnv 4 (axisRay.rayDirection shallowEnv)
      (initialMarch shallowEnv axisRay))).sdfValue = -(1 / 40) ∧
    (readAndTest shallowEnv (advance shallowEnv 4 (axisRay.rayDirection shallowEnv)
      (initialMarch shallowEnv axisRay))).state =
        signTest (advance shallowEnv 4 (axisRay.rayDirection shallowEnv)
          (initialMarch shallowEnv axisRay)).state
          (readAndTest shallowEnv (advance shallowEnv 4 (axisRay.rayDirection shallowEnv)
            (initialMarch shallowEnv axisRay))).sdfValue :=
  ⟨by decide!, by decide!,
   (C25_interpolated_read shallowEnv 10 axisRay
      { pt_found := true, pt_out := { x := 0, y := 0, z := 179 / 10, w := 1 },
        leftByBreak := false,
        last := { state := RayState.BEHIND_SURFACE, hash_found := true, sdfValue := -(1 / 40),
                  pt_result := { x := 0, y := 0, z := 18 }, totalLength := 18,
                  reads := [{ totalLength := 18, state := RayState.SEARCH_BLOCK_COARSE,
                              uninterpolated := -(1 / 20), interpolated := some (-(1 / 40)),
                              sdfValue := -(1 / 40) }] } }
      (advance shallowEnv 4 (axisRay.rayDirection shallowEnv) (initialMarch shallowEnv axisRay))
      (by decide!)).2.2.1⟩

/-- The index selected by lines 98-99 for `N >= 1` scenes, `N` and `k` in the range of `int`. -/
theorem selectFreeviewSceneIdx_cases (N : Nat) (k : Int) (hN : 1 ≤ N) (hN2 : N < 2 ^ 31)
    (hk : -(2 ^ 31) ≤ k) (hk2 : k < 2 ^ 31) :
    (0 ≤ k → k < N → selectFreeviewSceneIdx N k = k) ∧
    (k = -1 ∨ (N : Int) ≤ k → selectFreeviewSceneIdx N k = -1) ∧
    (k < -1 → selectFreeviewSceneIdx N k = (N : Int) - 1) := by
  refine ⟨?_, ?_, ?_⟩
  · intro h0 h1
    exact selectFreeviewSceneIdx_of_valid N k h0 h1 (by omega)
  · intro h
    have hk1 : ¬ k < -1 := by omega
    simp only [selectFreeviewSceneIdx, toUnsigned, hk1, if_false]
    rw [if_pos]
    rcases h with h | h
    · subst h
      have : ((-1 : Int) % 2 ^ 32).toNat = 2 ^ 32 - 1 := by decide
      rw [this]
      omega
    · have hmod : k % 2 ^ 32 = k := Int.emod_eq_of_lt (by omega) (by omega)
      rw [hmod]
      omega
  · intro h
    have hmod : ((N : Int) - 1) % 2 ^ 32 = (N : Int) - 1 :=
      Int.emod_eq_of_lt (by omega) (by omega)
    simp only [selectFreeviewSceneIdx, toUnsigned, h, if_true, hmod]
    rw [if_neg]
    omega

/-- C26: for `N >= 1` scenes (`N` and the requested index `k` in the range of `int`), the
free-view index after `changeFreeviewSceneIdx(pose, k)` lies in `{-1, 0, ..., N-1}`: it is `k`
when `0 <= k < N`, `-1` when `k = -1` or `k >= N`, and `N - 1` when `k < -1`.  It is the index
handed to `findTransformation` as the target, and the index that `GetImage` hands to `getScene`
afterwards lies in `[0, N-1]`. -/
theorem C26_freeview_index_in_range {M : Type} (c : Collaborators W Pose)
    (ops : PoseOps Pose M) (eng : ITMMultiEngine W Pose) (P : Pose) (k : Int)
    (hN : 1 ≤ c.numScenes eng.world) (hN2 : c.numScenes eng.world < 2 ^ 31)
    (hk : -(2 ^ 31) ≤ k) (hk2 : k < 2 ^ 31) :
    -1 ≤ (changeFreeviewSceneIdx c ops eng P k).2.freeviewSceneIdx ∧
    (changeFreeviewSceneIdx c ops eng P k).2.freeviewSceneIdx ≤
      (c.numScenes eng.world : Int) - 1 ∧
    (0 ≤ k → k < c.numScenes eng.world →
      (changeFreeviewSceneIdx c ops eng P k).2.freeviewSceneIdx = k) ∧
    (k = -1 ∨ (c.numScenes eng.world : Int) ≤ k →
      (changeFreeviewSceneIdx c ops eng P k).2.freeviewSceneIdx = -1) ∧
    (k < -1 →
      (changeFreeviewSceneIdx c ops eng P k).2.freeviewSceneIdx =
        (c.numScenes eng.world : Int) - 1) ∧
    (changeFreeviewSceneIdx c ops eng P k).1 =
      ops.Coerce (ops.SetM P (ops.mul (ops.GetM P) (ops.GetInvM
        (c.findTransformation eng.world eng.freeviewSceneIdx
          (changeFreeviewSceneIdx c ops eng P k).2.freeviewSceneIdx)))) ∧
    0 ≤ GetImage_sceneIdx (changeFreeviewSceneIdx c ops eng P k).2.freeviewSceneIdx ∧
    GetImage_sceneIdx (changeFreeviewSceneIdx c ops eng P k).2.freeviewSceneIdx ≤
      (c.numScenes eng.world : Int) - 1 := by
  obtain ⟨h1, h2, h3⟩ := selectFreeviewSceneIdx_cases (c.numScenes eng.world) k hN hN2 hk hk2
  have hidx : (changeFreeviewSceneIdx c ops eng P k).2.freeviewSceneIdx =
      selectFreeviewSceneIdx (c.numScenes eng.world) k := rfl
  have hrange : -1 ≤ selectFreeviewSceneIdx (c.numScenes eng.world) k ∧
      selectFreeviewSceneIdx (c.numScenes eng.world) k ≤ (c.numScenes eng.world : Int) - 1 := by
    by_cases ha : k < -1
    · rw [h3 ha]; omega
    · by_cases hb : k = -1 ∨ (c.numScenes eng.world : Int) ≤ k
      · rw [h2 hb]; omega
      · rw [h1 (by omega) (by omega)]; omega
  rw [hidx]
  refine ⟨hrange.1, hrange.2, h1, h2, h3, rfl, ?_, ?_⟩
  · unfold GetImage_sceneIdx
    split_ifs <;> omega
  · unfold GetImage_sceneIdx
    split_ifs <;> omega

/-- C26, at a concrete input: with two sub-maps, the request `k = -7` selects index `1`, the
request `k = 2` selects `-1`, and the request `k = 1` selects `1`. -/
theorem C26_freeview_index_in_range_witness :
    (changeFreeviewSceneIdx twoSubmapCollaborators translationOps freshEngine 7 (-7)).2.freeviewSceneIdx
      = 1 ∧
    (changeFreeviewSceneIdx twoSubmapCollaborators translationOps freshEngine 7 2).2.freeviewSceneIdx
      = -1 ∧
    (changeFreeviewSceneIdx twoSubmapCollaborators translationOps freshEngine 7 1).2.freeviewSceneIdx
      = 1 ∧
    -1 ≤ (changeFreeviewSceneIdx twoSubmapCollaborators translationOps freshEngine 7
      (-7)).2.freeviewSceneIdx ∧
    (changeFreeviewSceneIdx twoSubmapCollaborators translationOps freshEngine 7
      (-7)).2.freeviewSceneIdx ≤
        (twoSubmapCollaborators.numScenes freshEngine.world : Int) - 1 :=
  ⟨by decide, by decide, by decide,
    (C26_freeview_index_in_range twoSubmapCollaborators translationOps freshEngine 7 (-7)
      (by decide) (by decide) (by decide) (by decide)).1,
    (C26_freeview_index_in_range twoSubmapCollaborators translationOps freshEngine 7 (-7)
      (by decide) (by decide) (by decide) (by decide)).2.1⟩

theorem toShort_of_range (v : Int) (h0 : -32768 ≤ v) (h1 : v ≤ 32767) : toShort v = v := by
  unfold toShort
  norm_num
  omega

/-- The inner loop when the cap is not reached: one block per tile of the row. -/
theorem innerBlockLoop_writes (ul lr : Vector2i) (zr : Vector2f) (by_ : Int) :
    ∀ (n : Nat) (bx : Int) (st : BlockListState), st.offset + (n : Int) ≤ MAX_RENDERING_BLOCKS →
      innerBlockLoop ul lr zr by_ n bx st =
        (false, { offset := st.offset + (n : Int),
                  writes := st.writes ++ (List.range n).map
                    (fun (j : Nat) => (st.offset + (j : Int),
                      makeRenderingBlock ul lr zr (bx + (j : Int)) by_)) }) := by
  intro n
  induction n with
  | zero =>
    intro bx st _
    simp [innerBlockLoop]
  | succ n ih =>
    intro bx st h
    have hcap : ¬ st.offset ≥ MAX_RENDERING_BLOCKS := by push_cast at h; omega
    simp only [innerBlockLoop, hcap, if_false]
    rw [ih (bx + 1) _ (by dsimp only; push_cast at h ⊢; omega)]
    dsimp only
    rw [List.range_succ_eq_map, List.map_cons, List.map_map, List.append_assoc]
    have e1 : ∀ a : Nat, st.offset + 1 + (a : Int) = st.offset + ((a : Int) + 1) :=
      fun a => by omega
    have e2 : ∀ a : Nat, bx + 1 + (a : Int) = bx + ((a : Int) + 1) := fun a => by omega
    have e3 : st.offset + 1 + (n : Int) = st.offset + ((n : Int) + 1) := by omega
    have e4 : ((fun (j : Nat) => (st.offset + (j : Int),
        makeRenderingBlock ul lr zr (bx + (j : Int)) by_)) ∘ Nat.succ) =
        fun (j : Nat) => (st.offset + ((j : Int) + 1),
          makeRenderingBlock ul lr zr (bx + ((j : Int) + 1)) by_) := by
      funext j
      simp [Function.comp]
    simp only [Nat.succ_eq_add_one, Nat.cast_add, Nat.cast_one, Nat.cast_zero,
      add_zero, e1, e2, e3, e4, List.singleton_append]

theorem outerBlockLoop_writes_aux (ul lr : Vector2i) (zr : Vector2f) (nx : Nat)
    (hnx : (tileCount (1 + lr.x - ul.x) renderingBlockSizeX).toNat = nx) :
    ∀ (m : Nat) (by_ : Int) (st : BlockListState),
      st.offset + (m : Int) * (nx : Int) ≤ MAX_RENDERING_BLOCKS →
      outerBlockLoop ul lr zr m by_ st =
        { offset := st.offset + (m : Int) * (nx : Int),
          writes := st.writes ++ (List.range m).flatMap (fun (i : Nat) =>
            (List.range nx).map
              (fun (j : Nat) =>
                (st.offset + (i : Int) * (nx : Int) + (j : Int),
                  makeRenderingBlock ul lr zr (j : Int) (by_ + (i : Int))))) } := by
  intro m
  induction m with
  | zero =>
    intro by_ st _
    simp [outerBlockLoop]
  | succ m ih =>
    intro by_ st h
    have hnn : (0 : Int) ≤ (m : Int) * (nx : Int) := by positivity
    have hrow : st.offset + (nx : Int) ≤ MAX_RENDERING_BLOCKS := by
      push_cast at h
      nlinarith
    have hin := innerBlockLoop_writes ul lr zr by_ nx 0 st hrow
    have hstep : outerBlockLoop ul lr zr (m + 1) by_ st =
        outerBlockLoop ul lr zr m (by_ + 1)
          { offset := st.offset + (nx : Int),
            writes := st.writes ++ (List.range nx).map
              (fun (j : Nat) => (st.offset + (j : Int),
                makeRenderingBlock ul lr zr (0 + (j : Int)) by_)) } := by
      rw [outerBlockLoop]
      simp only [hnx, hin]
      rfl
    rw [hstep, ih (by_ + 1) _ (by dsimp only; push_cast at h ⊢; nlinarith)]
    dsimp only
    rw [List.range_succ_eq_map, List.flatMap_cons, List.flatMap_map, List.append_assoc]
    congr 1
    · push_cast; ring
    · congr 2
      · apply List.map_congr_left
        intro j _
        simp
      · apply List.flatMap_congr
        intro i _
        apply List.map_congr_left
        intro j _
        simp only [Nat.succ_eq_add_one]
        congr 1
        · push_cast; ring
        · congr 1
          push_cast; ring

/-- The outer loop when the cap is not reached: one block per tile, row by row. -/
theorem CreateRenderingBlocks_writes (offset : Int) (ul lr : Vector2i) (zr : Vector2f)
    (hcap : offset +
      ((tileCount (1 + lr.y - ul.y) renderingBlockSizeY).toNat : Int) *
        ((tileCount (1 + lr.x - ul.x) renderingBlockSizeX).toNat : Int) ≤ MAX_RENDERING_BLOCKS) :
    CreateRenderingBlocks offset ul lr zr =
      (List.range (tileCount (1 + lr.y - ul.y) renderingBlockSizeY).toNat).flatMap
        (fun (i : Nat) =>
          (List.range (tileCount (1 + lr.x - ul.x) renderingBlockSizeX).toNat).map
            (fun (j : Nat) =>
              (offset + (i : Int) *
                  ((tileCount (1 + lr.x - ul.x) renderingBlockSizeX).toNat : Int) + (j : Int),
                makeRenderingBlock ul lr zr (j : Int) (i : Int)))) := by
  unfold CreateRenderingBlocks
  rw [outerBlockLoop_writes_aux ul lr zr _ rfl _ 0 _ hcap]
  simp

/-- The block of tile `(j, i)` when no coordinate leaves the range of `short`. -/
theorem makeRenderingBlock_of_no_wrap (ul lr : Vector2i) (zr : Vector2f) (j i : Int)
    (hx0 : -32768 ≤ ul.x) (hx2 : lr.x ≤ 32752) (hj0 : 0 ≤ j) (hj : ul.x + 16 * j ≤ lr.x)
    (hy0 : -32768 ≤ ul.y) (hy2 : lr.y ≤ 32752) (hi0 : 0 ≤ i) (hi : ul.y + 16 * i ≤ lr.y) :
    makeRenderingBlock ul lr zr j i =
      { upperLeft := { x := ul.x + 16 * j, y := ul.y + 16 * i },
        lowerRight := { x := if ul.x + 16 * j + 15 > lr.x then lr.x else ul.x + 16 * j + 15,
                        y := if ul.y + 16 * i + 15 > lr.y then lr.y else ul.y + 16 * i + 15 },
        zRange := zr } := by
  have e1 : toShort (ul.x + j * 16) = ul.x + 16 * j := by
    rw [toShort_of_range _ (by omega) (by omega)]; ring
  have e2 : toShort (ul.y + i * 16) = ul.y + 16 * i := by
    rw [toShort_of_range _ (by omega) (by omega)]; ring
  have e3 : toShort (ul.x + (j + 1) * 16 - 1) = ul.x + 16 * j + 15 := by
    rw [toShort_of_range _ (by omega) (by omega)]; ring
  have e4 : toShort (ul.y + (i + 1) * 16 - 1) = ul.y + 16 * i + 15 := by
    rw [toShort_of_range _ (by omega) (by omega)]; ring
  have e5 : toShort lr.x = lr.x := toShort_of_range _ (by omega) (by omega)
  have e6 : toShort lr.y = lr.y := toShort_of_range _ (by omega) (by omega)
  simp only [makeRenderingBlock, renderingBlockSizeX, renderingBlockSizeY, e1, e2, e3, e4, e5, e6]

/-- Membership in the list of writes when the cap is not reached. -/
theorem mem_CreateRenderingBlocks (offset : Int) (ul lr : Vector2i) (zr : Vector2f)
    (hcap : offset +
      ((tileCount (1 + lr.y - ul.y) renderingBlockSizeY).toNat : Int) *
        ((tileCount (1 + lr.x - ul.x) renderingBlockSizeX).toNat : Int) ≤ MAX_RENDERING_BLOCKS)
    (w : Int × RenderingBlock) :
    w ∈ CreateRenderingBlocks offset ul lr zr ↔
      ∃ i j : Nat, i < (tileCount (1 + lr.y - ul.y) renderingBlockSizeY).toNat ∧
        j < (tileCount (1 + lr.x - ul.x) renderingBlockSizeX).toNat ∧
        w = (offset + (i : Int) *
            ((tileCount (1 + lr.x - ul.x) renderingBlockSizeX).toNat : Int) + (j : Int),
          makeRenderingBlock ul lr zr (j : Int) (i : Int)) := by
  rw [CreateRenderingBlocks_writes offset ul lr zr hcap]
  simp only [List.mem_flatMap, List.mem_map, List.mem_range]
  constructor
  · rintro ⟨i, hi, j, hj, rfl⟩
    exact ⟨i, j, hi, hj, rfl⟩
  · rintro ⟨i, j, hi, hj, rfl⟩
    exact ⟨i, hi, j, hj, rfl⟩

/-- The slots written by `CreateRenderingBlocks` are pairwise different. -/
theorem CreateRenderingBlocks_nodup (offset : Int) (ul lr : Vector2i) (zr : Vector2f) :
    (CreateRenderingBlocks offset ul lr zr).Nodup := by
  obtain ⟨ws, h1, -, -, h4⟩ := outerBlockLoop_spec ul lr zr
    (tileCount (1 + lr.y - ul.y) renderingBlockSizeY).toNat 0
    { offset := offset, writes := [] }
  have hres : CreateRenderingBlocks offset ul lr zr = ws := by
    unfold CreateRenderingBlocks
    rw [h1]; rfl
  rw [hres]
  apply List.Nodup.of_map Prod.fst
  rw [h4]
  apply List.Nodup.map _ (List.nodup_range _)
  intro a b hab
  dsimp only at hab
  omega

theorem countP_eq_one_of_unique {α : Type} [DecidableEq α] (l : List α) (p : α → Bool) (a : α)
    (hn : l.Nodup) (ha : a ∈ l) (h : ∀ x ∈ l, p x = true ↔ x = a) : l.countP p = 1 := by
  rw [← List.count_eq_one_of_mem hn ha]
  unfold List.count
  apply List.countP_congr
  intro x hx
  rw [h x hx]
  simp

/-- When the cap is not reached and no block corner leaves the range of `short` (the box
ends at or before coordinate `32752`), the blocks written by `CreateRenderingBlocks` partition
the box: every written block is non-empty, at most 16x16 pixels, contained in the box and
carries the input `zRange`, and every pixel of the box lies in exactly one written block. -/
theorem CreateRenderingBlocks_partition (offset : Int) (ul lr : Vector2i) (zr : Vector2f)
    (hx0 : -32768 ≤ ul.x) (hx1 : ul.x ≤ lr.x) (hx2 : lr.x ≤ 32752)
    (hy0 : -32768 ≤ ul.y) (hy1 : ul.y ≤ lr.y) (hy2 : lr.y ≤ 32752)
    (hcap : offset + tileCount (1 + lr.x - ul.x) 16 * tileCount (1 + lr.y - ul.y) 16 ≤
      MAX_RENDERING_BLOCKS) :
    (∀ w ∈ CreateRenderingBlocks offset ul lr zr,
      w.2.upperLeft.x ≤ w.2.lowerRight.x ∧ w.2.upperLeft.y ≤ w.2.lowerRight.y ∧
      w.2.lowerRight.x - w.2.upperLeft.x + 1 ≤ 16 ∧ w.2.lowerRight.y - w.2.upperLeft.y + 1 ≤ 16 ∧
      ul.x ≤ w.2.upperLeft.x ∧ w.2.lowerRight.x ≤ lr.x ∧
      ul.y ≤ w.2.upperLeft.y ∧ w.2.lowerRight.y ≤ lr.y ∧ w.2.zRange = zr) ∧
    (∀ px py : Int, ul.x ≤ px → px ≤ lr.x → ul.y ≤ py → py ≤ lr.y →
      (CreateRenderingBlocks offset ul lr zr).countP (fun w => w.2.contains px py) = 1) := by
  have hnx : ((tileCount (1 + lr.x - ul.x) renderingBlockSizeX).toNat : Int) =
      (1 + lr.x - ul.x + 15) / 16 := by
    rw [renderingBlockSizeX, tileCount_eq, Int.toNat_of_nonneg (by omega)]
  have hny : ((tileCount (1 + lr.y - ul.y) renderingBlockSizeY).toNat : Int) =
      (1 + lr.y - ul.y + 15) / 16 := by
    rw [renderingBlockSizeY, tileCount_eq, Int.toNat_of_nonneg (by omega)]
  have hcap' : offset +
      ((tileCount (1 + lr.y - ul.y) renderingBlockSizeY).toNat : Int) *
        ((tileCount (1 + lr.x - ul.x) renderingBlockSizeX).toNat : Int) ≤
        MAX_RENDERING_BLOCKS := by
    rw [hnx, hny, ← tileCount_eq, ← tileCount_eq, mul_comm]
    exact hcap
  have hmem := mem_CreateRenderingBlocks offset ul lr zr hcap'
  generalize hNX : (tileCount (1 + lr.x - ul.x) renderingBlockSizeX).toNat = nx at hnx hmem
  generalize hNY : (tileCount (1 + lr.y - ul.y) renderingBlockSizeY).toNat = ny at hny hmem
  have hblock : ∀ i j : Nat, i < ny → j < nx →
      makeRenderingBlock ul lr zr (j : Int) (i : Int) =
        { upperLeft := { x := ul.x + 16 * (j : Int), y := ul.y + 16 * (i : Int) },
          lowerRight :=
            { x := if ul.x + 16 * (j : Int) + 15 > lr.x then lr.x else ul.x + 16 * (j : Int) + 15,
              y := if ul.y + 16 * (i : Int) + 15 > lr.y then lr.y else ul.y + 16 * (i : Int) + 15 },
          zRange := zr } := by
    intro i j hi hj
    have hj' : (j : Int) < (1 + lr.x - ul.x + 15) / 16 := by rw [← hnx]; exact_mod_cast hj
    have hi' : (i : Int) < (1 + lr.y - ul.y + 15) / 16 := by rw [← hny]; exact_mod_cast hi
    exact makeRenderingBlock_of_no_wrap ul lr zr j i hx0 hx2 (by omega) (by omega) hy0 hy2
      (by omega) (by omega)
  refine ⟨?_, ?_⟩
  · intro w hw
    obtain ⟨i, j, hi, hj, rfl⟩ := (hmem w).1 hw
    have hj' : (j : Int) < (1 + lr.x - ul.x + 15) / 16 := by rw [← hnx]; exact_mod_cast hj
    have hi' : (i : Int) < (1 + lr.y - ul.y + 15) / 16 := by rw [← hny]; exact_mod_cast hi
    rw [hblock i j hi hj]
    dsimp only
    refine ⟨?_, ?_, ?_, ?_, ?_, ?_, ?_, ?_, rfl⟩ <;> omega
  · intro px py h1 h2 h3 h4
    have hj0 : ((px - ul.x) / 16).toNat < nx := by
      have : (((px - ul.x) / 16).toNat : Int) < (nx : Int) := by
        rw [Int.toNat_of_nonneg (by omega), hnx]; omega
      exact_mod_cast this
    have hi0 : ((py - ul.y) / 16).toNat < ny := by
      have : (((py - ul.y) / 16).toNat : Int) < (ny : Int) := by
        rw [Int.toNat_of_nonneg (by omega), hny]; omega
      exact_mod_cast this
    have hjc : (((px - ul.x) / 16).toNat : Int) = (px - ul.x) / 16 :=
      Int.toNat_of_nonneg (by omega)
    have hic : (((py - ul.y) / 16).toNat : Int) = (py - ul.y) / 16 :=
      Int.toNat_of_nonneg (by omega)
    apply countP_eq_one_of_unique _ _
      (offset + (((py - ul.y) / 16).toNat : Int) * (nx : Int) + (((px - ul.x) / 16).toNat : Int),
        makeRenderingBlock ul lr zr (((px - ul.x) / 16).toNat : Int)
          (((py - ul.y) / 16).toNat : Int))
      (CreateRenderingBlocks_nodup offset ul lr zr)
      ((hmem _).2 ⟨_, _, hi0, hj0, rfl⟩)
    intro w hw
    obtain ⟨i, j, hi, hj, rfl⟩ := (hmem w).1 hw
    have hj' : (j : Int) < (1 + lr.x - ul.x + 15) / 16 := by rw [← hnx]; exact_mod_cast hj
    have hi' : (i : Int) < (1 + lr.y - ul.y + 15) / 16 := by rw [← hny]; exact_mod_cast hi
    constructor
    · intro hc
      rw [hblock i j hi hj] at hc
      simp only [RenderingBlock.contains, decide_eq_true_eq] at hc
      have ej : (j : Int) = (px - ul.x) / 16 := by
        obtain ⟨c1, c2, -, -⟩ := hc
        split_ifs at c2 <;> omega
      have ei : (i : Int) = (py - ul.y) / 16 := by
        obtain ⟨-, -, c3, c4⟩ := hc
        split_ifs at c4 <;> omega
      rw [hjc, hic, ← ej, ← ei]
    · intro he
      rw [he]
      dsimp only
      rw [hblock _ _ hi0 hj0]
      simp only [RenderingBlock.contains, decide_eq_true_eq]
      rw [hjc, hic]
      refine ⟨?_, ?_, ?_, ?_⟩ <;> omega

/-- C21, evaluated where the code departs from it: the box `[32760, 32767] x [0, 0]` has its
coordinates in the range of `short` and is one tile, far below the cap.  The block written for
it has `lowerRight.x = 32760 + 16 - 1` stored in a `short`, which is `-32761`: this is not
above the box's `lowerRight.x`, so it is not cut back.  The written block
`[32760, -32761] x [0, 0]` is empty, and no pixel of the box lies in a written block. -/
theorem C21_block_wraps_at_short_max :
    CreateRenderingBlocks 0 { x := 32760, y := 0 } { x := 32767, y := 0 } { x := 1, y := 2 } =
      [(0, { upperLeft := { x := 32760, y := 0 }, lowerRight := { x := -32761, y := 0 },
             zRange := { x := 1, y := 2 } })] ∧
    tileCount (1 + 32767 - 32760) 16 * tileCount (1 + 0 - 0) 16 = 1 ∧
    (CreateRenderingBlocks 0 { x := 32760, y := 0 } { x := 32767, y := 0 }
      { x := 1, y := 2 }).countP (fun w => w.2.contains 32760 0) = 0 := by
  decide!

/-- One iteration of the link loop is a link attempt if the neighbour is in range, and
nothing if not. -/
theorem newLinkBody_eq (c : Collaborators W Pose) (i : Nat) (p : Int) (r : RelocOutput)
    (j : Nat) (s : WalkState W Pose) :
    newLinkBody c i p r j s =
      if r.distances j ≤ F_maxdistattemptreloc then attemptLink c i (decide (p < 0)) r s j
      else s := by
  by_cases hd : r.distances j > F_maxdistattemptreloc
  · rw [if_neg (not_le.2 hd)]
    simp [newLinkBody, hd]
  · rw [if_pos (not_lt.1 hd)]
    by_cases hge : (c.initiateNewLink s.world (c.retrievePose s.world (r.NN j)).sceneIdx
        (c.retrievePose s.world (r.NN j)).pose (decide (p < 0))).1 ≥ 0
    · simp [newLinkBody, attemptLink, hd, hge, WalkState.log, linkEntry, TodoListEntry.make]
    · simp [newLinkBody, attemptLink, hd, hge, WalkState.log]

theorem newLinkLoop_eq_foldl (c : Collaborators W Pose) (i : Nat) (p : Int) (r : RelocOutput) :
    ∀ (n j : Nat) (s : WalkState W Pose),
      newLinkLoop c i p r n j s =
        (List.range' j n).foldl (fun s j => newLinkBody c i p r j s) s := by
  intro n
  induction n with
  | zero => intro j s; rfl
  | succ n ih =>
    intro j s
    simp only [newLinkLoop, List.range'_succ, List.foldl_cons]
    exact ih (j + 1) _

theorem foldl_filter_eq {α β : Type} (q : α → Bool) (f : β → α → β) (l : List α) (b : β) :
    (l.filter q).foldl f b = l.foldl (fun b a => if q a = true then f b a else b) b := by
  induction l generalizing b with
  | nil => rfl
  | cons a l ih =>
    by_cases h : q a = true
    · simp [List.filter_cons, h, ih]
    · simp [List.filter_cons, h, ih]

/-- The link loop of a terminator is the sequence of link attempts of the specification. -/
theorem newLinkLoop_eq_linkAttempts (c : Collaborators W Pose) (i : Nat) (p : Int)
    (r : RelocOutput) (s : WalkState W Pose) :
    newLinkLoop c i p r k_loopcloseneighbours 0 s = linkAttempts c i (decide (p < 0)) r s := by
  rw [newLinkLoop_eq_foldl, linkAttempts, foldl_filter_eq, List.range_eq_range']
  congr 1
  funext s j
  rw [newLinkBody_eq]
  simp

theorem LinkedEntries_mono (tr tr' : List (Event Pose)) (l : List TodoListEntry)
    (hsub : ∀ e ∈ tr, e ∈ tr') (h : LinkedEntries tr l) : LinkedEntries tr' l := by
  intro e he hp
  obtain ⟨h1, h2, h3, j, sc, p, b, h4⟩ := h e he hp
  exact ⟨h1, h2, h3, j, sc, p, b, hsub _ h4⟩

theorem LinkedEntries_set (tr : List (Event Pose)) (l : List TodoListEntry) (i : Nat)
    (x : TodoListEntry) (h : LinkedEntries tr l)
    (hx : x.dataID = (l.getD i terminator).dataID ∧ x.track = (l.getD i terminator).track ∧
      x.preprepare = (l.getD i terminator).preprepare ∧
      ((l.getD i terminator).fusion = false → x.fusion = false)) :
    LinkedEntries tr (l.set i x) := by
  intro e he hp
  rcases List.mem_or_eq_of_mem_set he with he | rfl
  · exact h e he hp
  · by_cases hi : i < l.length
    · have hmem : l.getD i terminator ∈ l := by
        rw [List.getD_eq_getElem _ _ hi]
        exact List.getElem_mem hi
      obtain ⟨h1, h2, h3, hev⟩ := h _ hmem (by rw [← hx.2.2.1]; exact hp)
      rw [hx.1, hx.2.1]
      exact ⟨h1, h2, hx.2.2.2 h3, hev⟩
    · have hd : l.getD i terminator = terminator := by
        rw [List.getD_eq_default _ _ (by omega)]
      rw [hx.2.2.1, hd] at hp
      simp [terminator, TodoListEntry.make] at hp

theorem LinkedEntries_take (tr : List (Event Pose)) (l : List TodoListEntry) (n : Nat)
    (h : LinkedEntries tr l) : LinkedEntries tr (l.take n ++ [terminator]) := by
  intro e he hp
  rcases List.mem_append.1 he with he | he
  · exact h e (List.mem_of_mem_take he) hp
  · simp only [List.mem_singleton] at he
    subst he
    simp [terminator, TodoListEntry.make] at hp

theorem attemptLink_linked (c : Collaborators W Pose) (i : Nat) (b : Bool) (r : RelocOutput)
    (s : WalkState W Pose) (j : Nat) (h : PreprepareOnlyForLinks s) :
    PreprepareOnlyForLinks (attemptLink c i b r s j) := by
  unfold PreprepareOnlyForLinks at h ⊢
  unfold attemptLink
  dsimp only
  split
  · rename_i hge
    dsimp only
    intro e he hp
    rcases List.mem_append.1 he with he | he
    · exact LinkedEntries_mono _ _ _ (fun x hx => List.mem_append_left _ hx) h e he hp
    · simp only [List.mem_singleton] at he
      subst he
      exact ⟨hge, rfl, rfl, i, (c.retrievePose s.world (r.NN j)).sceneIdx,
        (c.retrievePose s.world (r.NN j)).pose, b, by simp [linkEntry]⟩
  · exact LinkedEntries_mono _ _ _ (fun x hx => List.mem_append_left _ hx) h

theorem newLinkLoop_linked (c : Collaborators W Pose) (i : Nat) (p : Int) (r : RelocOutput) :
    ∀ (n j : Nat) (s : WalkState W Pose), PreprepareOnlyForLinks s →
      PreprepareOnlyForLinks (newLinkLoop c i p r n j s) := by
  intro n
  induction n with
  | zero => intro j s h; exact h
  | succ n ih =>
    intro j s h
    simp only [newLinkLoop]
    apply ih
    rw [newLinkBody_eq]
    split
    · exact attemptLink_linked c i _ r s j h
    · exact h

theorem terminatorStep_linked (c : Collaborators W Pose) (i : Nat) (s : WalkState W Pose)
    (h : PreprepareOnlyForLinks s) : PreprepareOnlyForLinks (terminatorStep c i s) := by
  unfold terminatorStep
  dsimp only
  split
  · unfold PreprepareOnlyForLinks at h ⊢
    simp only [WalkState.log]
    exact LinkedEntries_mono _ _ _ (fun x hx => by simp [hx]) h
  · apply newLinkLoop_linked
    unfold PreprepareOnlyForLinks at h ⊢
    simp only [WalkState.log]
    exact LinkedEntries_mono _ _ _ (fun x hx => by simp [hx]) h

theorem trackBlock_linked (c : Collaborators W Pose) (i : Nat) (sc : Int) (s : WalkState W Pose)
    (h : PreprepareOnlyForLinks s) : PreprepareOnlyForLinks (trackBlock c i sc s) := by
  unfold PreprepareOnlyForLinks at h ⊢
  have h0 : ∀ evs : List (Event Pose), LinkedEntries (s.trace ++ evs) s.todoList :=
    fun evs => LinkedEntries_mono _ _ _ (fun x hx => List.mem_append_left _ hx) h
  have h1 : ∀ evs : List (Event Pose), LinkedEntries (s.trace ++ evs)
      (s.todoList.set i { s.todoList.getD i terminator with fusion := false }) :=
    fun evs => LinkedEntries_set _ _ _ _ (h0 evs) ⟨rfl, rfl, rfl, fun _ => rfl⟩
  have h2 : ∀ evs : List (Event Pose), LinkedEntries (s.trace ++ evs)
      (s.todoList.set i { s.todoList.getD i terminator with prepare := false }) :=
    fun evs => LinkedEntries_set _ _ _ _ (h0 evs) ⟨rfl, rfl, rfl, fun hf => hf⟩
  have h3 : ∀ evs : List (Event Pose), LinkedEntries (s.trace ++ evs)
      ((s.todoList.set i { s.todoList.getD i terminator with fusion := false }).set i
        { (s.todoList.set i { s.todoList.getD i terminator with fusion := false }).getD i
            terminator with prepare := false }) := by
    intro evs
    apply LinkedEntries_set _ _ _ _ (h1 evs)
    exact ⟨rfl, rfl, rfl, fun hf => hf⟩
  simp only [trackBlock, WalkState.log, WalkState.setEntry]
  split_ifs <;> simp only [List.append_assoc] <;>
    first
    | exact h0 _
    | exact h1 _
    | exact h2 _
    | exact h3 _
    | exact LinkedEntries_take _ _ _ (h0 _)
    | exact LinkedEntries_take _ _ _ (h1 _)
    | exact LinkedEntries_take _ _ _ (h2 _)
    | exact LinkedEntries_take _ _ _ (h3 _)

theorem linked_of_fields (s s' : WalkState W Pose) (evs : List (Event Pose))
    (h : PreprepareOnlyForLinks s) (hl : s'.todoList = s.todoList)
    (ht : s'.trace = s.trace ++ evs) : PreprepareOnlyForLinks s' := by
  unfold PreprepareOnlyForLinks at h ⊢
  rw [hl, ht]
  exact LinkedEntries_mono _ _ _ (fun x hx => List.mem_append_left _ hx) h

theorem regularStep_linked (c : Collaborators W Pose) (i : Nat) (s : WalkState W Pose)
    (h : PreprepareOnlyForLinks s) : PreprepareOnlyForLinks (regularStep c i s) := by
  rw [regularStep_eq]
  have hb : PreprepareOnlyForLinks (stateBeforeTrack c i s) := by
    have hf := stateBeforeTrack_fields c i s
    exact linked_of_fields s _ _ h hf.1 hf.2.2.2.2.2
  have ht : PreprepareOnlyForLinks
      (if ((stateBeforeTrack c i s).entry i).track
       then trackBlock c i (currentSceneIdxAt c i s) (stateBeforeTrack c i s)
       else stateBeforeTrack c i s) := by
    split
    · exact trackBlock_linked c i _ _ hb
    · exact hb
  have hf := fusePrepareBlock_fields c i (currentSceneIdxAt c i s)
    (if ((stateBeforeTrack c i s).entry i).track
       then trackBlock c i (currentSceneIdxAt c i s) (stateBeforeTrack c i s)
       else stateBeforeTrack c i s)
  exact linked_of_fields _ _ _ ht hf.1 hf.2.2.2.2.2

theorem walkStep_linked (c : Collaborators W Pose) (i : Nat) (s : WalkState W Pose)
    (h : PreprepareOnlyForLinks s) : PreprepareOnlyForLinks (walkStep c i s) := by
  unfold walkStep
  split
  · exact terminatorStep_linked c i s h
  · exact regularStep_linked c i s h

theorem buildTodoList_preprepare (c : Collaborators W Pose) (w : W) :
    ∀ e ∈ buildTodoList c w, e.preprepare = false := by
  intro e he
  simp only [buildTodoList] at he
  rw [activeScenesLoop_eq] at he
  simp only [List.mem_append, List.mem_flatMap, List.mem_range, List.mem_singleton] at he
  rcases he with (he | ⟨j, -, he⟩) | rfl
  · split at he
    · simp only [List.mem_singleton] at he
      subst he
      rfl
    · simp at he
  · generalize c.getSceneType w (j : Int) = t at he
    cases t <;> simp [roleEntries] at he
    all_goals (rcases he with rfl | rfl | rfl <;> rfl)
  · rfl

theorem initialWalkState_linked (c : Collaborators W Pose) (eng : ITMMultiEngine W Pose)
    (hasImu : Bool) : PreprepareOnlyForLinks (initialWalkState c eng hasImu) := by
  intro e he hp
  have := buildTodoList_preprepare c _ e he
  rw [this] at hp
  cases hp

theorem walkPrefix_linked (c : Collaborators W Pose) (s : WalkState W Pose)
    (h : PreprepareOnlyForLinks s) : ∀ n, PreprepareOnlyForLinks (walkPrefix c s n) := by
  intro n
  induction n with
  | zero => exact h
  | succ n ih =>
    simp only [walkPrefix]
    split
    · exact walkStep_linked c n _ ih
    · exact ih

/-- A walk that ends has run for some number of iterations. -/
theorem walk_eq_walkPrefix (c : Collaborators W Pose) (s0 : WalkState W Pose) :
    ∀ (fuel i : Nat) (s' : WalkState W Pose),
      walk c fuel i (walkPrefix c s0 i) = some s' →
      ∃ n, s' = walkPrefix c s0 n ∧ ¬ n < (walkPrefix c s0 n).todoList.length := by
  intro fuel
  induction fuel with
  | zero =>
    intro i s' h
    unfold walk at h
    split at h
    · simp at h
    · rename_i hlt
      injection h with h
      exact ⟨i, h.symm, hlt⟩
  | succ fuel ih =>
    intro i s' h
    unfold walk at h
    split at h
    · rename_i hlt
      have hstep : walkPrefix c s0 (i + 1) = walkStep c i (walkPrefix c s0 i) := by
        simp only [walkPrefix, hlt, if_true]
      rw [← hstep] at h
      exact ih (i + 1) s' h
    · rename_i hlt
      injection h with h
      exact ⟨i, h.symm, hlt⟩

/-- C23: at a terminator where the relocaliser returned a negative keyframe ID (and the
primary's sub-map index, if a primary exists, is `>= 0`), the branch does exactly the link
attempts of the specification: for the neighbours `j` in `0..2` with distance
`<= F_maxdistattemptreloc = 0.1`, in increasing `j`, `initiateNewLink` is called with the
retrieved `(sub-map, pose)` and `makePrimaryIfNone = (primaryDataIdx < 0)`; a returned dataID
`>= 0` appends the entry `(dataID, track, no fusion, prepare, preprepare)`, any other return
appends nothing.  At every point of the walk of a frame, and when it ends, the entries with
`preprepare = true` are entries of links made in the frame. -/
theorem C23_link_attempts (c : Collaborators W Pose) (i : Nat) (s : WalkState W Pose)
    (eng : ITMMultiEngine W Pose) (hasImu : Bool) (n : Nat)
    (hk : (c.relocaliserProcessFrame s.world s.primaryTrackingSuccess).1.addKeyframeIdx < 0)
    (hidx : 0 ≤ s.primaryDataIdx → 0 ≤ c.getSceneIndex
      (c.relocaliserProcessFrame s.world s.primaryTrackingSuccess).2 s.primaryDataIdx) :
    terminatorStep c i s =
      linkAttempts c i (decide (s.primaryDataIdx < 0))
        (c.relocaliserProcessFrame s.world s.primaryTrackingSuccess).1
        { s with
          world := (c.relocaliserProcessFrame s.world s.primaryTrackingSuccess).2,
          trace := s.trace ++ [Event.UpdateHostFromDevice i,
            Event.relocaliserProcessFrame i s.primaryTrackingSuccess
              (c.relocaliserProcessFrame s.world s.primaryTrackingSuccess).1.addKeyframeIdx] } ∧
    k_loopcloseneighbours = 3 ∧ F_maxdistattemptreloc = 1 / 10 ∧
    PreprepareOnlyForLinks (walkPrefix c (initialWalkState c eng hasImu) n) ∧
    (∀ fuel s', walk c fuel 0 (initialWalkState c eng hasImu) = some s' →
      PreprepareOnlyForLinks s') := by
  refine ⟨?_, rfl, rfl, walkPrefix_linked c _ (initialWalkState_linked c eng hasImu) n, ?_⟩
  · have hflag : decide ((if s.primaryDataIdx ≥ 0 then c.getSceneIndex
          (c.relocaliserProcessFrame s.world s.primaryTrackingSuccess).2 s.primaryDataIdx
          else -1) < 0) = decide (s.primaryDataIdx < 0) := by
      by_cases hp : s.primaryDataIdx ≥ 0
      · have := hidx hp
        simp only [hp, if_true]
        rw [decide_eq_false (by omega), decide_eq_false (by omega)]
      · simp only [hp, if_false]
        rw [decide_eq_true (by omega), decide_eq_true (by omega)]
    rw [← hflag, ← newLinkLoop_eq_linkAttempts]
    have hk' : ¬ (c.relocaliserProcessFrame s.world s.primaryTrackingSuccess).1.addKeyframeIdx ≥ 0 :=
      by omega
    simp [terminatorStep, hk', WalkState.log]
  · intro fuel s' hs
    obtain ⟨m, hm, -⟩ := walk_eq_walkPrefix c (initialWalkState c eng hasImu) fuel 0 s' hs
    rw [hm]
    exact walkPrefix_linked c _ (initialWalkState_linked c eng hasImu) m

/-- C23, at a concrete terminator: the primary was tracked GOOD, the relocaliser adds no
keyframe and proposes keyframes `1`, `2`, `3` at distances `0`, `1/20`, `1/2`.  The first two
are attempted, in this order, with `makePrimaryIfNone = false`; the manager accepts the first
(entry `1` is appended with `preprepare`) and refuses the second (nothing is appended). -/
theorem C23_link_attempts_witness :
    (terminatorStep twoNeighbourScript.collaborators 1
      (walkPrefix twoNeighbourScript.collaborators
        (initialWalkState twoNeighbourScript.collaborators freshEngine false) 1)).todoList =
      [TodoListEntry.make 0 true true true, terminator, linkEntry 1] ∧
    (terminatorStep twoNeighbourScript.collaborators 1
      (walkPrefix twoNeighbourScript.collaborators
        (initialWalkState twoNeighbourScript.collaborators freshEngine false) 1)).trace.drop 7 =
      [Event.UpdateHostFromDevice 1, Event.relocaliserProcessFrame 1 true (-1),
       Event.retrievePose 1 1, Event.initiateNewLink 1 1 0 false 1,
       Event.retrievePose 1 2, Event.initiateNewLink 1 2 0 false (-1)] ∧
    terminatorStep twoNeighbourScript.collaborators 1
      (walkPrefix twoNeighbourScript.collaborators
        (initialWalkState twoNeighbourScript.collaborators freshEngine false) 1) =
      linkAttempts twoNeighbourScript.collaborators 1
        (decide ((walkPrefix twoNeighbourScript.collaborators
          (initialWalkState twoNeighbourScript.collaborators freshEngine false) 1).primaryDataIdx
            < 0))
        (twoNeighbourScript.collaborators.relocaliserProcessFrame
          (walkPrefix twoNeighbourScript.collaborators
            (initialWalkState twoNeighbourScript.collaborators freshEngine false) 1).world
          (walkPrefix twoNeighbourScript.collaborators
            (initialWalkState twoNeighbourScript.collaborators freshEngine false)
              1).primaryTrackingSuccess).1
        { (walkPrefix twoNeighbourScript.collaborators
            (initialWalkState twoNeighbourScript.collaborators freshEngine false) 1) with
          world := (twoNeighbourScript.collaborators.relocaliserProcessFrame
            (walkPrefix twoNeighbourScript.collaborators
              (initialWalkState twoNeighbourScript.collaborators freshEngine false) 1).world
            (walkPrefix twoNeighbourScript.collaborators
              (initialWalkState twoNeighbourScript.collaborators freshEngine false)
                1).primaryTrackingSuccess).2,
          trace := (walkPrefix twoNeighbourScript.collaborators
              (initialWalkState twoNeighbourScript.collaborators freshEngine false) 1).trace ++
            [Event.UpdateHostFromDevice 1,
             Event.relocaliserProcessFrame 1
              (walkPrefix twoNeighbourScript.collaborators
                (initialWalkState twoNeighbourScript.collaborators freshEngine false)
                  1).primaryTrackingSuccess
              (twoNeighbourScript.collaborators.relocaliserProcessFrame
                (walkPrefix twoNeighbourScript.collaborators
                  (initialWalkState twoNeighbourScript.collaborators freshEngine false) 1).world
                (walkPrefix twoNeighbourScript.collaborators
                  (initialWalkState twoNeighbourScript.collaborators freshEngine false)
                    1).primaryTrackingSuccess).1.addKeyframeIdx] } :=
  ⟨by decide!, by decide!,
    (C23_link_attempts twoNeighbourScript.collaborators 1
      (walkPrefix twoNeighbourScript.collaborators
        (initialWalkState twoNeighbourScript.collaborators freshEngine false) 1)
      freshEngine false 2 (by decide!) (by decide!)).1⟩

theorem take_succ_set (l : List TodoListEntry) (i : Nat) (x : TodoListEntry)
    (h : i < l.length) : (l.set i x).take (i + 1) = l.take i ++ [x] := by
  induction l generalizing i with
  | nil => simp at h
  | cons a l ih =>
    cases i with
    | zero => simp
    | succ i =>
      simp only [List.length_cons, Nat.add_lt_add_iff_right] at h
      simpa using ih i h

theorem getD_set_self (l : List TodoListEntry) (i : Nat) (x : TodoListEntry)
    (h : i < l.length) : (l.set i x).getD i terminator = x := by
  simp [List.getD_eq_getElem?_getD, h]

/-- The tracking block on an entry that the manager reports as PRIMARY and whose tracking
result is FAILED: the list is cut after the entry and a terminator appended, and
`primaryDataIdx` becomes `-1`. -/
theorem trackBlock_primary_failed (c : Collaborators W Pose) (i : Nat) (sc : Int)
    (t : WalkState W Pose) (hi : i < t.todoList.length)
    (hp : c.getSceneType (c.Track t.world sc (t.pose_d sc)).2
      (t.todoList.getD i terminator).dataID = SceneType.PRIMARY_SCENE)
    (hf : (c.Track t.world sc (t.pose_d sc)).1.2 = TrackingResult.TRACKING_FAILED) :
    (trackBlock c i sc t).todoList = t.todoList.take i ++
      [{ t.todoList.getD i terminator with fusion := false, prepare := false }, terminator] ∧
    (trackBlock c i sc t).primaryDataIdx = -1 ∧
    (trackBlock c i sc t).primaryTrackingSuccess = t.primaryTrackingSuccess := by
  have hi' : i < (t.todoList.set i { t.todoList.getD i terminator with fusion := false }).length := by
    simpa using hi
  simp only [trackBlock, WalkState.log, WalkState.setEntry, effectiveResult]
  simp only [hp, hf, ne_eq, not_true_eq_false, if_false, if_true, reduceCtorEq,
    not_false_eq_true, and_self, and_true]
  rw [getD_set_self _ _ _ hi, List.set_set, take_succ_set _ _ _ hi]
  simp

theorem newLinkLoop_flag (c : Collaborators W Pose) (i : Nat) (p : Int) (r : RelocOutput) :
    ∀ (n j : Nat) (s : WalkState W Pose),
      (newLinkLoop c i p r n j s).primaryTrackingSuccess = s.primaryTrackingSuccess := by
  intro n
  induction n with
  | zero => intro j s; rfl
  | succ n ih =>
    intro j s
    simp only [newLinkLoop]
    rw [ih, newLinkBody_eq]
    unfold attemptLink
    dsimp only
    split_ifs <;> rfl

theorem terminatorStep_flag (c : Collaborators W Pose) (i : Nat) (s : WalkState W Pose) :
    (terminatorStep c i s).primaryTrackingSuccess = s.primaryTrackingSuccess := by
  unfold terminatorStep
  dsimp only
  split
  · rfl
  · rw [newLinkLoop_flag]
    rfl

/-- The flag `primaryTrackingSuccess` is raised only by a PRIMARY entry tracked GOOD. -/
theorem trackBlock_flag (c : Collaborators W Pose) (i : Nat) (sc : Int) (t : WalkState W Pose)
    (h : (trackBlock c i sc t).primaryTrackingSuccess = true) :
    t.primaryTrackingSuccess = true ∨
      (c.getSceneType (c.Track t.world sc (t.pose_d sc)).2
          (t.todoList.getD i terminator).dataID = SceneType.PRIMARY_SCENE ∧
        effectiveResult (c.getSceneType (c.Track t.world sc (t.pose_d sc)).2
          (t.todoList.getD i terminator).dataID) (c.Track t.world sc (t.pose_d sc)).1.2 =
          TrackingResult.TRACKING_GOOD) := by
  simp only [trackBlock, WalkState.log, WalkState.setEntry] at h
  split_ifs at h <;> simp_all

theorem walkStep_flag (c : Collaborators W Pose) (i : Nat) (s : WalkState W Pose)
    (h : (walkStep c i s).primaryTrackingSuccess = true) :
    s.primaryTrackingSuccess = true ∨ primaryGoodAt c i s := by
  unfold walkStep at h
  split at h
  · rw [terminatorStep_flag] at h
    exact Or.inl h
  · rename_i hd
    rw [regularStep_eq] at h
    have hb := stateBeforeTrack_fields c i s
    rw [(fusePrepareBlock_fields c i _ _).2.2.2.1] at h
    have hentry : (stateBeforeTrack c i s).entry i = s.entry i := by
      simp [WalkState.entry, hb.1]
    rw [hentry] at h
    by_cases ht : (s.entry i).track = true
    · simp only [ht, if_true] at h
      rcases trackBlock_flag c i _ _ h with h1 | ⟨h1, h2⟩
      · rw [hb.2.2.2.1] at h1
        exact Or.inl h1
      · rw [hb.1] at h1 h2
        exact Or.inr ⟨hd, ht, h1, h2⟩
    · simp only [ht, Bool.false_eq_true, if_false] at h
      rw [hb.2.2.2.1] at h
      exact Or.inl h

/-- During the walk of a frame the flag `primaryTrackingSuccess` is set only after an
iteration that tracked a PRIMARY entry with result GOOD. -/
theorem walkPrefix_flag (c : Collaborators W Pose) (eng : ITMMultiEngine W Pose)
    (hasImu : Bool) :
    ∀ n, (walkPrefix c (initialWalkState c eng hasImu) n).primaryTrackingSuccess = true →
      ∃ j, j < n ∧ primaryGoodAt c j (walkPrefix c (initialWalkState c eng hasImu) j) := by
  intro n
  induction n with
  | zero =>
    intro h
    simp [walkPrefix, initialWalkState] at h
  | succ n ih =>
    intro h
    simp only [walkPrefix] at h
    split at h
    · rcases walkStep_flag c n _ h with h1 | h1
      · obtain ⟨j, hj, hg⟩ := ih h1
        exact ⟨j, by omega, hg⟩
      · exact ⟨n, by omega, h1⟩
    · obtain ⟨j, hj, hg⟩ := ih h
      exact ⟨j, by omega, hg⟩

/-- One iteration on a tracked entry that the manager reports as PRIMARY and whose tracking
result is FAILED. -/
theorem walkStep_primary_failed (c : Collaborators W Pose) (i : Nat) (s : WalkState W Pose)
    (hi : i < s.todoList.length) (hd : (s.entry i).dataID ≠ -1)
    (ht : (s.entry i).track = true)
    (hp : sceneTypeAt c i s = SceneType.PRIMARY_SCENE)
    (hf : trackingResultAt c i s = TrackingResult.TRACKING_FAILED) :
    (walkStep c i s).todoList = s.todoList.take i ++
      [{ s.entry i with fusion := false, prepare := false }, terminator] ∧
    (walkStep c i s).primaryDataIdx = -1 ∧
    (walkStep c i s).primaryTrackingSuccess = s.primaryTrackingSuccess ∧
    ∃ evs, (walkStep c i s).trace = s.trace ++ evs ∧ ∀ e ∈ evs, e.index = some i := by
  have hw : walkStep c i s = regularStep c i s := by
    unfold walkStep
    rw [← WalkState.entry]
    simp [hd]
  have hb := stateBeforeTrack_fields c i s
  have hentry : (stateBeforeTrack c i s).entry i = s.entry i := by
    simp [WalkState.entry, hb.1]
  have hreg : regularStep c i s = fusePrepareBlock c i (currentSceneIdxAt c i s)
      (trackBlock c i (currentSceneIdxAt c i s) (stateBeforeTrack c i s)) := by
    rw [regularStep_eq, hentry, ht]
    rfl
  have hfp := fusePrepareBlock_fields c i (currentSceneIdxAt c i s)
    (trackBlock c i (currentSceneIdxAt c i s) (stateBeforeTrack c i s))
  have hp' : c.getSceneType (c.Track (stateBeforeTrack c i s).world (currentSceneIdxAt c i s)
      ((stateBeforeTrack c i s).pose_d (currentSceneIdxAt c i s))).2
      ((stateBeforeTrack c i s).todoList.getD i terminator).dataID = SceneType.PRIMARY_SCENE := by
    rw [hb.1]
    exact hp
  have hf' : (c.Track (stateBeforeTrack c i s).world (currentSceneIdxAt c i s)
      ((stateBeforeTrack c i s).pose_d (currentSceneIdxAt c i s))).1.2 =
      TrackingResult.TRACKING_FAILED := by
    have := hf
    unfold trackingResultAt at this
    rw [hp, effectiveResult_primary] at this
    exact this
  obtain ⟨t1, t2, t3⟩ := trackBlock_primary_failed c i (currentSceneIdxAt c i s)
    (stateBeforeTrack c i s) (by rw [hb.1]; exact hi) hp' hf'
  obtain ⟨b, hr1, -, -⟩ := regularStep_fields c i s hi
  refine ⟨?_, ?_, ?_, ?_⟩
  · rw [hw, hreg, hfp.1, t1, hb.1]
    rfl
  · rw [hw, hreg, hfp.2.2.1, t2]
  · rw [hw, hreg, hfp.2.2.2.1, t3, hb.2.2.2.1]
  · rw [hw]
    exact ⟨_, hr1, (regular_events_counts c i s b _ _ _ _ _ _).2.2⟩

/-- C22: in the walk of a frame, let iteration `i` track an entry that the manager reports as
PRIMARY with result FAILED, no PRIMARY entry having been tracked GOOD before it in the frame.
The iteration makes calls for entry `i` only and leaves the list cut to its first `i + 1`
entries (entry `i` with fusion and prepare cleared) followed by a terminator, so that every
entry that stood after index `i` is gone, and `primaryDataIdx = -1`.  The next iteration is the
terminator: it queries the relocaliser with `primarySucceeded = false`, and after the query
makes keyframe and link calls only. -/
theorem C22_primary_failure_cuts_list (c : Collaborators W Pose) (eng : ITMMultiEngine W Pose)
    (hasImu : Bool) (i : Nat)
    (hi : i < (walkPrefix c (initialWalkState c eng hasImu) i).todoList.length)
    (hd : ((walkPrefix c (initialWalkState c eng hasImu) i).entry i).dataID ≠ -1)
    (ht : ((walkPrefix c (initialWalkState c eng hasImu) i).entry i).track = true)
    (hp : sceneTypeAt c i (walkPrefix c (initialWalkState c eng hasImu) i) =
      SceneType.PRIMARY_SCENE)
    (hf : trackingResultAt c i (walkPrefix c (initialWalkState c eng hasImu) i) =
      TrackingResult.TRACKING_FAILED)
    (hu : ∀ j, j < i → ¬ primaryGoodAt c j (walkPrefix c (initialWalkState c eng hasImu) j)) :
    (walkPrefix c (initialWalkState c eng hasImu) (i + 1)).todoList =
      (walkPrefix c (initialWalkState c eng hasImu) i).todoList.take i ++
        [{ (walkPrefix c (initialWalkState c eng hasImu) i).entry i with
            fusion := false, prepare := false }, terminator] ∧
    (walkPrefix c (initialWalkState c eng hasImu) (i + 1)).primaryDataIdx = -1 ∧
    (∃ evs, (walkPrefix c (initialWalkState c eng hasImu) (i + 1)).trace =
        (walkPrefix c (initialWalkState c eng hasImu) i).trace ++ evs ∧
      ∀ e ∈ evs, e.index = some i) ∧
    (∃ k evs extra, (walkPrefix c (initialWalkState c eng hasImu) (i + 2)).trace =
        (walkPrefix c (initialWalkState c eng hasImu) (i + 1)).trace ++
          Event.UpdateHostFromDevice (i + 1) ::
            Event.relocaliserProcessFrame (i + 1) false k :: evs ∧
      (∀ e ∈ evs, e.index = some (i + 1) ∧ e.isKeyframeCall = true) ∧
      (walkPrefix c (initialWalkState c eng hasImu) (i + 2)).todoList =
        (walkPrefix c (initialWalkState c eng hasImu) (i + 1)).todoList ++ extra ∧
      ∀ e ∈ extra, 0 ≤ e.dataID) := by
  have hflag : (walkPrefix c (initialWalkState c eng hasImu) i).primaryTrackingSuccess = false := by
    cases hb : (walkPrefix c (initialWalkState c eng hasImu) i).primaryTrackingSuccess
    · rfl
    · obtain ⟨j, hj, hg⟩ := walkPrefix_flag c eng hasImu i hb
      exact absurd hg (hu j hj)
  have e1 : walkPrefix c (initialWalkState c eng hasImu) (i + 1) =
      walkStep c i (walkPrefix c (initialWalkState c eng hasImu) i) := by
    simp only [walkPrefix, hi, if_true]
  obtain ⟨a1, a2, a3, a4⟩ := walkStep_primary_failed c i _ hi hd ht hp hf
  rw [← e1] at a1 a2 a3 a4
  have htake : ((walkPrefix c (initialWalkState c eng hasImu) i).todoList.take i).length = i := by
    rw [List.length_take]
    omega
  have hlen : (walkPrefix c (initialWalkState c eng hasImu) (i + 1)).todoList.length = i + 2 := by
    rw [a1, List.length_append, htake]
    rfl
  have hterm : ((walkPrefix c (initialWalkState c eng hasImu) (i + 1)).todoList.getD (i + 1)
      terminator).dataID = -1 := by
    rw [a1, List.getD_eq_getElem?_getD, List.getElem?_append_right (by omega), htake]
    simp [terminator, TodoListEntry.make]
  have e2 : walkPrefix c (initialWalkState c eng hasImu) (i + 2) =
      terminatorStep c (i + 1) (walkPrefix c (initialWalkState c eng hasImu) (i + 1)) := by
    have hlt : i + 1 < (walkPrefix c (initialWalkState c eng hasImu) (i + 1)).todoList.length := by
      omega
    show walkPrefix c (initialWalkState c eng hasImu) (i + 1 + 1) = _
    rw [walkPrefix]
    simp only [hlt, if_true]
    unfold walkStep
    rw [if_pos hterm]
  obtain ⟨k, evs, extra, b1, b2, -, b4, b5⟩ := terminatorStep_fields c (i + 1)
    (walkPrefix c (initialWalkState c eng hasImu) (i + 1))
  rw [← e2, a3, hflag] at b1
  rw [← e2] at b2
  exact ⟨a1, a2, a4, k, evs, extra, b1, b4, b2, b5⟩

/-- C22, at a concrete frame: the primary (entry `0`) is followed by a relocalisation
candidate (entry `1`) and the terminator; the primary is tracked FAILED.  After iteration `0`
the list is the primary's entry and a terminator, the candidate's entry is gone, and iteration
`1` queries the relocaliser with `primarySucceeded = false`. -/
theorem C22_primary_failure_cuts_list_witness :
    (walkPrefix failedPrimaryScript.collaborators
        (initialWalkState failedPrimaryScript.collaborators freshEngine false) 0).todoList =
      [TodoListEntry.make 0 true true true, TodoListEntry.make 1 true false true, terminator] ∧
    (walkPrefix failedPrimaryScript.collaborators
        (initialWalkState failedPrimaryScript.collaborators freshEngine false) 1).todoList =
      [TodoListEntry.make 0 true false false, terminator] ∧
    (walkPrefix failedPrimaryScript.collaborators
        (initialWalkState failedPrimaryScript.collaborators freshEngine false) 2).trace =
      [Event.getScene 0 0, Event.Track 0 0 0 TrackingResult.TRACKING_FAILED,
       Event.getSceneType 0 0 SceneType.PRIMARY_SCENE,
       Event.getSceneType 0 0 SceneType.PRIMARY_SCENE,
       Event.resize 0 1,
       Event.recordTrackingResult 0 0 TrackingResult.TRACKING_FAILED false,
       Event.UpdateHostFromDevice 1, Event.relocaliserProcessFrame 1 false (-1)] ∧
    (walkPrefix failedPrimaryScript.collaborators
        (initialWalkState failedPrimaryScript.collaborators freshEngine false) (0 + 1)).todoList =
      (walkPrefix failedPrimaryScript.collaborators
        (initialWalkState failedPrimaryScript.collaborators freshEngine false) 0).todoList.take 0 ++
        [{ (walkPrefix failedPrimaryScript.collaborators
              (initialWalkState failedPrimaryScript.collaborators freshEngine false) 0).entry 0 with
            fusion := false, prepare := false }, terminator] ∧
    (walkPrefix failedPrimaryScript.collaborators
        (initialWalkState failedPrimaryScript.collaborators freshEngine false)
        (0 + 1)).primaryDataIdx = -1 :=
  ⟨by decide!, by decide!, by decide!,
    (C22_primary_failure_cuts_list failedPrimaryScript.collaborators freshEngine false 0
      (by decide!) (by decide!) (by decide!) (by decide!) (by decide!)
      (fun j hj => absurd hj (Nat.not_lt_zero j))).1,
    (C22_primary_failure_cuts_list failedPrimaryScript.collaborators freshEngine false 0
      (by decide!) (by decide!) (by decide!) (by decide!) (by decide!)
      (fun j hj => absurd hj (Nat.not_lt_zero j))).2.1⟩

/-! ### The relocaliser queries of a frame under the manager contract -/

theorem LinksNotPrimary_of_subset (tr tr' : List (Event Pose)) (hsub : ∀ e ∈ tr, e ∈ tr')
    (h : LinksNotPrimary tr') : LinksNotPrimary tr := by
  intro j k sc p b d hd h1 h2
  exact h j k sc p b d hd (hsub _ h1) (hsub _ h2)

theorem newLinkLoop_extra (c : Collaborators W Pose) (i : Nat) (p : Int) (r : RelocOutput) :
    ∀ (n j : Nat) (s : WalkState W Pose),
      ∃ extra, (newLinkLoop c i p r n j s).todoList = s.todoList ++ extra ∧
        ∀ e ∈ extra, e.preprepare = true := by
  intro n
  induction n with
  | zero => intro j s; exact ⟨[], by simp [newLinkLoop], by simp⟩
  | succ n ih =>
    intro j s
    obtain ⟨extra2, b1, b2⟩ := ih (j + 1) (newLinkBody c i p r j s)
    have hbody : ∃ extra, (newLinkBody c i p r j s).todoList = s.todoList ++ extra ∧
        ∀ e ∈ extra, e.preprepare = true := by
      rw [newLinkBody_eq]
      split
      · unfold attemptLink
        dsimp only
        split
        · exact ⟨[linkEntry _], rfl, by simp [linkEntry]⟩
        · exact ⟨[], by simp, by simp⟩
      · exact ⟨[], by simp, by simp⟩
    obtain ⟨extra1, a1, a2⟩ := hbody
    refine ⟨extra1 ++ extra2, ?_, ?_⟩
    · simp only [newLinkLoop]; rw [b1, a1, List.append_assoc]
    · intro e he
      rcases List.mem_append.1 he with h | h
      · exact a2 e h
      · exact b2 e h

/-- The entries a terminator appends are entries of links. -/
theorem terminatorStep_extra (c : Collaborators W Pose) (i : Nat) (s : WalkState W Pose) :
    ∃ extra, (terminatorStep c i s).todoList = s.todoList ++ extra ∧
      ∀ e ∈ extra, e.preprepare = true := by
  unfold terminatorStep
  dsimp only
  split
  · exact ⟨[], by simp [WalkState.log], by simp⟩
  · obtain ⟨extra, h1, h2⟩ := newLinkLoop_extra c i
      (if s.primaryDataIdx ≥ 0 then c.getSceneIndex
        (c.relocaliserProcessFrame s.world s.primaryTrackingSuccess).2 s.primaryDataIdx else -1)
      (c.relocaliserProcessFrame s.world s.primaryTrackingSuccess).1 k_loopcloseneighbours 0
      (({ (s.log (.UpdateHostFromDevice i)) with
          world := (c.relocaliserProcessFrame s.world s.primaryTrackingSuccess).2 } :
            WalkState W Pose).log
        (.relocaliserProcessFrame i s.primaryTrackingSuccess
          (c.relocaliserProcessFrame s.world s.primaryTrackingSuccess).1.addKeyframeIdx))
    exact ⟨extra, by simpa [WalkState.log] using h1, h2⟩

theorem walkStep_trace_subset (c : Collaborators W Pose) (i : Nat) (s : WalkState W Pose)
    (hi : i < s.todoList.length) : ∀ e ∈ s.trace, e ∈ (walkStep c i s).trace := by
  intro e he
  unfold walkStep
  split
  · obtain ⟨k, evs, extra, h1, -⟩ := terminatorStep_fields c i s
    rw [h1]
    exact List.mem_append_left _ he
  · obtain ⟨b, h1, -⟩ := regularStep_fields c i s hi
    rw [h1]
    exact List.mem_append_left _ he

/-- One iteration of a walk in which no link is reported as primary keeps the phases: the
terminator is reached once, as the last entry of the first pass, and no entry appended after
it resizes the list. -/
theorem walkStep_phase (c : Collaborators W Pose) (i : Nat) (s : WalkState W Pose)
    (hi : i < s.todoList.length) (hl : PreprepareOnlyForLinks s)
    (hm : LinksNotPrimary (walkStep c i s).trace) (h : QueryPhase s i) :
    QueryPhase (walkStep c i s) (i + 1) := by
  have hdrop : s.todoList.drop i = s.todoList[i] :: s.todoList.drop (i + 1) :=
    List.drop_eq_getElem_cons hi
  have hentry := entry_eq_getElem s i hi
  have hmem : s.todoList[i] ∈ s.todoList.drop i := by
    rw [hdrop]; exact List.mem_cons_self _ _
  unfold walkStep at hm ⊢
  rw [← WalkState.entry] at hm ⊢
  by_cases hterm : (s.entry i).dataID = -1
  · simp only [hterm, if_true] at hm ⊢
    obtain ⟨k, evs, extra0, h1, -, -, h4, -⟩ := terminatorStep_fields c i s
    obtain ⟨extra, h2, h5⟩ := terminatorStep_extra c i s
    have hc := countP_eq_zero_of_keyframeCalls evs (fun e he => (h4 e he).2)
    have hr : relocaliserCalls (terminatorStep c i s).trace = relocaliserCalls s.trace + 1 := by
      have := hc.1
      unfold relocaliserCalls at this ⊢
      rw [h1, List.countP_append, List.countP_cons, List.countP_cons, this]
      simp [Event.isRelocaliserCall]
    rcases h with ⟨h0, l, hl1, hl2⟩ | ⟨h0, hall⟩
    · right
      rw [hdrop] at hl1
      cases l with
      | nil =>
        simp only [List.nil_append, List.cons.injEq] at hl1
        refine ⟨by rw [hr, h0], ?_⟩
        rw [h2, List.drop_append_of_le_length (by omega), hl1.2]
        simpa using h5
      | cons e l' =>
        simp only [List.cons_append, List.cons.injEq] at hl1
        have hne := hl2 e (List.mem_cons_self _ _)
        rw [← hl1.1, ← hentry] at hne
        exact absurd hterm hne
    · exfalso
      have hp := hall _ hmem
      obtain ⟨h0', -⟩ := hl _ (List.getElem_mem hi) hp
      rw [← hentry, hterm] at h0'
      omega
  · simp only [hterm, if_false] at hm ⊢
    obtain ⟨b, h1, h2, -⟩ := regularStep_fields c i s hi
    obtain ⟨c1, -, -⟩ := regular_events_counts c i s b
      ((s.entry i).fusion && decide (trackingResultAt c i s = TrackingResult.TRACKING_GOOD))
      ((s.entry i).prepare && decide (trackingResultAt c i s ≠ TrackingResult.TRACKING_FAILED))
      (s.entry i).fusion (s.entry i).prepare (s.entry i).preprepare (currentSceneIdxAt c i s)
    have hr : relocaliserCalls (regularStep c i s).trace = relocaliserCalls s.trace := by
      unfold relocaliserCalls at c1 ⊢
      rw [h1, List.countP_append, c1]
      simp
    rcases h with ⟨h0, l, hl1, hl2⟩ | ⟨h0, hall⟩
    · left
      refine ⟨by rw [hr, h0], ?_⟩
      rw [h2]
      split_ifs
      · exact ⟨[], rfl, by simp⟩
      · rw [hdrop] at hl1
        cases l with
        | nil =>
          simp only [List.nil_append, List.cons.injEq] at hl1
          exfalso
          apply hterm
          rw [hentry, hl1.1]
          rfl
        | cons e l' =>
          simp only [List.cons_append, List.cons.injEq] at hl1
          exact ⟨l', hl1.2, fun e he => hl2 e (List.mem_cons_of_mem _ he)⟩
    · right
      refine ⟨by rw [hr, h0], ?_⟩
      rw [h2]
      split_ifs with hres
      · exfalso
        have hp := hall _ hmem
        obtain ⟨hd0, -, -, j, sc, p, bb, hev⟩ := hl _ (List.getElem_mem hi) hp
        rw [← hentry] at hd0 hev
        apply hm j i sc p bb (s.entry i).dataID hd0
        · rw [h1]
          exact List.mem_append_left _ hev
        · rw [h1]
          simp [hres.1, hres.2.1, trackEvents]
      · intro e he
        exact hall e (by rw [hdrop]; exact List.mem_cons_of_mem _ he)

/-- A frame in which the manager reports no link of the frame as primary queries the
relocaliser exactly once: every resize of the todo list cuts the terminator of the first pass
before it is reached and puts one in its place. -/
theorem ProcessFrame_one_query (c : Collaborators W Pose) (fuel : Nat)
    (eng : ITMMultiEngine W Pose) (hasImu : Bool) (out : FrameOutcome W Pose)
    (h : ProcessFrame c fuel eng hasImu = some out) (hm : LinksNotPrimary out.trace) :
    relocaliserCalls out.trace = 1 := by
  obtain ⟨s, hs, ht, -, -, -⟩ := ProcessFrame_some c fuel eng hasImu out h
  obtain ⟨evs, h1, h2, -⟩ := globalAdjustmentBlock_trace c eng.mScheduleGlobalAdjustment s
  have hms : LinksNotPrimary s.trace :=
    LinksNotPrimary_of_subset _ _
      (fun e he => by rw [ht, h1]; exact List.mem_append_left _ he) hm
  obtain ⟨j, hj, -, hP⟩ := walk_invariant c
    (fun i s => PreprepareOnlyForLinks s ∧ (LinksNotPrimary s.trace → QueryPhase s i))
    (fun i s hi hP => ⟨walkStep_linked c i s hP.1, fun hm' =>
      walkStep_phase c i s hi hP.1 hm'
        (hP.2 (LinksNotPrimary_of_subset _ _ (walkStep_trace_subset c i s hi) hm'))⟩)
    fuel 0 _ s hs
    ⟨initialWalkState_linked c eng hasImu, fun _ => Or.inl ⟨rfl, by
      refine ⟨_, rfl, ?_⟩
      intro e he
      have h0 : 0 ≤ e.dataID := by
        apply activeScenesLoop_dataID c _ _ 0 _ (le_refl 0) _ e he
        intro e he
        split at he
        · rename_i hp
          simp only [List.mem_singleton] at he
          subst he
          exact hp
        · simp at he
      omega⟩⟩
  have hr : relocaliserCalls out.trace = relocaliserCalls s.trace := by
    rw [ht, h1]
    unfold relocaliserCalls
    rw [List.countP_append]
    have : List.countP Event.isRelocaliserCall evs = 0 := by
      rw [List.countP_eq_zero]
      intro e he
      simp [(index_none_kinds e (h2 e he)).1]
    omega
  rw [hr]
  rcases hP hms with ⟨-, l, hl1, -⟩ | ⟨h0, -⟩
  · rw [List.drop_eq_nil_of_le hj] at hl1
    simp at hl1
  · exact h0

/-- C5: in every frame that returns (and it then returns the same with any more fuel), the
walk processes a terminator, and so queries the relocaliser, at least once.  When the active
map manager keeps its contract on links (`LinksNotPrimary`: it reports no link attached in
the frame as primary) it does so at most twice.  A second query implies an entry that the
manager reported as primary and whose tracking result in the frame was FAILED: the queries
are at most one more than the resizes of the todo list, and the list is resized only at such
an entry. -/
theorem C5_terminator_passes (c : Collaborators W Pose) (fuel : Nat)
    (eng : ITMMultiEngine W Pose) (hasImu : Bool) (out : FrameOutcome W Pose)
    (h : ProcessFrame c fuel eng hasImu = some out) :
    (∀ k, ProcessFrame c (fuel + k) eng hasImu = some out) ∧
    1 ≤ relocaliserCalls out.trace ∧
    (LinksNotPrimary out.trace → relocaliserCalls out.trace ≤ 2) ∧
    (2 ≤ relocaliserCalls out.trace →
      ∃ i d b, Event.getSceneType i d SceneType.PRIMARY_SCENE ∈ out.trace ∧
        Event.recordTrackingResult i d TrackingResult.TRACKING_FAILED b ∈ out.trace) ∧
    relocaliserCalls out.trace ≤ 1 + resizeCalls out.trace ∧
    (∀ i n, Event.resize i n ∈ out.trace →
      ∃ d b, Event.getSceneType i d SceneType.PRIMARY_SCENE ∈ out.trace ∧
        Event.recordTrackingResult i d TrackingResult.TRACKING_FAILED b ∈ out.trace) := by
  obtain ⟨h1, h2⟩ := ProcessFrame_counts c fuel eng hasImu out h
  have h3 := (ProcessFrame_trace_rules c fuel eng hasImu out h).2
  refine ⟨ProcessFrame_fuel_mono c fuel eng hasImu out h, h1, ?_, ?_, h2, h3⟩
  · intro hm
    rw [ProcessFrame_one_query c fuel eng hasImu out h hm]
    omega
  · intro h4
    have hpos : 0 < resizeCalls out.trace := by omega
    unfold resizeCalls at hpos
    obtain ⟨e, he, hr⟩ := List.countP_pos_iff.1 hpos
    cases e <;> simp [Event.isResize] at hr
    rename_i i n
    obtain ⟨d, b, hd, hb⟩ := h3 i n he
    exact ⟨i, d, b, hd, hb⟩

/-- C5, at a concrete frame: the primary (todo index `0`) fails to track, the list is cut and
a terminator appended; the relocaliser is queried at that terminator, a link is attached as
entry `1` and tracked, and the manager reports it as a RELOCALISATION entry.  The manager
keeps its contract on links, and the relocaliser is queried once. -/
theorem C5_terminator_passes_witness :
    ∃ out, ProcessFrame relocalisationScript.collaborators 10 freshEngine false = some out ∧
      LinksNotPrimary out.trace ∧
      out.trace.filter (fun e => e.isRelocaliserCall || e.isTrack || e.isResize ||
          e.isKeyframeCall && decide (e.index = some 1)) =
        [Event.Track 0 0 0 TrackingResult.TRACKING_FAILED,
         Event.resize 0 1,
         Event.relocaliserProcessFrame 1 false (-1),
         Event.retrievePose 1 1,
         Event.initiateNewLink 1 1 0 true 1,
         Event.Track 2 1 1 TrackingResult.TRACKING_GOOD] ∧
      (∀ k, ProcessFrame relocalisationScript.collaborators (10 + k) freshEngine false =
        some out) ∧
      1 ≤ relocaliserCalls out.trace ∧
      relocaliserCalls out.trace ≤ 2 := by
  have ht : (ProcessFrame relocalisationScript.collaborators 10 freshEngine false).map
      (fun o => o.trace) = some
        [Event.getScene 0 0,
         Event.Track 0 0 0 TrackingResult.TRACKING_FAILED,
         Event.getSceneType 0 0 SceneType.PRIMARY_SCENE,
         Event.getSceneType 0 0 SceneType.PRIMARY_SCENE,
         Event.resize 0 1,
         Event.recordTrackingResult 0 0 TrackingResult.TRACKING_FAILED false,
         Event.UpdateHostFromDevice 1,
         Event.relocaliserProcessFrame 1 false (-1),
         Event.retrievePose 1 1,
         Event.initiateNewLink 1 1 0 true 1,
         Event.getScene 2 1,
         Event.UpdateVisibleList 2 1,
         Event.Prepare 2 1,
         Event.Track 2 1 1 TrackingResult.TRACKING_GOOD,
         Event.getSceneType 2 1 SceneType.RELOCALISATION,
         Event.getSceneType 2 1 SceneType.RELOCALISATION,
         Event.recordTrackingResult 2 1 TrackingResult.TRACKING_GOOD false,
         Event.UpdateVisibleList 2 1,
         Event.Prepare 2 1,
         Event.maintainActiveData false,
         Event.retrieveNewEstimates] := by
    decide!
  match hp : ProcessFrame relocalisationScript.collaborators 10 freshEngine false with
  | none => rw [hp] at ht; cases ht
  | some out =>
    rw [hp] at ht
    simp only [Option.map_some', Option.some.injEq] at ht
    have hm : LinksNotPrimary out.trace := by
      intro j k sc p b d hd h1 h2
      rw [ht] at h1 h2
      simp at h1 h2
      omega
    have := C5_terminator_passes _ 10 freshEngine false out hp
    exact ⟨out, rfl, hm, by rw [ht]; decide, this.1, this.2.1, this.2.2.1 hm⟩

end Further

end ITMLib
